import Mathlib

/-! # CareercraftAI frontend: session and request orchestration

A shallow embedding of the orchestration logic of the React frontend
(`src/app/frontend/src`): the skill list and the two workflows of the job
page, the prediction form, the axios interceptors, the route guard and the
session of `App.js`, the resume page, and the composer and the log of the
chat page.

Conventions of the embedding.

* A React component is a record of its `useState` cells. An event handler is
  a function from the record to the record. The effects a handler emits
  (toasts, HTTP requests) are appended to log fields of the record, so that
  "no request was sent" is the statement that the log did not grow.
* An `async` handler is split at its `await`: the part before it is the
  handler itself, and the two continuations are named `_fulfilled` (the
  `try` body after the `await`, then `finally`) and `_rejected` (`catch`,
  then `finally`).
* JavaScript strings are Lean strings, lists of Unicode scalar values (a
  string with an unpaired surrogate has no counterpart); `trim` and
  `toLowerCase` are defined below on the list of characters, `toLowerCase`
  from the table of lowercase mappings of the Unicode Character Database.
* A handler is embedded as the function it is, callable in every state. What
  the markup around it adds (a disabled button, `min` and `max` of an input)
  is embedded separately, as the event of the form that calls the handler.
-/

namespace CareercraftAI

/-! ## ECMAScript string primitives -/

/-- ECMAScript `WhiteSpace` and `LineTerminator` code points, the characters
that `String.prototype.trim` strips: TAB, LF, VT, FF, CR, SP, NBSP, the
`Zs` category, LS, PS and the byte order mark. -/
def isWhiteSpace (c : Char) : Bool :=
  c.toNat = 0x09 || c.toNat = 0x0A || c.toNat = 0x0B || c.toNat = 0x0C || c.toNat = 0x0D ||
  c.toNat = 0x20 || c.toNat = 0xA0 || c.toNat = 0x1680 ||
  (0x2000 ≤ c.toNat && c.toNat ≤ 0x200A) ||
  c.toNat = 0x2028 || c.toNat = 0x2029 || c.toNat = 0x202F || c.toNat = 0x205F ||
  c.toNat = 0x3000 || c.toNat = 0xFEFF

/-- `String.prototype.trim`: white space removed from both ends. -/
def trim (s : String) : String :=
  ⟨(s.data.dropWhile isWhiteSpace).rdropWhile isWhiteSpace⟩

/-- ECMAScript `WhiteSpace` and `LineTerminator`, as a predicate on code points. -/
def isWhiteSpaceCode (n : Nat) : Bool :=
  n = 0x09 || n = 0x0A || n = 0x0B || n = 0x0C || n = 0x0D ||
  n = 0x20 || n = 0xA0 || n = 0x1680 ||
  (0x2000 ≤ n && n ≤ 0x200A) ||
  n = 0x2028 || n = 0x2029 || n = 0x202F || n = 0x205F ||
  n = 0x3000 || n = 0xFEFF

/-- The simple lowercase mappings of the Unicode Character Database (version
14.0), in runs `(lo, hi, step, target)`: the code points `lo`, `lo + step`,
..., `hi` map to `target`, `target + step`, ... The capital I with dot above,
whose lowercase has two code points, is not in the table. -/
def lowerRuns : List (Nat × Nat × Nat × Nat) :=
  [
   (0x0041, 0x005A, 1, 0x0061), (0x00C0, 0x00D6, 1, 0x00E0), (0x00D8, 0x00DE, 1, 0x00F8), (0x0100, 0x012E, 2, 0x0101),
   (0x0132, 0x0136, 2, 0x0133), (0x0139, 0x0147, 2, 0x013A), (0x014A, 0x0176, 2, 0x014B), (0x0178, 0x0178, 1, 0x00FF),
   (0x0179, 0x017D, 2, 0x017A), (0x0181, 0x0181, 1, 0x0253), (0x0182, 0x0184, 2, 0x0183), (0x0186, 0x0186, 1, 0x0254),
   (0x0187, 0x0187, 1, 0x0188), (0x0189, 0x018A, 1, 0x0256), (0x018B, 0x018B, 1, 0x018C), (0x018E, 0x018E, 1, 0x01DD),
   (0x018F, 0x018F, 1, 0x0259), (0x0190, 0x0190, 1, 0x025B), (0x0191, 0x0191, 1, 0x0192), (0x0193, 0x0193, 1, 0x0260),
   (0x0194, 0x0194, 1, 0x0263), (0x0196, 0x0196, 1, 0x0269), (0x0197, 0x0197, 1, 0x0268), (0x0198, 0x0198, 1, 0x0199),
   (0x019C, 0x019C, 1, 0x026F), (0x019D, 0x019D, 1, 0x0272), (0x019F, 0x019F, 1, 0x0275), (0x01A0, 0x01A4, 2, 0x01A1),
   (0x01A6, 0x01A6, 1, 0x0280), (0x01A7, 0x01A7, 1, 0x01A8), (0x01A9, 0x01A9, 1, 0x0283), (0x01AC, 0x01AC, 1, 0x01AD),
   (0x01AE, 0x01AE, 1, 0x0288), (0x01AF, 0x01AF, 1, 0x01B0), (0x01B1, 0x01B2, 1, 0x028A), (0x01B3, 0x01B5, 2, 0x01B4),
   (0x01B7, 0x01B7, 1, 0x0292), (0x01B8, 0x01B8, 1, 0x01B9), (0x01BC, 0x01BC, 1, 0x01BD), (0x01C4, 0x01C4, 1, 0x01C6),
   (0x01C5, 0x01C5, 1, 0x01C6), (0x01C7, 0x01C7, 1, 0x01C9), (0x01C8, 0x01C8, 1, 0x01C9), (0x01CA, 0x01CA, 1, 0x01CC),
   (0x01CB, 0x01DB, 2, 0x01CC), (0x01DE, 0x01EE, 2, 0x01DF), (0x01F1, 0x01F1, 1, 0x01F3), (0x01F2, 0x01F4, 2, 0x01F3),
   (0x01F6, 0x01F6, 1, 0x0195), (0x01F7, 0x01F7, 1, 0x01BF), (0x01F8, 0x021E, 2, 0x01F9), (0x0220, 0x0220, 1, 0x019E),
   (0x0222, 0x0232, 2, 0x0223), (0x023A, 0x023A, 1, 0x2C65), (0x023B, 0x023B, 1, 0x023C), (0x023D, 0x023D, 1, 0x019A),
   (0x023E, 0x023E, 1, 0x2C66), (0x0241, 0x0241, 1, 0x0242), (0x0243, 0x0243, 1, 0x0180), (0x0244, 0x0244, 1, 0x0289),
   (0x0245, 0x0245, 1, 0x028C), (0x0246, 0x024E, 2, 0x0247), (0x0370, 0x0372, 2, 0x0371), (0x0376, 0x0376, 1, 0x0377),
   (0x037F, 0x037F, 1, 0x03F3), (0x0386, 0x0386, 1, 0x03AC), (0x0388, 0x038A, 1, 0x03AD), (0x038C, 0x038C, 1, 0x03CC),
   (0x038E, 0x038F, 1, 0x03CD), (0x0391, 0x03A1, 1, 0x03B1), (0x03A3, 0x03AB, 1, 0x03C3), (0x03CF, 0x03CF, 1, 0x03D7),
   (0x03D8, 0x03EE, 2, 0x03D9), (0x03F4, 0x03F4, 1, 0x03B8), (0x03F7, 0x03F7, 1, 0x03F8), (0x03F9, 0x03F9, 1, 0x03F2),
   (0x03FA, 0x03FA, 1, 0x03FB), (0x03FD, 0x03FF, 1, 0x037B), (0x0400, 0x040F, 1, 0x0450), (0x0410, 0x042F, 1, 0x0430),
   (0x0460, 0x0480, 2, 0x0461), (0x048A, 0x04BE, 2, 0x048B), (0x04C0, 0x04C0, 1, 0x04CF), (0x04C1, 0x04CD, 2, 0x04C2),
   (0x04D0, 0x052E, 2, 0x04D1), (0x0531, 0x0556, 1, 0x0561), (0x10A0, 0x10C5, 1, 0x2D00), (0x10C7, 0x10C7, 1, 0x2D27),
   (0x10CD, 0x10CD, 1, 0x2D2D), (0x13A0, 0x13EF, 1, 0xAB70), (0x13F0, 0x13F5, 1, 0x13F8), (0x1C90, 0x1CBA, 1, 0x10D0),
   (0x1CBD, 0x1CBF, 1, 0x10FD), (0x1E00, 0x1E94, 2, 0x1E01), (0x1E9E, 0x1E9E, 1, 0x00DF), (0x1EA0, 0x1EFE, 2, 0x1EA1),
   (0x1F08, 0x1F0F, 1, 0x1F00), (0x1F18, 0x1F1D, 1, 0x1F10), (0x1F28, 0x1F2F, 1, 0x1F20), (0x1F38, 0x1F3F, 1, 0x1F30),
   (0x1F48, 0x1F4D, 1, 0x1F40), (0x1F59, 0x1F5F, 2, 0x1F51), (0x1F68, 0x1F6F, 1, 0x1F60), (0x1F88, 0x1F8F, 1, 0x1F80),
   (0x1F98, 0x1F9F, 1, 0x1F90), (0x1FA8, 0x1FAF, 1, 0x1FA0), (0x1FB8, 0x1FB9, 1, 0x1FB0), (0x1FBA, 0x1FBB, 1, 0x1F70),
   (0x1FBC, 0x1FBC, 1, 0x1FB3), (0x1FC8, 0x1FCB, 1, 0x1F72), (0x1FCC, 0x1FCC, 1, 0x1FC3), (0x1FD8, 0x1FD9, 1, 0x1FD0),
   (0x1FDA, 0x1FDB, 1, 0x1F76), (0x1FE8, 0x1FE9, 1, 0x1FE0), (0x1FEA, 0x1FEB, 1, 0x1F7A), (0x1FEC, 0x1FEC, 1, 0x1FE5),
   (0x1FF8, 0x1FF9, 1, 0x1F78), (0x1FFA, 0x1FFB, 1, 0x1F7C), (0x1FFC, 0x1FFC, 1, 0x1FF3), (0x2126, 0x2126, 1, 0x03C9),
   (0x212A, 0x212A, 1, 0x006B), (0x212B, 0x212B, 1, 0x00E5), (0x2132, 0x2132, 1, 0x214E), (0x2160, 0x216F, 1, 0x2170),
   (0x2183, 0x2183, 1, 0x2184), (0x24B6, 0x24CF, 1, 0x24D0), (0x2C00, 0x2C2F, 1, 0x2C30), (0x2C60, 0x2C60, 1, 0x2C61),
   (0x2C62, 0x2C62, 1, 0x026B), (0x2C63, 0x2C63, 1, 0x1D7D), (0x2C64, 0x2C64, 1, 0x027D), (0x2C67, 0x2C6B, 2, 0x2C68),
   (0x2C6D, 0x2C6D, 1, 0x0251), (0x2C6E, 0x2C6E, 1, 0x0271), (0x2C6F, 0x2C6F, 1, 0x0250), (0x2C70, 0x2C70, 1, 0x0252),
   (0x2C72, 0x2C72, 1, 0x2C73), (0x2C75, 0x2C75, 1, 0x2C76), (0x2C7E, 0x2C7F, 1, 0x023F), (0x2C80, 0x2CE2, 2, 0x2C81),
   (0x2CEB, 0x2CED, 2, 0x2CEC), (0x2CF2, 0x2CF2, 1, 0x2CF3), (0xA640, 0xA66C, 2, 0xA641), (0xA680, 0xA69A, 2, 0xA681),
   (0xA722, 0xA72E, 2, 0xA723), (0xA732, 0xA76E, 2, 0xA733), (0xA779, 0xA77B, 2, 0xA77A), (0xA77D, 0xA77D, 1, 0x1D79),
   (0xA77E, 0xA786, 2, 0xA77F), (0xA78B, 0xA78B, 1, 0xA78C), (0xA78D, 0xA78D, 1, 0x0265), (0xA790, 0xA792, 2, 0xA791),
   (0xA796, 0xA7A8, 2, 0xA797), (0xA7AA, 0xA7AA, 1, 0x0266), (0xA7AB, 0xA7AB, 1, 0x025C), (0xA7AC, 0xA7AC, 1, 0x0261),
   (0xA7AD, 0xA7AD, 1, 0x026C), (0xA7AE, 0xA7AE, 1, 0x026A), (0xA7B0, 0xA7B0, 1, 0x029E), (0xA7B1, 0xA7B1, 1, 0x0287),
   (0xA7B2, 0xA7B2, 1, 0x029D), (0xA7B3, 0xA7B3, 1, 0xAB53), (0xA7B4, 0xA7C2, 2, 0xA7B5), (0xA7C4, 0xA7C4, 1, 0xA794),
   (0xA7C5, 0xA7C5, 1, 0x0282), (0xA7C6, 0xA7C6, 1, 0x1D8E), (0xA7C7, 0xA7C9, 2, 0xA7C8), (0xA7D0, 0xA7D0, 1, 0xA7D1),
   (0xA7D6, 0xA7D8, 2, 0xA7D7), (0xA7F5, 0xA7F5, 1, 0xA7F6), (0xFF21, 0xFF3A, 1, 0xFF41), (0x10400, 0x10427, 1, 0x10428),
   (0x104B0, 0x104D3, 1, 0x104D8), (0x10570, 0x1057A, 1, 0x10597), (0x1057C, 0x1058A, 1, 0x105A3), (0x1058C, 0x10592, 1, 0x105B3),
   (0x10594, 0x10595, 1, 0x105BB), (0x10C80, 0x10CB2, 1, 0x10CC0), (0x118A0, 0x118BF, 1, 0x118C0), (0x16E40, 0x16E5F, 1, 0x16E60),
   (0x1E900, 0x1E921, 1, 0x1E922)
  ]

/-- The code points with the property Case_Ignorable, as ranges `(lo, hi)`. -/
def caseIgnorable : List (Nat × Nat) :=
  [
   (0x0027, 0x0027), (0x002E, 0x002E), (0x003A, 0x003A), (0x005E, 0x005E), (0x0060, 0x0060), (0x00A8, 0x00A8),
   (0x00AD, 0x00AD), (0x00AF, 0x00AF), (0x00B4, 0x00B4), (0x00B7, 0x00B8), (0x02B0, 0x036F), (0x0374, 0x0375),
   (0x037A, 0x037A), (0x0384, 0x0385), (0x0387, 0x0387), (0x0483, 0x0489), (0x0559, 0x0559), (0x055F, 0x055F),
   (0x0591, 0x05BD), (0x05BF, 0x05BF), (0x05C1, 0x05C2), (0x05C4, 0x05C5), (0x05C7, 0x05C7), (0x05F4, 0x05F4),
   (0x0600, 0x0605), (0x0610, 0x061A), (0x061C, 0x061C), (0x0640, 0x0640), (0x064B, 0x065F), (0x0670, 0x0670),
   (0x06D6, 0x06DD), (0x06DF, 0x06E8), (0x06EA, 0x06ED), (0x070F, 0x070F), (0x0711, 0x0711), (0x0730, 0x074A),
   (0x07A6, 0x07B0), (0x07EB, 0x07F5), (0x07FA, 0x07FA), (0x07FD, 0x07FD), (0x0816, 0x082D), (0x0859, 0x085B),
   (0x0888, 0x0888), (0x0890, 0x0891), (0x0898, 0x089F), (0x08C9, 0x0902), (0x093A, 0x093A), (0x093C, 0x093C),
   (0x0941, 0x0948), (0x094D, 0x094D), (0x0951, 0x0957), (0x0962, 0x0963), (0x0971, 0x0971), (0x0981, 0x0981),
   (0x09BC, 0x09BC), (0x09C1, 0x09C4), (0x09CD, 0x09CD), (0x09E2, 0x09E3), (0x09FE, 0x09FE), (0x0A01, 0x0A02),
   (0x0A3C, 0x0A3C), (0x0A41, 0x0A42), (0x0A47, 0x0A48), (0x0A4B, 0x0A4D), (0x0A51, 0x0A51), (0x0A70, 0x0A71),
   (0x0A75, 0x0A75), (0x0A81, 0x0A82), (0x0ABC, 0x0ABC), (0x0AC1, 0x0AC5), (0x0AC7, 0x0AC8), (0x0ACD, 0x0ACD),
   (0x0AE2, 0x0AE3), (0x0AFA, 0x0AFF), (0x0B01, 0x0B01), (0x0B3C, 0x0B3C), (0x0B3F, 0x0B3F), (0x0B41, 0x0B44),
   (0x0B4D, 0x0B4D), (0x0B55, 0x0B56), (0x0B62, 0x0B63), (0x0B82, 0x0B82), (0x0BC0, 0x0BC0), (0x0BCD, 0x0BCD),
   (0x0C00, 0x0C00), (0x0C04, 0x0C04), (0x0C3C, 0x0C3C), (0x0C3E, 0x0C40), (0x0C46, 0x0C48), (0x0C4A, 0x0C4D),
   (0x0C55, 0x0C56), (0x0C62, 0x0C63), (0x0C81, 0x0C81), (0x0CBC, 0x0CBC), (0x0CBF, 0x0CBF), (0x0CC6, 0x0CC6),
   (0x0CCC, 0x0CCD), (0x0CE2, 0x0CE3), (0x0D00, 0x0D01), (0x0D3B, 0x0D3C), (0x0D41, 0x0D44), (0x0D4D, 0x0D4D),
   (0x0D62, 0x0D63), (0x0D81, 0x0D81), (0x0DCA, 0x0DCA), (0x0DD2, 0x0DD4), (0x0DD6, 0x0DD6), (0x0E31, 0x0E31),
   (0x0E34, 0x0E3A), (0x0E46, 0x0E4E), (0x0EB1, 0x0EB1), (0x0EB4, 0x0EBC), (0x0EC6, 0x0EC6), (0x0EC8, 0x0ECD),
   (0x0F18, 0x0F19), (0x0F35, 0x0F35), (0x0F37, 0x0F37), (0x0F39, 0x0F39), (0x0F71, 0x0F7E), (0x0F80, 0x0F84),
   (0x0F86, 0x0F87), (0x0F8D, 0x0F97), (0x0F99, 0x0FBC), (0x0FC6, 0x0FC6), (0x102D, 0x1030), (0x1032, 0x1037),
   (0x1039, 0x103A), (0x103D, 0x103E), (0x1058, 0x1059), (0x105E, 0x1060), (0x1071, 0x1074), (0x1082, 0x1082),
   (0x1085, 0x1086), (0x108D, 0x108D), (0x109D, 0x109D), (0x10FC, 0x10FC), (0x135D, 0x135F), (0x1712, 0x1714),
   (0x1732, 0x1733), (0x1752, 0x1753), (0x1772, 0x1773), (0x17B4, 0x17B5), (0x17B7, 0x17BD), (0x17C6, 0x17C6),
   (0x17C9, 0x17D3), (0x17D7, 0x17D7), (0x17DD, 0x17DD), (0x180B, 0x180F), (0x1843, 0x1843), (0x1885, 0x1886),
   (0x18A9, 0x18A9), (0x1920, 0x1922), (0x1927, 0x1928), (0x1932, 0x1932), (0x1939, 0x193B), (0x1A17, 0x1A18),
   (0x1A1B, 0x1A1B), (0x1A56, 0x1A56), (0x1A58, 0x1A5E), (0x1A60, 0x1A60), (0x1A62, 0x1A62), (0x1A65, 0x1A6C),
   (0x1A73, 0x1A7C), (0x1A7F, 0x1A7F), (0x1AA7, 0x1AA7), (0x1AB0, 0x1ACE), (0x1B00, 0x1B03), (0x1B34, 0x1B34),
   (0x1B36, 0x1B3A), (0x1B3C, 0x1B3C), (0x1B42, 0x1B42), (0x1B6B, 0x1B73), (0x1B80, 0x1B81), (0x1BA2, 0x1BA5),
   (0x1BA8, 0x1BA9), (0x1BAB, 0x1BAD), (0x1BE6, 0x1BE6), (0x1BE8, 0x1BE9), (0x1BED, 0x1BED), (0x1BEF, 0x1BF1),
   (0x1C2C, 0x1C33), (0x1C36, 0x1C37), (0x1C78, 0x1C7D), (0x1CD0, 0x1CD2), (0x1CD4, 0x1CE0), (0x1CE2, 0x1CE8),
   (0x1CED, 0x1CED), (0x1CF4, 0x1CF4), (0x1CF8, 0x1CF9), (0x1D2C, 0x1D6A), (0x1D78, 0x1D78), (0x1D9B, 0x1DFF),
   (0x1FBD, 0x1FBD), (0x1FBF, 0x1FC1), (0x1FCD, 0x1FCF), (0x1FDD, 0x1FDF), (0x1FED, 0x1FEF), (0x1FFD, 0x1FFE),
   (0x200B, 0x200F), (0x2018, 0x2019), (0x2024, 0x2024), (0x2027, 0x2027), (0x202A, 0x202E), (0x2060, 0x2064),
   (0x2066, 0x206F), (0x2071, 0x2071), (0x207F, 0x207F), (0x2090, 0x209C), (0x20D0, 0x20F0), (0x2C7C, 0x2C7D),
   (0x2CEF, 0x2CF1), (0x2D6F, 0x2D6F), (0x2D7F, 0x2D7F), (0x2DE0, 0x2DFF), (0x2E2F, 0x2E2F), (0x3005, 0x3005),
   (0x302A, 0x302D), (0x3031, 0x3035), (0x303B, 0x303B), (0x3099, 0x309E), (0x30FC, 0x30FE), (0xA015, 0xA015),
   (0xA4F8, 0xA4FD), (0xA60C, 0xA60C), (0xA66F, 0xA672), (0xA674, 0xA67D), (0xA67F, 0xA67F), (0xA69C, 0xA69F),
   (0xA6F0, 0xA6F1), (0xA700, 0xA721), (0xA770, 0xA770), (0xA788, 0xA78A), (0xA7F2, 0xA7F4), (0xA7F8, 0xA7F9),
   (0xA802, 0xA802), (0xA806, 0xA806), (0xA80B, 0xA80B), (0xA825, 0xA826), (0xA82C, 0xA82C), (0xA8C4, 0xA8C5),
   (0xA8E0, 0xA8F1), (0xA8FF, 0xA8FF), (0xA926, 0xA92D), (0xA947, 0xA951), (0xA980, 0xA982), (0xA9B3, 0xA9B3),
   (0xA9B6, 0xA9B9), (0xA9BC, 0xA9BD), (0xA9CF, 0xA9CF), (0xA9E5, 0xA9E6), (0xAA29, 0xAA2E), (0xAA31, 0xAA32),
   (0xAA35, 0xAA36), (0xAA43, 0xAA43), (0xAA4C, 0xAA4C), (0xAA70, 0xAA70), (0xAA7C, 0xAA7C), (0xAAB0, 0xAAB0),
   (0xAAB2, 0xAAB4), (0xAAB7, 0xAAB8), (0xAABE, 0xAABF), (0xAAC1, 0xAAC1), (0xAADD, 0xAADD), (0xAAEC, 0xAAED),
   (0xAAF3, 0xAAF4), (0xAAF6, 0xAAF6), (0xAB5B, 0xAB5F), (0xAB69, 0xAB6B), (0xABE5, 0xABE5), (0xABE8, 0xABE8),
   (0xABED, 0xABED), (0xFB1E, 0xFB1E), (0xFBB2, 0xFBC2), (0xFE00, 0xFE0F), (0xFE13, 0xFE13), (0xFE20, 0xFE2F),
   (0xFE52, 0xFE52), (0xFE55, 0xFE55), (0xFEFF, 0xFEFF), (0xFF07, 0xFF07), (0xFF0E, 0xFF0E), (0xFF1A, 0xFF1A),
   (0xFF3E, 0xFF3E), (0xFF40, 0xFF40), (0xFF70, 0xFF70), (0xFF9E, 0xFF9F), (0xFFE3, 0xFFE3), (0xFFF9, 0xFFFB),
   (0x101FD, 0x101FD), (0x102E0, 0x102E0), (0x10376, 0x1037A), (0x10780, 0x10785), (0x10787, 0x107B0), (0x107B2, 0x107BA),
   (0x10A01, 0x10A03), (0x10A05, 0x10A06), (0x10A0C, 0x10A0F), (0x10A38, 0x10A3A), (0x10A3F, 0x10A3F), (0x10AE5, 0x10AE6),
   (0x10D24, 0x10D27), (0x10EAB, 0x10EAC), (0x10F46, 0x10F50), (0x10F82, 0x10F85), (0x11001, 0x11001), (0x11038, 0x11046),
   (0x11070, 0x11070), (0x11073, 0x11074), (0x1107F, 0x11081), (0x110B3, 0x110B6), (0x110B9, 0x110BA), (0x110BD, 0x110BD),
   (0x110C2, 0x110C2), (0x110CD, 0x110CD), (0x11100, 0x11102), (0x11127, 0x1112B), (0x1112D, 0x11134), (0x11173, 0x11173),
   (0x11180, 0x11181), (0x111B6, 0x111BE), (0x111C9, 0x111CC), (0x111CF, 0x111CF), (0x1122F, 0x11231), (0x11234, 0x11234),
   (0x11236, 0x11237), (0x1123E, 0x1123E), (0x112DF, 0x112DF), (0x112E3, 0x112EA), (0x11300, 0x11301), (0x1133B, 0x1133C),
   (0x11340, 0x11340), (0x11366, 0x1136C), (0x11370, 0x11374), (0x11438, 0x1143F), (0x11442, 0x11444), (0x11446, 0x11446),
   (0x1145E, 0x1145E), (0x114B3, 0x114B8), (0x114BA, 0x114BA), (0x114BF, 0x114C0), (0x114C2, 0x114C3), (0x115B2, 0x115B5),
   (0x115BC, 0x115BD), (0x115BF, 0x115C0), (0x115DC, 0x115DD), (0x11633, 0x1163A), (0x1163D, 0x1163D), (0x1163F, 0x11640),
   (0x116AB, 0x116AB), (0x116AD, 0x116AD), (0x116B0, 0x116B5), (0x116B7, 0x116B7), (0x1171D, 0x1171F), (0x11722, 0x11725),
   (0x11727, 0x1172B), (0x1182F, 0x11837), (0x11839, 0x1183A), (0x1193B, 0x1193C), (0x1193E, 0x1193E), (0x11943, 0x11943),
   (0x119D4, 0x119D7), (0x119DA, 0x119DB), (0x119E0, 0x119E0), (0x11A01, 0x11A0A), (0x11A33, 0x11A38), (0x11A3B, 0x11A3E),
   (0x11A47, 0x11A47), (0x11A51, 0x11A56), (0x11A59, 0x11A5B), (0x11A8A, 0x11A96), (0x11A98, 0x11A99), (0x11C30, 0x11C36),
   (0x11C38, 0x11C3D), (0x11C3F, 0x11C3F), (0x11C92, 0x11CA7), (0x11CAA, 0x11CB0), (0x11CB2, 0x11CB3), (0x11CB5, 0x11CB6),
   (0x11D31, 0x11D36), (0x11D3A, 0x11D3A), (0x11D3C, 0x11D3D), (0x11D3F, 0x11D45), (0x11D47, 0x11D47), (0x11D90, 0x11D91),
   (0x11D95, 0x11D95), (0x11D97, 0x11D97), (0x11EF3, 0x11EF4), (0x13430, 0x13438), (0x16AF0, 0x16AF4), (0x16B30, 0x16B36),
   (0x16B40, 0x16B43), (0x16F4F, 0x16F4F), (0x16F8F, 0x16F9F), (0x16FE0, 0x16FE1), (0x16FE3, 0x16FE4), (0x1AFF0, 0x1AFF3),
   (0x1AFF5, 0x1AFFB), (0x1AFFD, 0x1AFFE), (0x1BC9D, 0x1BC9E), (0x1BCA0, 0x1BCA3), (0x1CF00, 0x1CF2D), (0x1CF30, 0x1CF46),
   (0x1D167, 0x1D169), (0x1D173, 0x1D182), (0x1D185, 0x1D18B), (0x1D1AA, 0x1D1AD), (0x1D242, 0x1D244), (0x1DA00, 0x1DA36),
   (0x1DA3B, 0x1DA6C), (0x1DA75, 0x1DA75), (0x1DA84, 0x1DA84), (0x1DA9B, 0x1DA9F), (0x1DAA1, 0x1DAAF), (0x1E000, 0x1E006),
   (0x1E008, 0x1E018), (0x1E01B, 0x1E021), (0x1E023, 0x1E024), (0x1E026, 0x1E02A), (0x1E130, 0x1E13D), (0x1E2AE, 0x1E2AE),
   (0x1E2EC, 0x1E2EF), (0x1E8D0, 0x1E8D6), (0x1E944, 0x1E94B), (0x1F3FB, 0x1F3FF), (0xE0001, 0xE0001), (0xE0020, 0xE007F),
   (0xE0100, 0xE01EF)
  ]

/-- The code points with the property Cased that are not Case_Ignorable, as
ranges `(lo, hi)`. -/
def casedNotIgnorable : List (Nat × Nat) :=
  [
   (0x0041, 0x005A), (0x0061, 0x007A), (0x00AA, 0x00AA), (0x00B5, 0x00B5), (0x00BA, 0x00BA), (0x00C0, 0x00D6),
   (0x00D8, 0x00F6), (0x00F8, 0x01BA), (0x01BC, 0x01BF), (0x01C4, 0x0293), (0x0295, 0x02AF), (0x0370, 0x0373),
   (0x0376, 0x0377), (0x037B, 0x037D), (0x037F, 0x037F), (0x0386, 0x0386), (0x0388, 0x038A), (0x038C, 0x038C),
   (0x038E, 0x03A1), (0x03A3, 0x03F5), (0x03F7, 0x0481), (0x048A, 0x052F), (0x0531, 0x0556), (0x0560, 0x0588),
   (0x10A0, 0x10C5), (0x10C7, 0x10C7), (0x10CD, 0x10CD), (0x10D0, 0x10FA), (0x10FD, 0x10FF), (0x13A0, 0x13F5),
   (0x13F8, 0x13FD), (0x1C80, 0x1C88), (0x1C90, 0x1CBA), (0x1CBD, 0x1CBF), (0x1D00, 0x1D2B), (0x1D6B, 0x1D77),
   (0x1D79, 0x1D9A), (0x1E00, 0x1F15), (0x1F18, 0x1F1D), (0x1F20, 0x1F45), (0x1F48, 0x1F4D), (0x1F50, 0x1F57),
   (0x1F59, 0x1F59), (0x1F5B, 0x1F5B), (0x1F5D, 0x1F5D), (0x1F5F, 0x1F7D), (0x1F80, 0x1FB4), (0x1FB6, 0x1FBC),
   (0x1FBE, 0x1FBE), (0x1FC2, 0x1FC4), (0x1FC6, 0x1FCC), (0x1FD0, 0x1FD3), (0x1FD6, 0x1FDB), (0x1FE0, 0x1FEC),
   (0x1FF2, 0x1FF4), (0x1FF6, 0x1FFC), (0x2102, 0x2102), (0x2107, 0x2107), (0x210A, 0x2113), (0x2115, 0x2115),
   (0x2119, 0x211D), (0x2124, 0x2124), (0x2126, 0x2126), (0x2128, 0x2128), (0x212A, 0x212D), (0x212F, 0x2134),
   (0x2139, 0x2139), (0x213C, 0x213F), (0x2145, 0x2149), (0x214E, 0x214E), (0x2160, 0x217F), (0x2183, 0x2184),
   (0x24B6, 0x24E9), (0x2C00, 0x2C7B), (0x2C7E, 0x2CE4), (0x2CEB, 0x2CEE), (0x2CF2, 0x2CF3), (0x2D00, 0x2D25),
   (0x2D27, 0x2D27), (0x2D2D, 0x2D2D), (0xA640, 0xA66D), (0xA680, 0xA69B), (0xA722, 0xA76F), (0xA771, 0xA787),
   (0xA78B, 0xA78E), (0xA790, 0xA7CA), (0xA7D0, 0xA7D1), (0xA7D3, 0xA7D3), (0xA7D5, 0xA7D9), (0xA7F5, 0xA7F6),
   (0xA7FA, 0xA7FA), (0xAB30, 0xAB5A), (0xAB60, 0xAB68), (0xAB70, 0xABBF), (0xFB00, 0xFB06), (0xFB13, 0xFB17),
   (0xFF21, 0xFF3A), (0xFF41, 0xFF5A), (0x10400, 0x1044F), (0x104B0, 0x104D3), (0x104D8, 0x104FB), (0x10570, 0x1057A),
   (0x1057C, 0x1058A), (0x1058C, 0x10592), (0x10594, 0x10595), (0x10597, 0x105A1), (0x105A3, 0x105B1), (0x105B3, 0x105B9),
   (0x105BB, 0x105BC), (0x10C80, 0x10CB2), (0x10CC0, 0x10CF2), (0x118A0, 0x118DF), (0x16E40, 0x16E7F), (0x1D400, 0x1D454),
   (0x1D456, 0x1D49C), (0x1D49E, 0x1D49F), (0x1D4A2, 0x1D4A2), (0x1D4A5, 0x1D4A6), (0x1D4A9, 0x1D4AC), (0x1D4AE, 0x1D4B9),
   (0x1D4BB, 0x1D4BB), (0x1D4BD, 0x1D4C3), (0x1D4C5, 0x1D505), (0x1D507, 0x1D50A), (0x1D50D, 0x1D514), (0x1D516, 0x1D51C),
   (0x1D51E, 0x1D539), (0x1D53B, 0x1D53E), (0x1D540, 0x1D544), (0x1D546, 0x1D546), (0x1D54A, 0x1D550), (0x1D552, 0x1D6A5),
   (0x1D6A8, 0x1D6C0), (0x1D6C2, 0x1D6DA), (0x1D6DC, 0x1D6FA), (0x1D6FC, 0x1D714), (0x1D716, 0x1D734), (0x1D736, 0x1D74E),
   (0x1D750, 0x1D76E), (0x1D770, 0x1D788), (0x1D78A, 0x1D7A8), (0x1D7AA, 0x1D7C2), (0x1D7C4, 0x1D7CB), (0x1DF00, 0x1DF09),
   (0x1DF0B, 0x1DF1E), (0x1E900, 0x1E943), (0x1F130, 0x1F149), (0x1F150, 0x1F169), (0x1F170, 0x1F189)
  ]

/-- Whether the run maps the code point. -/
def runCovers (r : Nat × Nat × Nat × Nat) (n : Nat) : Bool :=
  Nat.ble r.1 n && Nat.ble n r.2.1 && Nat.beq ((n - r.1) % r.2.2.1) 0

/-- The simple lowercase mapping of a code point: its image in the run that
maps it, or the code point itself. -/
def simpleLower (n : Nat) : Nat :=
  match lowerRuns.find? (fun r => runCovers r n) with
  | some r => r.2.2.2 + (n - r.1)
  | none => n

/-- Membership in a list of ranges. -/
def inRanges (ranges : List (Nat × Nat)) (n : Nat) : Bool :=
  ranges.any (fun r => Nat.ble r.1 n && Nat.ble n r.2)

/-- The property Case_Ignorable of a character. -/
def isCaseIgnorable (c : Char) : Bool :=
  inRanges caseIgnorable c.toNat

/-- The property Cased of a character that is not Case_Ignorable. -/
def isCased (c : Char) : Bool :=
  inRanges casedNotIgnorable c.toNat

/-- The condition Final_Sigma of the Unicode special casing: before the sigma,
skipping case-ignorable characters, comes a cased letter, and after it,
skipping case-ignorable characters, comes none. `before` holds the characters
before the sigma, the nearest first. -/
def finalSigma (before after : List Char) : Bool :=
  (match before.dropWhile isCaseIgnorable with
    | c :: _ => isCased c
    | [] => false) &&
  (match after.dropWhile isCaseIgnorable with
    | c :: _ => !isCased c
    | [] => true)

/-- The lowercase of one character in its context: the capital sigma becomes
the final or the medial small sigma, the capital I with dot above becomes `i`
and a combining dot above, every other character its simple lowercase. -/
def lowerOne (before : List Char) (c : Char) (after : List Char) : List Char :=
  if c.toNat = 0x03A3 then
    [if finalSigma before after then Char.ofNat 0x03C2 else Char.ofNat 0x03C3]
  else if c.toNat = 0x0130 then [Char.ofNat 0x0069, Char.ofNat 0x0307]
  else [Char.ofNat (simpleLower c.toNat)]

/-- The lowercase of a list of characters that follows `before`. -/
def lowerFrom (before : List Char) : List Char → List Char
  | [] => []
  | c :: after => lowerOne before c after ++ lowerFrom (c :: before) after

/-- `String.prototype.toLowerCase`: the locale-insensitive lowercase mapping of
the Unicode Character Database, with the special casing of the sigma and of
the capital I with dot above. The case table belongs to the JavaScript engine,
not to the repository; the tables above are those of version 14.0 of the
database. -/
def toLowerCase (s : String) : String :=
  ⟨lowerFrom [] s.data⟩

/-- Whether a code point is a character that lowercasing leaves alone: no run
maps it, and it is neither the capital sigma nor the capital I with dot
above. -/
def unmapped (n : Nat) : Bool :=
  !Nat.beq n 0x03A3 && !Nat.beq n 0x0130 && lowerRuns.all (fun q => !runCovers q n)

/-- The first image of a run. -/
def imageLo (r : Nat × Nat × Nat × Nat) : Nat :=
  r.2.2.2

/-- The last image of a run. -/
def imageHi (r : Nat × Nat × Nat × Nat) : Nat :=
  r.2.2.2 + (r.2.1 - r.1)

/-- No image of the run `r` is mapped by the run `q`: the images lie below or
above the code points of `q`, or `q` maps every second code point and the
images of `r` fall on the others. -/
def separated (r q : Nat × Nat × Nat × Nat) : Bool :=
  Nat.blt (imageHi r) q.1 || Nat.blt q.2.1 (imageLo r) ||
  (Nat.beq q.2.2.1 2 && Nat.ble q.1 r.2.2.2 && Nat.beq ((r.2.2.2 - q.1) % 2) 1 &&
    (Nat.beq r.2.2.1 2 || Nat.beq r.1 r.2.1))

/-- The images of the run are Unicode scalar values, none of them white space,
the capital sigma or the capital I with dot above. -/
def runWellFormed (r : Nat × Nat × Nat × Nat) : Bool :=
  Nat.ble r.1 r.2.1 && (Nat.beq r.2.2.1 1 || Nat.beq r.2.2.1 2) &&
  (Nat.blt (imageHi r) 0xD800 || (Nat.blt 0xDFFF (imageLo r) && Nat.blt (imageHi r) 0x110000)) &&
  (Nat.blt (imageHi r) 0x0130 || Nat.blt 0x0130 (imageLo r)) &&
  (Nat.blt (imageHi r) 0x03A3 || Nat.blt 0x03A3 (imageLo r)) &&
  Nat.blt 0x20 (imageLo r) &&
  (Nat.blt (imageHi r) 0xA0 || Nat.blt 0xA0 (imageLo r)) &&
  (Nat.blt (imageHi r) 0x1680 || Nat.blt 0x1680 (imageLo r)) &&
  (Nat.blt (imageHi r) 0x2000 || Nat.blt 0x200A (imageLo r)) &&
  (Nat.blt (imageHi r) 0x2028 || Nat.blt 0x2029 (imageLo r)) &&
  (Nat.blt (imageHi r) 0x202F || Nat.blt 0x202F (imageLo r)) &&
  (Nat.blt (imageHi r) 0x205F || Nat.blt 0x205F (imageLo r)) &&
  (Nat.blt (imageHi r) 0x3000 || Nat.blt 0x3000 (imageLo r)) &&
  (Nat.blt (imageHi r) 0xFEFF || Nat.blt 0xFEFF (imageLo r))

/-- The check of the table of lowercase mappings. -/
def runsGood : Bool :=
  lowerRuns.all (fun r => runWellFormed r && lowerRuns.all (fun q => separated r q))

/-- JavaScript truthiness of a string: every string but the empty one. -/
def truthy (s : String) : Bool :=
  s ≠ ""

/-- The expression `a || fallback` for an optional string `a` (absent stands for
`undefined` or `null`): the first operand when it is truthy. -/
def orElse (a : Option String) (fallback : String) : String :=
  match a with
  | some v => if truthy v then v else fallback
  | none => fallback

/-! ## Toasts and axios errors -/

/-- A call of `toast.success` or `toast.error` (sonner). -/
inductive Toast where
  | success (message : String)
  | error (message : String)
  deriving DecidableEq

/-- The part of `error.response` the frontend reads: `status`, and
`data?.detail`. -/
structure ErrorResponse where
  status : Nat
  detail : Option String
  deriving DecidableEq

/-- The rejection value of an axios call; `response` is absent on a
transport-level failure. -/
structure AxiosError where
  response : Option ErrorResponse
  deriving DecidableEq

/-- The expression `error.response?.data?.detail`. -/
def AxiosError.detail (error : AxiosError) : Option String :=
  match error.response with
  | some r => r.detail
  | none => none

/-! ## pages/JobRecommendations.jsx -/

/-- A request sent by the job page through `axiosInstance.post`. -/
inductive JobRequest where
  /-- The call `post('/recommend_jobs', { skills })`. -/
  | recommend_jobs (skills : List String)
  /-- The call `post('/learning_path', { skills, target_role })`. -/
  | learning_path (skills : List String) (target_role : String)
  deriving DecidableEq

/-- State cells of `JobRecommendations` (lines 13-18), with the log of toasts
and of requests sent. `J` is the type of a job record and `L` of a learning
path, as the backend returns them. -/
structure JobRecState (J L : Type) where
  skills : List String
  skillInput : String
  targetRole : String
  loading : Bool
  jobs : List J
  learningPath : Option L
  toasts : List Toast
  requests : List JobRequest
  deriving DecidableEq

namespace JobRecState

variable {J L : Type}

/-- The `useState` initial values. -/
def initial : JobRecState J L :=
  { skills := [], skillInput := "", targetRole := "software_engineer", loading := false,
    jobs := [], learningPath := none, toasts := [], requests := [] }

/-- The `onChange` of the skill input: `setSkillInput(e.target.value)`. -/
def setSkillInput (value : String) (st : JobRecState J L) : JobRecState J L :=
  { st with skillInput := value }

/-- Lines 20-25, `addSkill`. -/
def addSkill (st : JobRecState J L) : JobRecState J L :=
  if truthy (trim st.skillInput) ∧ ¬ toLowerCase (trim st.skillInput) ∈ st.skills then
    { st with skills := st.skills ++ [toLowerCase (trim st.skillInput)], skillInput := "" }
  else
    st

/-- Lines 27-29, `removeSkill`. -/
def removeSkill (skillToRemove : String) (st : JobRecState J L) : JobRecState J L :=
  { st with skills := st.skills.filter (fun s => s ≠ skillToRemove) }

/-- Lines 31-37 and 39, `handleGetJobs` up to the `await`. -/
def handleGetJobs (st : JobRecState J L) : JobRecState J L :=
  if st.skills.length = 0 then
    { st with toasts := st.toasts ++ [Toast.error "Please add at least one skill"] }
  else
    { st with loading := true, requests := st.requests ++ [JobRequest.recommend_jobs st.skills] }

/-- Lines 40-41 and 45: the response arrived; `jobs` is `response.data.jobs`. -/
def handleGetJobs_fulfilled (jobs : Option (List J)) (st : JobRecState J L) : JobRecState J L :=
  { st with
    jobs := jobs.getD [],
    toasts := st.toasts ++ [Toast.success "Jobs loaded successfully!"],
    loading := false }

/-- Lines 42-45: the call failed. -/
def handleGetJobs_rejected (error : AxiosError) (st : JobRecState J L) : JobRecState J L :=
  { st with
    toasts := st.toasts ++ [Toast.error (orElse error.detail "Failed to load jobs")],
    loading := false }

/-- Lines 49-55 and 57, `handleGetLearningPath` up to the `await`. -/
def handleGetLearningPath (st : JobRecState J L) : JobRecState J L :=
  if st.skills.length = 0 then
    { st with toasts := st.toasts ++ [Toast.error "Please add at least one skill"] }
  else
    { st with
      loading := true,
      requests := st.requests ++ [JobRequest.learning_path st.skills st.targetRole] }

/-- Lines 58-59 and 63: the response arrived; `data` is `response.data`. -/
def handleGetLearningPath_fulfilled (data : Option L) (st : JobRecState J L) : JobRecState J L :=
  { st with
    learningPath := data,
    toasts := st.toasts ++ [Toast.success "Learning path generated!"],
    loading := false }

/-- Lines 60-63: the call failed. -/
def handleGetLearningPath_rejected (error : AxiosError) (st : JobRecState J L) :
    JobRecState J L :=
  { st with
    toasts := st.toasts ++ [Toast.error (orElse error.detail "Failed to generate learning path")],
    loading := false }

/-- States of the skill list reachable from the initial one by typing into the
input, `addSkill` and `removeSkill`. -/
inductive SkillReachable : JobRecState J L → Prop where
  | init : SkillReachable initial
  | setSkillInput (value : String) {st : JobRecState J L} :
      SkillReachable st → SkillReachable (setSkillInput value st)
  | addSkill {st : JobRecState J L} : SkillReachable st → SkillReachable (addSkill st)
  | removeSkill (skillToRemove : String) {st : JobRecState J L} :
      SkillReachable st → SkillReachable (removeSkill skillToRemove st)

end JobRecState

/-- A stored skill in normal form: non-empty, lowercase (lowercasing leaves it
alone, and none of its characters has a lowercase mapping) and trimmed. -/
def NormalSkill (x : String) : Prop :=
  x ≠ "" ∧ toLowerCase x = x ∧ (∀ c ∈ x.data, unmapped c.toNat = true) ∧ trim x = x

/-! ## pages/CareerPredictor.jsx -/

/-- The `formData` cell (lines 15-22), the body of `POST /predict`. -/
structure FormData where
  age : Int
  experience_years : Int
  education_level : Int
  num_skills : Int
  location_tier : Int
  job_changes : Int
  deriving DecidableEq

/-- Constraint validation of the four number inputs, from their `min` and
`max` attributes (lines 73-74, 86-87, 120-121, 151-152). -/
def numberInputsValid (f : FormData) : Bool :=
  (18 ≤ f.age && f.age ≤ 70) &&
  (0 ≤ f.experience_years && f.experience_years ≤ 50) &&
  (1 ≤ f.num_skills && f.num_skills ≤ 30) &&
  (0 ≤ f.job_changes && f.job_changes ≤ 20)

/-- The bounds the form markup declares: those of the number inputs, and the
items of the two selects (lines 104-107, 136-138). -/
def withinBounds (f : FormData) : Bool :=
  numberInputsValid f &&
  (1 ≤ f.education_level && f.education_level ≤ 4) &&
  (1 ≤ f.location_tier && f.location_tier ≤ 3)

/-- State cells of `CareerPredictor` (lines 13-22), with the log of toasts and
of the bodies sent to `/predict`. `R` is the type of `response.data`. -/
structure PredictorState (R : Type) where
  loading : Bool
  result : Option R
  formData : FormData
  toasts : List Toast
  requests : List FormData
  deriving DecidableEq

/-- The four statuses of the specification's workflow state. -/
inductive Status where
  | idle
  | pending
  | success
  | error
  deriving DecidableEq

/-- What can happen to a `CareerPredictor`: a form field is edited, the form
is submitted, or an outstanding `/predict` call settles. -/
inductive PredictorEvent (R : Type) where
  | setFormData (formData : FormData)
  | submit
  | fulfilled (data : Option R)
  | rejected (error : AxiosError)

namespace PredictorState

variable {R : Type}

/-- The `useState` initial values. -/
def initial : PredictorState R :=
  { loading := false, result := none,
    formData := { age := 28, experience_years := 5, education_level := 2, num_skills := 8,
                  location_tier := 1, job_changes := 2 },
    toasts := [], requests := [] }

/-- The `onChange` handlers of the form: `setFormData({ ...formData, field })`. -/
def setFormData (formData : FormData) (st : PredictorState R) : PredictorState R :=
  { st with formData := formData }

/-- Lines 24-28, `handleSubmit` up to the `await`. -/
def handleSubmit (st : PredictorState R) : PredictorState R :=
  { st with loading := true, requests := st.requests ++ [st.formData] }

/-- Lines 29-30 and 34: the response arrived; `data` is `response.data`. -/
def handleSubmit_fulfilled (data : Option R) (st : PredictorState R) : PredictorState R :=
  { st with
    result := data,
    toasts := st.toasts ++ [Toast.success "Prediction generated successfully!"],
    loading := false }

/-- Lines 31-34: the call failed. -/
def handleSubmit_rejected (error : AxiosError) (st : PredictorState R) : PredictorState R :=
  { st with
    toasts := st.toasts ++ [Toast.error (orElse error.detail "Failed to generate prediction")],
    loading := false }

/-- Submission through the form element (line 64), as the browser performs
it: the submit button is rendered with `disabled={loading}` (line 158) and a
disabled submit button submits nothing; a number input whose value is below
its `min` or above its `max` fails constraint validation, and then no submit
event is fired. Otherwise `onSubmit` runs `handleSubmit`. -/
def submitForm (st : PredictorState R) : PredictorState R :=
  if st.loading = true ∨ numberInputsValid st.formData = false then st else handleSubmit st

/-- One event applied to the state. -/
def step (e : PredictorEvent R) (st : PredictorState R) : PredictorState R :=
  match e with
  | PredictorEvent.setFormData f => setFormData f st
  | PredictorEvent.submit => handleSubmit st
  | PredictorEvent.fulfilled data => handleSubmit_fulfilled data st
  | PredictorEvent.rejected error => handleSubmit_rejected error st

/-- A sequence of events applied in order. -/
def run (events : List (PredictorEvent R)) (st : PredictorState R) : PredictorState R :=
  events.foldl (fun s e => step e s) st

/-- The status of the specification read off the state: pending while
`loading`; otherwise the outcome announced by the last toast, idle when there
is none. The component stores no status of its own. -/
def status (st : PredictorState R) : Status :=
  if st.loading then Status.pending
  else
    match st.toasts.getLast? with
    | none => Status.idle
    | some (Toast.success _) => Status.success
    | some (Toast.error _) => Status.error

end PredictorState

/-- The payload of the last successful response in a sequence of events
(absent when there is none), starting from `acc`. -/
def lastPayload {R : Type} (acc : Option R) : List (PredictorEvent R) → Option R
  | [] => acc
  | PredictorEvent.fulfilled data :: rest => lastPayload data rest
  | _ :: rest => lastPayload acc rest

/-- The prediction page together with the calls to `/predict` that have not
settled yet. A call is named by the position of its body in `requests`: the
first submission issued has the number 0, the next one 1, and so on. The
component keeps no such number; it is bookkeeping of the embedding. -/
structure PredictorSession (R : Type) where
  page : PredictorState R
  inflight : List Nat

/-- What can happen to the prediction page through its form: a field is
edited, the form is submitted, or the call with the given number settles, with
the body of the response or with an error. -/
inductive FormEvent (R : Type) where
  | edit (formData : FormData)
  | submit
  | settle (seq : Nat) (outcome : Except AxiosError (Option R))

namespace PredictorSession

variable {R : Type}

/-- The page as mounted: no call in flight. -/
def initial : PredictorSession R :=
  { page := PredictorState.initial, inflight := [] }

/-- One event of the form. The fields stay editable while a call is pending
(only the submit button is disabled). A submission goes through `submitForm`;
when that sends a request, the call it issues is in flight. Only a call in
flight can settle: then its continuation runs on the page as it is by then. -/
def step (e : FormEvent R) (s : PredictorSession R) : PredictorSession R :=
  match e with
  | FormEvent.edit formData => { s with page := PredictorState.setFormData formData s.page }
  | FormEvent.submit =>
    { page := PredictorState.submitForm s.page,
      inflight :=
        if (PredictorState.submitForm s.page).requests.length = s.page.requests.length
        then s.inflight else s.inflight ++ [s.page.requests.length] }
  | FormEvent.settle seq outcome =>
    if seq ∈ s.inflight then
      { page :=
          match outcome with
          | Except.ok data => PredictorState.handleSubmit_fulfilled data s.page
          | Except.error error => PredictorState.handleSubmit_rejected error s.page,
        inflight := s.inflight.erase seq }
    else s

/-- A sequence of events of the form applied in order. -/
def run (events : List (FormEvent R)) (s : PredictorSession R) : PredictorSession R :=
  events.foldl (fun s e => step e s) s

end PredictorSession

/-- The invariant of the prediction page driven through its form: either no
call is in flight and `loading` is false, or `loading` is true and the one
call in flight is the submission issued last. -/
def FormInv {R : Type} (s : PredictorSession R) : Prop :=
  (s.inflight = [] ∧ s.page.loading = false) ∨
  (s.inflight = [s.page.requests.length - 1] ∧ s.page.loading = true ∧
    0 < s.page.requests.length)

/-- A prediction payload, with the fields the result card reads
(lines 179, 193, 215). -/
structure PredictionResult where
  success_probability : Nat
  top_factors : List String
  recommendations : List String
  deriving DecidableEq

/-! ## App.js -/

/-- The browser's `localStorage`: string keys to string values. -/
structure Storage where
  items : List (String × String)
  deriving DecidableEq

namespace Storage

/-- The call `localStorage.getItem(key)`; absent stands for `null`. -/
def getItem (key : String) (s : Storage) : Option String :=
  s.items.lookup key

/-- The call `localStorage.removeItem(key)`. -/
def removeItem (key : String) (s : Storage) : Storage :=
  ⟨s.items.filter (fun e => e.1 ≠ key)⟩

/-- The call `localStorage.setItem(key, value)`. -/
def setItem (key value : String) (s : Storage) : Storage :=
  ⟨(key, value) :: s.items.filter (fun e => e.1 ≠ key)⟩

end Storage

/-- A write to `localStorage`. -/
inductive StorageOp where
  | setItem (key value : String)
  | removeItem (key : String)
  deriving DecidableEq

/-- The write performed on a storage. -/
def StorageOp.apply (op : StorageOp) (s : Storage) : Storage :=
  match op with
  | StorageOp.setItem key value => s.setItem key value
  | StorageOp.removeItem key => s.removeItem key

/-- Whether the write stores a token. -/
def StorageOp.storesToken (op : StorageOp) : Bool :=
  match op with
  | StorageOp.setItem key _ => key = "token"
  | StorageOp.removeItem _ => false

/-- What the interceptors and the route guard touch of the browser:
`localStorage` and `window.location.href`. -/
structure Browser where
  localStorage : Storage
  href : String
  deriving DecidableEq

/-- An axios request config; `β` is the type of the body. -/
structure RequestConfig (β : Type) where
  method : String
  url : String
  data : β
  headers : List (String × String)
  deriving DecidableEq

/-- The assignment `headers[name] = value`. -/
def setHeader (name value : String) (headers : List (String × String)) :
    List (String × String) :=
  (name, value) :: headers.filter (fun e => e.1 ≠ name)

/-- Lines 25-31, the request interceptor. -/
def requestInterceptor {β : Type} (localStorage : Storage) (config : RequestConfig β) :
    RequestConfig β :=
  match localStorage.getItem "token" with
  | some token =>
    if truthy token then
      { config with headers := setHeader "Authorization" ("Bearer " ++ token) config.headers }
    else config
  | none => config

/-- Lines 36-43, the error handler of the response interceptor. It returns
`Promise.reject(error)`: the second component is how the call settles for the
caller, `ρ` being the type of a response. -/
def responseRejected (ρ : Type) (error : AxiosError) (b : Browser) :
    Browser × Except AxiosError ρ :=
  if error.response.map (fun r => r.status) = some 401 then
    ({ localStorage := (b.localStorage.removeItem "token").removeItem "user", href := "/login" },
      Except.error error)
  else
    (b, Except.error error)

/-- What a route element renders to: the wrapped view, or the element
`<Navigate to=... replace />`. -/
inductive Rendered (V : Type) where
  | view (children : V)
  | navigate (target : String) (replace : Bool)
  deriving DecidableEq

/-- Lines 46-49, `ProtectedRoute`. -/
def ProtectedRoute {V : Type} (localStorage : Storage) (children : V) : Rendered V :=
  match localStorage.getItem "token" with
  | some token =>
    if truthy token then Rendered.view children else Rendered.navigate "/login" true
  | none => Rendered.navigate "/login" true

/-- A failed call as its caller sees it. The error handler of the response
interceptor runs first; the `catch` of the caller, `onCatch`, then runs with
the reason of the rejection in the browser the handler left. `onThen` is what
the caller would do with a response. -/
def failedCall {ρ α : Type} (error : AxiosError) (b : Browser)
    (onThen : ρ → Browser → α) (onCatch : AxiosError → Browser → α) : α :=
  match responseRejected ρ error b with
  | (b1, Except.ok response) => onThen response b1
  | (b1, Except.error reason) => onCatch reason b1

/-- The `user` cell of `App` (line 52), with the browser the application runs
in and the log of toasts. `U` is the type of a user record. -/
structure AppState (U : Type) where
  browser : Browser
  user : Option U
  toasts : List Toast
  deriving DecidableEq

/-- The views the routes of `App` mount (lines 70-118). -/
inductive Page (U : Type) where
  | Login
  | Home (user : Option U)
  | CareerPredictor
  | ResumeValidator
  | JobRecommendations
  | Chatbot
  | Dashboard
  deriving DecidableEq

/-- The paths of the routes wrapped in `ProtectedRoute` (lines 71-118). -/
def protectedPaths : List String :=
  ["/", "/career-predictor", "/resume-validator", "/recommendations", "/chatbot", "/dashboard"]

namespace AppState

variable {U : Type}

/-- Lines 52-55, the initialiser of the `user` cell. `parse` stands for
`JSON.parse`: an error when it throws, otherwise the parsed value, absent for
the JavaScript `null`. -/
def restore (parse : String → Except String (Option U)) (localStorage : Storage) :
    Except String (Option U) :=
  match localStorage.getItem "user" with
  | some storedUser => if truthy storedUser then parse storedUser else Except.ok none
  | none => Except.ok none

/-- The first render of `App` after a page load: the `user` cell is
initialised from the storage; an exception of the initialiser leaves no
application. -/
def mount (parse : String → Except String (Option U)) (b : Browser) :
    Except String (AppState U) :=
  match restore parse b.localStorage with
  | Except.ok user => Except.ok { browser := b, user := user, toasts := [] }
  | Except.error e => Except.error e

/-- Lines 57-62, `handleLogout`. -/
def handleLogout (st : AppState U) : AppState U :=
  { browser := { st.browser with
      localStorage := (st.browser.localStorage.removeItem "token").removeItem "user" },
    user := none,
    toasts := st.toasts ++ [Toast.success "Logged out successfully"] }

/-- The error handler of the response interceptor, run in the browser of the
application. It lives outside of React and does not touch the `user` cell. -/
def responseError (error : AxiosError) (st : AppState U) : AppState U :=
  { st with browser := (responseRejected Unit error st.browser).1 }

/-- Lines 69-119, the routes: the element rendered at a path, absent when no
route matches. -/
def route (path : String) (st : AppState U) : Option (Rendered (Page U)) :=
  if path = "/login" then some (Rendered.view Page.Login)
  else if path = "/" then
    some (ProtectedRoute st.browser.localStorage (Page.Home st.user))
  else if path = "/career-predictor" then
    some (ProtectedRoute st.browser.localStorage Page.CareerPredictor)
  else if path = "/resume-validator" then
    some (ProtectedRoute st.browser.localStorage Page.ResumeValidator)
  else if path = "/recommendations" then
    some (ProtectedRoute st.browser.localStorage Page.JobRecommendations)
  else if path = "/chatbot" then
    some (ProtectedRoute st.browser.localStorage Page.Chatbot)
  else if path = "/dashboard" then
    some (ProtectedRoute st.browser.localStorage Page.Dashboard)
  else none

end AppState

/-- A storage as the application leaves it between page loads: neither entry,
or a non-empty token together with a user entry that parses to a record. -/
def SessionStored {U : Type} (parse : String → Except String (Option U)) (s : Storage) : Prop :=
  (s.getItem "token" = none ∧ s.getItem "user" = none) ∨
  (∃ token storedUser record, s.getItem "token" = some token ∧ token ≠ "" ∧
    s.getItem "user" = some storedUser ∧ storedUser ≠ "" ∧
    parse storedUser = Except.ok (some record))

/-- States of the application reachable from a page load on such a storage by
logout, by the 401 handling of the gateway (any failed call, in fact), and by
further page loads. -/
inductive AppReachable {U : Type} (parse : String → Except String (Option U)) :
    AppState U → Prop where
  | start (b : Browser) (st : AppState U) :
      SessionStored parse b.localStorage → AppState.mount parse b = Except.ok st →
      AppReachable parse st
  | logout {st : AppState U} : AppReachable parse st → AppReachable parse (AppState.handleLogout st)
  | responseError (error : AxiosError) {st : AppState U} :
      AppReachable parse st → AppReachable parse (AppState.responseError error st)
  | reload {st : AppState U} (st2 : AppState U) :
      AppReachable parse st → AppState.mount parse st.browser = Except.ok st2 →
      AppReachable parse st2

/-- A user record, for the examples. -/
structure User where
  name : String
  deriving DecidableEq

/-- The JSON text of the example user record, an object with the one member
`name`. -/
def annJson : String :=
  "\x7b\"name\":\"Ann\"\x7d"

/-- A stand-in for `JSON.parse` in the examples. It agrees with `JSON.parse`
on the text of the example record, on `null`, and on every text that is not
JSON; it rejects all other texts. -/
def parseExample (text : String) : Except String (Option User) :=
  if text = annJson then Except.ok (some ⟨"Ann"⟩)
  else if text = "null" then Except.ok none
  else Except.error "SyntaxError"

/-! ## pages/ResumeValidator.jsx -/

/-- What the page reads of a selected file. -/
structure File where
  name : String
  size : Nat
  deriving DecidableEq

/-- A value appended to the multipart form of `/analyze_resume`. -/
inductive FormValue where
  | text (value : String)
  | file (file : File)
  deriving DecidableEq

/-- State cells of `ResumeValidator` (lines 12-16), with the log of toasts and
of the forms sent to `/analyze_resume`. `R` is the type of `response.data`. -/
structure ResumeState (R : Type) where
  loading : Bool
  resumeText : String
  selectedFile : Option File
  inputMode : String
  result : Option R
  toasts : List Toast
  requests : List (List (String × FormValue))
  deriving DecidableEq

/-- Lines 62-66 of `handleAnalyze`: the call failed. -/
def ResumeState.handleAnalyze_rejected {R : Type} (error : AxiosError) (st : ResumeState R) :
    ResumeState R :=
  { st with
    toasts := st.toasts ++ [Toast.error (orElse error.detail "Failed to analyze resume")],
    loading := false }

/-- The method `String.prototype.endsWith`. -/
def endsWith (s suffix : String) : Bool :=
  suffix.data.isSuffixOf s.data

/-- What `formData.append('file', selectedFile)` appends: the file, or the
text `null` when the cell holds `null`. -/
def fileValue (selectedFile : Option File) : FormValue :=
  match selectedFile with
  | some file => FormValue.file file
  | none => FormValue.text "null"

namespace ResumeState

variable {R : Type}

/-- The `useState` initial values. -/
def initial : ResumeState R :=
  { loading := false, resumeText := "", selectedFile := none, inputMode := "text",
    result := none, toasts := [], requests := [] }

/-- The `onChange` of the text area (line 120). -/
def setResumeText (value : String) (st : ResumeState R) : ResumeState R :=
  { st with resumeText := value }

/-- The `onValueChange` of the tabs (line 104). -/
def setInputMode (value : String) (st : ResumeState R) : ResumeState R :=
  { st with inputMode := value }

/-- Lines 18-32, `handleFileSelect`; `file` is `e.target.files[0]`, absent when
no file was chosen. -/
def handleFileSelect (file : Option File) (st : ResumeState R) : ResumeState R :=
  match file with
  | some file =>
    if endsWith file.name ".pdf" = false then
      { st with toasts := st.toasts ++ [Toast.error "Please select a PDF file"] }
    else if file.size > 5 * 1024 * 1024 then
      { st with toasts := st.toasts ++ [Toast.error "File size must be less than 5MB"] }
    else
      { st with
        selectedFile := some file,
        toasts := st.toasts ++ [Toast.success ("Selected: " ++ file.name)] }
  | none => st

/-- Lines 34-58, `handleAnalyze` up to the `await`. The request logged is the
list of the entries of the `FormData` posted to `/analyze_resume`. -/
def handleAnalyze (st : ResumeState R) : ResumeState R :=
  if st.inputMode = "text" ∧ truthy (trim st.resumeText) = false then
    { st with toasts := st.toasts ++ [Toast.error "Please enter your resume text"] }
  else if st.inputMode = "file" ∧ st.selectedFile = none then
    { st with toasts := st.toasts ++ [Toast.error "Please select a PDF file"] }
  else
    { st with
      loading := true,
      requests := st.requests ++
        [if st.inputMode = "text" then [("resume_text", FormValue.text st.resumeText)]
         else [("file", fileValue st.selectedFile)]] }

/-- Lines 60-61 and 65: the response arrived; `data` is `response.data`. -/
def handleAnalyze_fulfilled (data : Option R) (st : ResumeState R) : ResumeState R :=
  { st with
    result := data,
    toasts := st.toasts ++ [Toast.success "Resume analyzed successfully!"],
    loading := false }

end ResumeState

/-- States of the resume page reachable from the initial one by its handlers
and the outcomes of its calls. -/
inductive ResumeReachable {R : Type} : ResumeState R → Prop where
  | init : ResumeReachable ResumeState.initial
  | setResumeText (value : String) {st : ResumeState R} :
      ResumeReachable st → ResumeReachable (ResumeState.setResumeText value st)
  | setInputMode (value : String) {st : ResumeState R} :
      ResumeReachable st → ResumeReachable (ResumeState.setInputMode value st)
  | handleFileSelect (file : Option File) {st : ResumeState R} :
      ResumeReachable st → ResumeReachable (ResumeState.handleFileSelect file st)
  | handleAnalyze {st : ResumeState R} :
      ResumeReachable st → ResumeReachable (ResumeState.handleAnalyze st)
  | fulfilled (data : Option R) {st : ResumeState R} :
      ResumeReachable st → ResumeReachable (ResumeState.handleAnalyze_fulfilled data st)
  | rejected (error : AxiosError) {st : ResumeState R} :
      ResumeReachable st → ResumeReachable (ResumeState.handleAnalyze_rejected error st)

/-- A file within the constraints of the upload: a name ending in `.pdf` and
at most 5 MiB. -/
def AcceptableFile (file : File) : Prop :=
  endsWith file.name ".pdf" = true ∧ file.size ≤ 5 * 1024 * 1024

/-- What `getSentimentBadge` can return: a class string of `variants`, or a
member that `variants` inherits from `Object.prototype`. -/
inductive BadgeValue where
  | className (value : String)
  | inherited (name : String)
  deriving DecidableEq

/-- The names of the members of `Object.prototype`. An object literal has
them all, and each of them is an object or a function, so truthy. -/
def objectPrototypeMembers : List String :=
  ["constructor", "__defineGetter__", "__defineSetter__", "hasOwnProperty",
   "__lookupGetter__", "__lookupSetter__", "isPrototypeOf", "propertyIsEnumerable",
   "toString", "valueOf", "__proto__", "toLocaleString"]

/-- The member access `variants[sentiment]` on the object literal of lines
77-81: an own property, else an inherited member, else `undefined`. -/
def variantsGet (sentiment : String) : Option BadgeValue :=
  if sentiment = "positive" then some (BadgeValue.className "bg-green-100 text-green-800")
  else if sentiment = "neutral" then some (BadgeValue.className "bg-blue-100 text-blue-800")
  else if sentiment = "negative" then some (BadgeValue.className "bg-red-100 text-red-800")
  else if sentiment ∈ objectPrototypeMembers then some (BadgeValue.inherited sentiment)
  else none

/-- Lines 76-83, `getSentimentBadge`: `variants[sentiment] || variants.neutral`.
Every value `variantsGet` finds is truthy. -/
def getSentimentBadge (sentiment : String) : BadgeValue :=
  match variantsGet sentiment with
  | some value => value
  | none => BadgeValue.className "bg-blue-100 text-blue-800"

/-- A resume analysis, with the field the sentiment badge reads (lines 199-200). -/
structure ResumeAnalysis where
  sentiment : String
  deriving DecidableEq

/-! ## pages/chatbot.jsx -/

/-- The two roles of a chat turn. -/
inductive Role where
  | user
  | assistant
  deriving DecidableEq

/-- An element of `messages`. -/
structure ChatTurn where
  role : Role
  content : String
  deriving DecidableEq

/-- State cells of `Chatbot` (lines 11-18), with the log of toasts, the log of
the messages sent to `/chat`, and for every call not yet settled the list
`newMessages` its continuation has captured (line 35). -/
structure ChatState where
  messages : List ChatTurn
  input : String
  loading : Bool
  toasts : List Toast
  requests : List String
  pending : List (List ChatTurn)
  deriving DecidableEq

namespace ChatState

/-- The greeting of lines 12-15. -/
def greeting : ChatTurn :=
  { role := Role.assistant,
    content := "Hi! I'm your AI career advisor. I can help you with resume tips, job search strategies, interview preparation, and career guidance. How can I assist you today?" }

/-- The fallback turn of lines 47-50. -/
def apology : ChatTurn :=
  { role := Role.assistant,
    content := "I apologize, but I'm having trouble processing your request. Please try again." }

/-- The `useState` initial values. -/
def initial : ChatState :=
  { messages := [greeting], input := "", loading := false, toasts := [], requests := [],
    pending := [] }

/-- The call `setInput(value)`: the `onChange` of the input (line 138) and the
click on a quick prompt (line 166), which is not disabled while loading. -/
def setInput (value : String) (st : ChatState) : ChatState :=
  { st with input := value }

/-- Lines 28-40, `handleSend` up to the `await`. -/
def handleSend (st : ChatState) : ChatState :=
  if truthy (trim st.input) then
    { st with
      input := "",
      messages := st.messages ++ [{ role := Role.user, content := trim st.input }],
      loading := true,
      requests := st.requests ++ [trim st.input],
      pending := st.pending ++ [st.messages ++ [{ role := Role.user, content := trim st.input }]] }
  else st

/-- Lines 42-43 and 52: the reply arrived; `newMessages` is the list the call
captured and `reply` is `response.data.reply`. -/
def handleSend_fulfilled (newMessages : List ChatTurn) (reply : String) (st : ChatState) :
    ChatState :=
  { st with
    messages := newMessages ++ [{ role := Role.assistant, content := reply }],
    loading := false }

/-- Lines 44-52: the call failed. -/
def handleSend_rejected (newMessages : List ChatTurn) (error : AxiosError) (st : ChatState) :
    ChatState :=
  { st with
    toasts := st.toasts ++ [Toast.error (orElse error.detail "Failed to get response")],
    messages := newMessages ++ [apology],
    loading := false }

/-- Lines 56-61, `handleKeyPress`. -/
def handleKeyPress (key : String) (shiftKey : Bool) (st : ChatState) : ChatState :=
  if key = "Enter" ∧ shiftKey = false then handleSend st else st

/-- A click on the send button (lines 144-151), rendered with
`disabled={loading || !input.trim()}`: a disabled button fires no click. -/
def clickSend (st : ChatState) : ChatState :=
  if st.loading = true ∨ truthy (trim st.input) = false then st else handleSend st

/-- A key pressed in the input (lines 136-143), rendered with
`disabled={loading}`: a disabled input receives no key. -/
def keyPressInput (key : String) (shiftKey : Bool) (st : ChatState) : ChatState :=
  if st.loading = true then st else handleKeyPress key shiftKey st

/-- Text typed into the input: a disabled input takes no text. -/
def typeInput (value : String) (st : ChatState) : ChatState :=
  if st.loading = true then st else setInput value st

/-- The assistant turn the continuation of a call appends: the reply, or the
apology when the call failed. -/
def assistantTurn (outcome : Except AxiosError String) : ChatTurn :=
  match outcome with
  | Except.ok reply => { role := Role.assistant, content := reply }
  | Except.error _ => apology

/-- The call at position `i` of `pending` settles, with the reply or with an
error: its continuation runs with the list it captured. -/
def settle (i : Nat) (outcome : Except AxiosError String) (st : ChatState) : ChatState :=
  match st.pending.get? i with
  | some newMessages =>
    match outcome with
    | Except.ok reply =>
      { handleSend_fulfilled newMessages reply st with pending := st.pending.eraseIdx i }
    | Except.error error =>
      { handleSend_rejected newMessages error st with pending := st.pending.eraseIdx i }
  | none => st

end ChatState

/-- Whether the job workflow shows as pending: its button reads `Loading...`
and is disabled (lines 127, 131). -/
def JobRecState.jobsPending {J L : Type} (st : JobRecState J L) : Bool :=
  st.loading

/-- Whether the learning-path workflow shows as pending: its button reads
`Generating...` and is disabled (lines 193, 197). It is the same cell. -/
def JobRecState.learningPathPending {J L : Type} (st : JobRecState J L) : Bool :=
  st.loading

/-- What can happen to the chat page through its composer: text is typed, a
quick prompt is clicked, the send button is clicked, a key is pressed in the
input, or a call settles. -/
inductive ComposerEvent where
  | typeInput (value : String)
  | quickPrompt (prompt : String)
  | clickSend
  | keyPress (key : String) (shiftKey : Bool)
  | settle (i : Nat) (outcome : Except AxiosError String)

/-- One event of the composer applied to the state. -/
def composerStep (e : ComposerEvent) (st : ChatState) : ChatState :=
  match e with
  | ComposerEvent.typeInput value => ChatState.typeInput value st
  | ComposerEvent.quickPrompt prompt => ChatState.setInput prompt st
  | ComposerEvent.clickSend => ChatState.clickSend st
  | ComposerEvent.keyPress key shiftKey => ChatState.keyPressInput key shiftKey st
  | ComposerEvent.settle i outcome => ChatState.settle i outcome st

/-- A sequence of events of the composer applied in order. -/
def composerRun (events : List ComposerEvent) (st : ChatState) : ChatState :=
  events.foldl (fun s e => composerStep e s) st

/-- No two consecutive turns of the log both have the role user. -/
def NoTwoUserTurns (log : List ChatTurn) : Prop :=
  List.Chain' (fun a b => ¬ (a.role = Role.user ∧ b.role = Role.user)) log

/-- The invariant of the chat page driven through its composer: the log
alternates, and either no call is pending, `loading` is false and the last
turn is the assistant's, or exactly one call is pending, `loading` is true and
the list the call captured is the current log. -/
def ComposerInv (st : ChatState) : Prop :=
  NoTwoUserTurns st.messages ∧
  ((st.pending = [] ∧ st.loading = false ∧
      ∀ t ∈ st.messages.getLast?, t.role = Role.assistant) ∨
    (st.pending = [st.messages] ∧ st.loading = true))

/-! ## Lemmas on the string primitives -/

theorem dropWhile_head_not {α : Type} (p : α → Bool) (l : List α) (a : α) (d : List α)
    (h : l.dropWhile p = a :: d) : p a = false := by
  induction l with
  | nil => simp at h
  | cons b l ih =>
    by_cases hb : p b = true
    · rw [List.dropWhile_cons_of_pos hb] at h
      exact ih h
    · rw [List.dropWhile_cons_of_neg hb] at h
      simp only [List.cons.injEq] at h
      rw [← h.1]
      simpa using hb

theorem dropWhile_trimList (p : Char → Bool) (l : List Char) :
    ((l.dropWhile p).rdropWhile p).dropWhile p = (l.dropWhile p).rdropWhile p := by
  rcases hd : l.dropWhile p with _ | ⟨a, d⟩
  · simp [List.rdropWhile]
  · have ha : p a = false := dropWhile_head_not p l a d hd
    obtain ⟨r, hr⟩ := List.rdropWhile_prefix p (a :: d)
    rcases ht : List.rdropWhile p (a :: d) with _ | ⟨b, t⟩
    · simp
    · rw [ht] at hr
      simp only [List.cons_append, List.cons.injEq] at hr
      rw [hr.1]
      simp [ha]

theorem trimList_idem (p : Char → Bool) (l : List Char) :
    (((l.dropWhile p).rdropWhile p).dropWhile p).rdropWhile p = (l.dropWhile p).rdropWhile p := by
  rw [dropWhile_trimList, List.rdropWhile_idempotent]

theorem trim_trim (s : String) : trim (trim s) = trim s := by
  simp only [trim, trimList_idem]

/-! ## Lemmas on the lowercase mapping -/

/-- The table of lowercase mappings passes its check. -/
theorem runsGood_true : runsGood = true := by decide!

theorem isWhiteSpace_eq_code (c : Char) : isWhiteSpace c = isWhiteSpaceCode c.toNat := rfl

theorem toNat_ofNat_of_scalar (m : Nat) (h : m < 0xD800 ∨ (0xDFFF < m ∧ m < 0x110000)) :
    (Char.ofNat m).toNat = m := by
  have hv : m.isValidChar := h
  unfold Char.ofNat
  rw [dif_pos hv]
  rfl

theorem simpleLower_of_unmapped (n : Nat) (h : ∀ q ∈ lowerRuns, runCovers q n = false) :
    simpleLower n = n := by
  unfold simpleLower
  have hf : lowerRuns.find? (fun r => runCovers r n) = none := by
    rw [List.find?_eq_none]
    intro q hq
    simp [h q hq]
  rw [hf]

theorem simpleLower_cases (n : Nat) :
    (simpleLower n = n ∧ ∀ q ∈ lowerRuns, runCovers q n = false) ∨
    (∃ r ∈ lowerRuns, runCovers r n = true ∧ simpleLower n = r.2.2.2 + (n - r.1)) := by
  unfold simpleLower
  rcases hf : lowerRuns.find? (fun r => runCovers r n) with _ | r
  · left
    refine ⟨rfl, ?_⟩
    rw [List.find?_eq_none] at hf
    intro q hq
    simpa using hf q hq
  · right
    exact ⟨r, List.mem_of_find?_eq_some hf, by simpa using List.find?_some hf, rfl⟩

theorem runs_checked (r : Nat × Nat × Nat × Nat) (hr : r ∈ lowerRuns) :
    runWellFormed r = true ∧ ∀ q ∈ lowerRuns, separated r q = true := by
  have h := runsGood_true
  unfold runsGood at h
  rw [List.all_eq_true] at h
  have h1 := h r hr
  rw [Bool.and_eq_true, List.all_eq_true] at h1
  exact h1

/-- The image of a mapped code point is a scalar value that no run maps, and
neither white space, the capital sigma nor the capital I with dot above. -/
theorem image_facts (r : Nat × Nat × Nat × Nat) (hr : r ∈ lowerRuns) (n : Nat)
    (hc : runCovers r n = true) :
    unmapped (r.2.2.2 + (n - r.1)) = true ∧
    isWhiteSpaceCode (r.2.2.2 + (n - r.1)) = false ∧
    (r.2.2.2 + (n - r.1) < 0xD800 ∨
      (0xDFFF < r.2.2.2 + (n - r.1) ∧ r.2.2.2 + (n - r.1) < 0x110000)) := by
  obtain ⟨hw, hs⟩ := runs_checked r hr
  obtain ⟨lo, hi, step, target⟩ := r
  simp only [runCovers, Bool.and_eq_true, Nat.ble_eq, Nat.beq_eq] at hc
  simp only [runWellFormed, imageLo, imageHi, Bool.and_eq_true, Bool.or_eq_true, Nat.ble_eq,
    Nat.blt_eq, Nat.beq_eq] at hw
  try dsimp only at hc
  try dsimp only at hw
  try dsimp only
  refine ⟨?_, ?_, ?_⟩
  · simp only [unmapped, Bool.and_eq_true, Bool.not_eq_true', List.all_eq_true]
    refine ⟨⟨?_, ?_⟩, ?_⟩
    · rw [Bool.eq_false_iff]
      intro h
      rw [Nat.beq_eq] at h
      omega
    · rw [Bool.eq_false_iff]
      intro h
      rw [Nat.beq_eq] at h
      omega
    · intro q hq
      have hsep := hs q hq
      obtain ⟨qlo, qhi, qstep, qtarget⟩ := q
      simp only [separated, imageLo, imageHi, Bool.and_eq_true, Bool.or_eq_true, Nat.ble_eq,
        Nat.blt_eq, Nat.beq_eq] at hsep
      try dsimp only at hsep
      rw [Bool.eq_false_iff]
      intro hcov
      simp only [runCovers, Bool.and_eq_true, Nat.ble_eq, Nat.beq_eq] at hcov
      try dsimp only at hcov
      rcases hsep with (hlt | hgt) | ⟨⟨⟨hq2, hle⟩, hodd⟩, hkind⟩
      · omega
      · omega
      · subst hq2
        rcases hkind with h2 | h1
        · subst h2
          omega
        · omega
  · simp only [isWhiteSpaceCode, Bool.or_eq_false_iff, Bool.and_eq_false_iff,
      decide_eq_false_iff_not]
    omega
  · omega

/-- Lowercasing leaves an unmapped character alone, in every context. -/
theorem lowerOne_of_unmapped (before after : List Char) (c : Char)
    (h : unmapped c.toNat = true) : lowerOne before c after = [c] := by
  simp only [unmapped, Bool.and_eq_true, Bool.not_eq_true', List.all_eq_true] at h
  obtain ⟨⟨h1, h2⟩, h3⟩ := h
  have e1 : ¬ c.toNat = 0x03A3 := by
    intro he
    rw [he] at h1
    revert h1
    decide
  have e2 : ¬ c.toNat = 0x0130 := by
    intro he
    rw [he] at h2
    revert h2
    decide
  unfold lowerOne
  rw [if_neg e1, if_neg e2, simpleLower_of_unmapped c.toNat h3, Char.ofNat_toNat]

/-- Every character that lowercasing produces is unmapped, and it is white
space only if the character it comes from is. -/
theorem lowerOne_output (before after : List Char) (c d : Char)
    (hd : d ∈ lowerOne before c after) :
    unmapped d.toNat = true ∧ (isWhiteSpace c = false → isWhiteSpace d = false) := by
  unfold lowerOne at hd
  split at hd
  · have hd2 : d = Char.ofNat 0x03C2 ∨ d = Char.ofNat 0x03C3 := by
      split at hd
      · exact Or.inl (List.mem_singleton.1 hd)
      · exact Or.inr (List.mem_singleton.1 hd)
    rcases hd2 with h | h <;> subst h
    · exact ⟨by decide!, fun _ => by decide⟩
    · exact ⟨by decide!, fun _ => by decide⟩
  · split at hd
    · have hd2 : d = Char.ofNat 0x0069 ∨ d = Char.ofNat 0x0307 := by
        simpa using hd
      rcases hd2 with h | h <;> subst h
      · exact ⟨by decide!, fun _ => by decide⟩
      · exact ⟨by decide!, fun _ => by decide⟩
    · rename_i h1 h2
      have hd2 : d = Char.ofNat (simpleLower c.toNat) := List.mem_singleton.1 hd
      subst hd2
      rcases simpleLower_cases c.toNat with ⟨he, hu⟩ | ⟨r, hr, hc, he⟩
      · rw [he, Char.ofNat_toNat]
        refine ⟨?_, fun h => h⟩
        simp only [unmapped, Bool.and_eq_true, Bool.not_eq_true', List.all_eq_true]
        refine ⟨⟨?_, ?_⟩, ?_⟩
        · rw [Bool.eq_false_iff]
          intro h
          exact h1 (Nat.eq_of_beq_eq_true h)
        · rw [Bool.eq_false_iff]
          intro h
          exact h2 (Nat.eq_of_beq_eq_true h)
        · intro q hq
          simp [hu q hq]
      · obtain ⟨f1, f2, f3⟩ := image_facts r hr c.toNat hc
        rw [he, toNat_ofNat_of_scalar _ f3]
        refine ⟨f1, fun _ => ?_⟩
        rw [isWhiteSpace_eq_code, toNat_ofNat_of_scalar _ f3]
        exact f2

theorem lowerOne_ne_nil (before after : List Char) (c : Char) :
    lowerOne before c after ≠ [] := by
  unfold lowerOne
  split
  · simp
  · split <;> simp

theorem lowerFrom_eq_nil (before l : List Char) : lowerFrom before l = [] ↔ l = [] := by
  cases l with
  | nil => simp [lowerFrom]
  | cons c after =>
    simp only [lowerFrom, List.append_eq_nil, reduceCtorEq, iff_false, not_and]
    intro h
    exact absurd h (lowerOne_ne_nil before after c)

/-- Every character of a lowercased list is unmapped. -/
theorem lowerFrom_unmapped (before l : List Char) :
    ∀ d ∈ lowerFrom before l, unmapped d.toNat = true := by
  induction l generalizing before with
  | nil => simp [lowerFrom]
  | cons c after ih =>
    intro d hd
    simp only [lowerFrom, List.mem_append] at hd
    rcases hd with hd | hd
    · exact (lowerOne_output before after c d hd).1
    · exact ih _ d hd

/-- Lowercasing leaves a list of unmapped characters alone. -/
theorem lowerFrom_of_unmapped (before l : List Char)
    (h : ∀ c ∈ l, unmapped c.toNat = true) : lowerFrom before l = l := by
  induction l generalizing before with
  | nil => rfl
  | cons c after ih =>
    simp only [lowerFrom]
    rw [lowerOne_of_unmapped before after c (h c (List.mem_cons_self _ _)),
      ih _ (fun x hx => h x (List.mem_cons_of_mem _ hx))]
    rfl

/-- The first character of a lowercased list comes from the first character. -/
theorem lowerFrom_head (before : List Char) (c : Char) (after : List Char) :
    ∃ d rest, lowerFrom before (c :: after) = d :: rest ∧ d ∈ lowerOne before c after := by
  rcases h : lowerOne before c after with _ | ⟨d, ds⟩
  · exact absurd h (lowerOne_ne_nil before after c)
  · exact ⟨d, ds ++ lowerFrom (c :: before) after, by simp [lowerFrom, h], by simp⟩

/-- The last character of a lowercased list comes from the last character. -/
theorem lowerFrom_getLast (l : List Char) (before : List Char) (d : Char)
    (h : (lowerFrom before l).getLast? = some d) :
    ∃ c b a, l.getLast? = some c ∧ d ∈ lowerOne b c a := by
  induction l generalizing before with
  | nil => simp [lowerFrom] at h
  | cons c after ih =>
    cases after with
    | nil =>
      refine ⟨c, before, [], rfl, ?_⟩
      simp only [lowerFrom, List.append_nil] at h
      exact List.mem_of_getLast?_eq_some h
    | cons c2 rest =>
      have hne : lowerFrom (c :: before) (c2 :: rest) ≠ [] := by
        intro h0
        have := (lowerFrom_eq_nil _ _).1 h0
        cases this
      have hl : (lowerFrom before (c :: c2 :: rest)).getLast?
          = (lowerFrom (c :: before) (c2 :: rest)).getLast? := by
        show (lowerOne before c (c2 :: rest) ++ lowerFrom (c :: before) (c2 :: rest)).getLast? = _
        rw [List.getLast?_append_of_ne_nil _ hne]
      rw [hl] at h
      obtain ⟨c3, b, a, h1, h2⟩ := ih _ h
      exact ⟨c3, b, a, by rw [List.getLast?_cons_cons]; exact h1, h2⟩

theorem toLowerCase_eq_empty (s : String) : toLowerCase s = "" ↔ s = "" := by
  rw [String.ext_iff, String.ext_iff]
  exact lowerFrom_eq_nil [] s.data

/-- No character of a lowercased string has a lowercase mapping. -/
theorem toLowerCase_unmapped (s : String) :
    ∀ c ∈ (toLowerCase s).data, unmapped c.toNat = true :=
  lowerFrom_unmapped [] s.data

theorem toLowerCase_of_unmapped (s : String) (h : ∀ c ∈ s.data, unmapped c.toNat = true) :
    toLowerCase s = s := by
  rw [String.ext_iff]
  exact lowerFrom_of_unmapped [] s.data h

theorem toLowerCase_idem (s : String) : toLowerCase (toLowerCase s) = toLowerCase s :=
  toLowerCase_of_unmapped _ (toLowerCase_unmapped s)

/-- Lowercasing a list without white space at either end gives a list without
white space at either end. -/
theorem trimList_lowerFrom (l : List Char) (h1 : l.dropWhile isWhiteSpace = l)
    (h2 : l.rdropWhile isWhiteSpace = l) :
    ((lowerFrom [] l).dropWhile isWhiteSpace).rdropWhile isWhiteSpace = lowerFrom [] l := by
  cases l with
  | nil => simp [lowerFrom, List.rdropWhile]
  | cons c after =>
    obtain ⟨d, rest, he, hd⟩ := lowerFrom_head [] c after
    have hc : isWhiteSpace c = false := dropWhile_head_not isWhiteSpace (c :: after) c after h1
    have hdw : isWhiteSpace d = false := (lowerOne_output [] after c d hd).2 hc
    have e1 : (lowerFrom [] (c :: after)).dropWhile isWhiteSpace = lowerFrom [] (c :: after) := by
      rw [he]
      exact List.dropWhile_cons_of_neg (by simp [hdw])
    rw [e1, List.rdropWhile_eq_self_iff]
    intro hl hp
    have hg := List.getLast?_eq_getLast _ hl
    obtain ⟨c2, b, a, hlast, hmem⟩ := lowerFrom_getLast _ _ _ hg
    have h3 := (List.rdropWhile_eq_self_iff).1 h2 (List.cons_ne_nil c after)
    rw [List.getLast?_eq_getLast _ (List.cons_ne_nil c after)] at hlast
    simp only [Option.some.injEq] at hlast
    rw [hlast] at h3
    have hc2 : isWhiteSpace c2 = false := by simpa using h3
    have := (lowerOne_output b a c2 _ hmem).2 hc2
    rw [this] at hp
    exact absurd hp (by decide)

/-- The lowercase of a trimmed string is trimmed. -/
theorem trim_toLowerCase_trim (s : String) :
    trim (toLowerCase (trim s)) = toLowerCase (trim s) := by
  rw [String.ext_iff]
  exact trimList_lowerFrom (trim s).data (dropWhile_trimList isWhiteSpace s.data)
    (List.rdropWhile_idempotent isWhiteSpace _)

theorem truthy_iff (s : String) : truthy s = true ↔ s ≠ "" := by
  simp [truthy]

theorem normalSkill_of_input (s : String) (h : trim s ≠ "") :
    NormalSkill (toLowerCase (trim s)) := by
  refine ⟨?_, toLowerCase_idem _, toLowerCase_unmapped _, trim_toLowerCase_trim _⟩
  intro h0
  exact h ((toLowerCase_eq_empty _).1 h0)

/-! ## The skill list -/

namespace JobRecState

variable {J L : Type}

/-- The list after typing `s` and pressing Add, by cases on the guard of `addSkill`. -/
theorem addSkill_setSkillInput_skills (st : JobRecState J L) (s : String) :
    (addSkill (setSkillInput s st)).skills =
      if trim s ≠ "" ∧ toLowerCase (trim s) ∉ st.skills
      then st.skills ++ [toLowerCase (trim s)] else st.skills := by
  unfold addSkill setSkillInput
  simp only [truthy_iff]
  split <;> rfl

/-- The invariant of the skill list: normal forms, pairwise distinct. -/
theorem skills_inv_of_reachable {st : JobRecState J L} (h : SkillReachable st) :
    (∀ x ∈ st.skills, NormalSkill x) ∧ st.skills.Nodup := by
  induction h with
  | init => exact ⟨by simp [initial], by simp [initial]⟩
  | setSkillInput value _ ih => exact ih
  | @addSkill st _ ih =>
    have e := addSkill_setSkillInput_skills st st.skillInput
    have e0 : setSkillInput st.skillInput st = st := rfl
    rw [e0] at e
    rw [e]
    split
    · rename_i hc
      refine ⟨?_, ?_⟩
      · intro x hx
        rcases List.mem_append.1 hx with hx | hx
        · exact ih.1 x hx
        · rw [List.mem_singleton.1 hx]
          exact normalSkill_of_input _ hc.1
      · rw [List.nodup_append]
        refine ⟨ih.2, List.nodup_singleton _, ?_⟩
        intro a ha hb
        rw [List.mem_singleton.1 hb] at ha
        exact hc.2 ha
    · exact ih
  | removeSkill skillToRemove _ ih =>
    refine ⟨?_, ?_⟩
    · intro x hx
      exact ih.1 x (List.mem_of_mem_filter hx)
    · exact ih.2.filter _

end JobRecState

/-! ## Claims on the skill list and the two guards of the job page -/

/-- C1: for every skill list and every two inputs with the same trimmed,
lowercased form, adding the first and then the second yields the same list as
adding the first alone. -/
theorem addSkill_same_skill_twice {J L : Type} (st : JobRecState J L) (s t : String)
    (h : toLowerCase (trim s) = toLowerCase (trim t)) :
    (JobRecState.addSkill (JobRecState.setSkillInput t
        (JobRecState.addSkill (JobRecState.setSkillInput s st)))).skills
      = (JobRecState.addSkill (JobRecState.setSkillInput s st)).skills := by
  have e1 := JobRecState.addSkill_setSkillInput_skills st s
  have e2 := JobRecState.addSkill_setSkillInput_skills
    (JobRecState.addSkill (JobRecState.setSkillInput s st)) t
  rw [e2, ← h]
  by_cases hc : trim s ≠ "" ∧ toLowerCase (trim s) ∉ st.skills
  · rw [if_neg]
    rw [e1, if_pos hc]
    simp
  · rw [if_neg]
    rw [e1, if_neg hc]
    rintro ⟨ht, hn⟩
    apply hc
    refine ⟨?_, hn⟩
    intro hs
    apply ht
    have h0 : toLowerCase (trim t) = "" := by rw [← h, hs]; rfl
    exact (toLowerCase_eq_empty _).1 h0

/-- C1, the example of the specification: "Python" then "python" added to the
empty list give the list of size 1 holding "python"; likewise " École" then
"ÉCOLE" give the list holding "école". -/
theorem addSkill_same_skill_twice_witness :
    (JobRecState.addSkill (JobRecState.setSkillInput "python"
        (JobRecState.addSkill (JobRecState.setSkillInput "Python"
          (JobRecState.initial : JobRecState Unit Unit))))).skills = ["python"] ∧
    (JobRecState.addSkill (JobRecState.setSkillInput "ÉCOLE"
        (JobRecState.addSkill (JobRecState.setSkillInput " École"
          (JobRecState.initial : JobRecState Unit Unit))))).skills = ["école"] :=
  ⟨(addSkill_same_skill_twice JobRecState.initial "Python" "python" (by decide)).trans
      (by decide),
   (addSkill_same_skill_twice JobRecState.initial " École" "ÉCOLE" (by decide)).trans
      (by decide)⟩

/-- C2: in every state reachable from the initial one by typing, `addSkill`
and `removeSkill`, every skill is non-empty, lowercase (lowercasing leaves it
alone, and none of its characters has a lowercase mapping in the Unicode
table) and trimmed, no two skills are equal, and no two are equal after
trimming and lowercasing. -/
theorem skills_normal_and_distinct {J L : Type} (st : JobRecState J L)
    (h : JobRecState.SkillReachable st) :
    (∀ x ∈ st.skills, x ≠ "" ∧ toLowerCase x = x ∧
      (∀ c ∈ x.data, unmapped c.toNat = true) ∧ trim x = x) ∧
    st.skills.Nodup ∧
    (st.skills.map (fun x => toLowerCase (trim x))).Nodup := by
  have hi := JobRecState.skills_inv_of_reachable h
  refine ⟨hi.1, hi.2, ?_⟩
  have hm : st.skills.map (fun x => toLowerCase (trim x)) = st.skills := by
    conv_rhs => rw [← List.map_id st.skills]
    apply List.map_congr_left
    intro x hx
    have hx3 := hi.1 x hx
    show toLowerCase (trim x) = id x
    rw [hx3.2.2.2, hx3.2.1]
    rfl
  rw [hm]
  exact hi.2

/-- C2 at the state reached by adding " Python ", "python ", " ÉCOLE" and "SQL"
and removing "sql": the list is "python", "école". -/
theorem skills_normal_and_distinct_witness :
    (∀ x ∈ ["python", "école"], x ≠ "" ∧ toLowerCase x = x ∧
      (∀ c ∈ x.data, unmapped c.toNat = true) ∧ trim x = x) ∧
    ["python", "école"].Nodup ∧
    (["python", "école"].map (fun x => toLowerCase (trim x))).Nodup :=
  skills_normal_and_distinct
    (JobRecState.removeSkill "sql"
      (JobRecState.addSkill (JobRecState.setSkillInput "SQL"
        (JobRecState.addSkill (JobRecState.setSkillInput " ÉCOLE"
          (JobRecState.addSkill (JobRecState.setSkillInput "python "
            (JobRecState.addSkill (JobRecState.setSkillInput " Python "
              (JobRecState.initial : JobRecState Unit Unit))))))))))
    (JobRecState.SkillReachable.removeSkill "sql"
      (JobRecState.SkillReachable.addSkill (JobRecState.SkillReachable.setSkillInput "SQL"
        (JobRecState.SkillReachable.addSkill (JobRecState.SkillReachable.setSkillInput " ÉCOLE"
          (JobRecState.SkillReachable.addSkill (JobRecState.SkillReachable.setSkillInput "python "
            (JobRecState.SkillReachable.addSkill
              (JobRecState.SkillReachable.setSkillInput " Python "
                JobRecState.SkillReachable.init)))))))))

/-- C3: `addSkill` on input `s` leaves the list unchanged when the trimmed
input is empty or its lowercased form is already in the list; otherwise it
returns the list with that form appended as last element; in both cases every
earlier element stays at its position. The form `lowercase(trim(s))` has no
character with a lowercase mapping in the Unicode table and no white space at
either end. -/
theorem addSkill_spec {J L : Type} (st : JobRecState J L) (s : String) :
    ((trim s = "" ∨ toLowerCase (trim s) ∈ st.skills) →
      (JobRecState.addSkill (JobRecState.setSkillInput s st)).skills = st.skills) ∧
    ((trim s ≠ "" ∧ toLowerCase (trim s) ∉ st.skills) →
      (JobRecState.addSkill (JobRecState.setSkillInput s st)).skills
        = st.skills ++ [toLowerCase (trim s)]) ∧
    (∀ i, i < st.skills.length →
      (JobRecState.addSkill (JobRecState.setSkillInput s st)).skills[i]? = st.skills[i]?) ∧
    (∀ c ∈ (toLowerCase (trim s)).data, unmapped c.toNat = true) ∧
    trim (toLowerCase (trim s)) = toLowerCase (trim s) := by
  have e := JobRecState.addSkill_setSkillInput_skills st s
  refine ⟨?_, ?_, ?_, toLowerCase_unmapped _, trim_toLowerCase_trim _⟩
  · intro h
    rw [e, if_neg]
    rintro ⟨h1, h2⟩
    rcases h with h | h
    · exact h1 h
    · exact h2 h
  · intro h
    rw [e, if_pos h]
  · intro i hi
    rw [e]
    split
    · exact List.getElem?_append_left hi
    · rfl

/-- C3 at the list ["python"]: blank input and " PYTHON" change nothing, " Sql "
is appended as "sql" and " ÉCOLE " as "école", and "python" stays first. -/
theorem addSkill_spec_witness :
    (JobRecState.addSkill (JobRecState.setSkillInput "  "
      (JobRecState.mk ["python"] "" "" false ([] : List Unit) (none : Option Unit) [] []))).skills
        = ["python"] ∧
    (JobRecState.addSkill (JobRecState.setSkillInput " PYTHON"
      (JobRecState.mk ["python"] "" "" false ([] : List Unit) (none : Option Unit) [] []))).skills
        = ["python"] ∧
    (JobRecState.addSkill (JobRecState.setSkillInput " Sql "
      (JobRecState.mk ["python"] "" "" false ([] : List Unit) (none : Option Unit) [] []))).skills
        = ["python", "sql"] ∧
    (JobRecState.addSkill (JobRecState.setSkillInput " ÉCOLE "
      (JobRecState.mk ["python"] "" "" false ([] : List Unit) (none : Option Unit) [] []))).skills
        = ["python", "école"] ∧
    (JobRecState.addSkill (JobRecState.setSkillInput " Sql "
      (JobRecState.mk ["python"] "" "" false ([] : List Unit) (none : Option Unit) [] []))).skills[0]?
        = some "python" ∧
    toLowerCase (trim " Sql ") = "sql" ∧ toLowerCase (trim " ÉCOLE ") = "école" :=
  ⟨(addSkill_spec _ "  ").1 (Or.inl (by decide)),
   (addSkill_spec _ " PYTHON").1 (Or.inr (by decide)),
   ((addSkill_spec _ " Sql ").2.1 ⟨by decide, by decide⟩).trans (by decide),
   ((addSkill_spec _ " ÉCOLE ").2.1 ⟨by decide, by decide⟩).trans (by decide),
   ((addSkill_spec _ " Sql ").2.2.1 0 (by decide)).trans (by decide),
   by decide, by decide⟩

/-- C4: `removeSkill s` yields a list without `s` that keeps every other
element, as often as before and in the same relative order; when `s` is not
in the list the list is unchanged. -/
theorem removeSkill_spec {J L : Type} (st : JobRecState J L) (s : String) :
    s ∉ (JobRecState.removeSkill s st).skills ∧
    (JobRecState.removeSkill s st).skills.Sublist st.skills ∧
    (∀ x, x ≠ s → (JobRecState.removeSkill s st).skills.count x = st.skills.count x) ∧
    (s ∉ st.skills → (JobRecState.removeSkill s st).skills = st.skills) := by
  refine ⟨?_, ?_, ?_, ?_⟩
  · simp [JobRecState.removeSkill]
  · exact List.filter_sublist _
  · intro x hx
    simp only [JobRecState.removeSkill]
    rw [List.count_filter]
    simpa using hx
  · intro h
    simp only [JobRecState.removeSkill]
    rw [List.filter_eq_self]
    intro a ha
    have : a ≠ s := fun e => h (e ▸ ha)
    simpa using this

/-- C4 at the list ["python", "sql", "react"]: removing "sql" keeps
"python" and "react" in order, and removing "go" changes nothing. -/
theorem removeSkill_spec_witness :
    (JobRecState.removeSkill "sql"
      (JobRecState.mk ["python", "sql", "react"] "" "" false ([] : List Unit)
        (none : Option Unit) [] [])).skills.count "react" = 1 ∧
    (JobRecState.removeSkill "go"
      (JobRecState.mk ["python", "sql", "react"] "" "" false ([] : List Unit)
        (none : Option Unit) [] [])).skills = ["python", "sql", "react"] :=
  ⟨((removeSkill_spec _ "sql").2.2.1 "react" (by decide)).trans (by decide),
   (removeSkill_spec _ "go").2.2.2 (by decide)⟩

/-- C5: with an empty skill list `handleGetJobs` and `handleGetLearningPath`
send no request and leave `loading`, `jobs` and `learningPath` as they are;
with a non-empty list each sends one request carrying the current skill list,
and the learning-path request the current target role as well. -/
theorem empty_skills_send_nothing {J L : Type} (st : JobRecState J L) :
    (st.skills = [] →
      ((JobRecState.handleGetJobs st).requests = st.requests ∧
        (JobRecState.handleGetJobs st).loading = st.loading ∧
        (JobRecState.handleGetJobs st).jobs = st.jobs ∧
        (JobRecState.handleGetJobs st).learningPath = st.learningPath) ∧
      ((JobRecState.handleGetLearningPath st).requests = st.requests ∧
        (JobRecState.handleGetLearningPath st).loading = st.loading ∧
        (JobRecState.handleGetLearningPath st).jobs = st.jobs ∧
        (JobRecState.handleGetLearningPath st).learningPath = st.learningPath)) ∧
    (st.skills ≠ [] →
      (JobRecState.handleGetJobs st).requests
        = st.requests ++ [JobRequest.recommend_jobs st.skills] ∧
      (JobRecState.handleGetLearningPath st).requests
        = st.requests ++ [JobRequest.learning_path st.skills st.targetRole]) := by
  refine ⟨?_, ?_⟩
  · intro h
    simp [JobRecState.handleGetJobs, JobRecState.handleGetLearningPath, h]
  · intro h
    have hl : ¬ st.skills.length = 0 := by
      intro h0
      exact h (List.length_eq_zero.1 h0)
    simp [JobRecState.handleGetJobs, JobRecState.handleGetLearningPath, hl]

/-- C5 at the initial state (empty list) and at the list ["python"] with the
default target role. -/
theorem empty_skills_send_nothing_witness :
    (JobRecState.handleGetJobs (JobRecState.initial : JobRecState Unit Unit)).requests = [] ∧
    (JobRecState.handleGetLearningPath
      (JobRecState.mk ["python"] "" "software_engineer" false ([] : List Unit)
        (none : Option Unit) [] [])).requests
      = [] ++ [JobRequest.learning_path ["python"] "software_engineer"] :=
  ⟨((empty_skills_send_nothing JobRecState.initial).1 rfl).1.1,
   ((empty_skills_send_nothing _).2 (by decide)).2⟩

/-! ## Claims on the prediction form -/

/-- The result cell after a run, from any start. -/
theorem PredictorState.run_result {R : Type} (events : List (PredictorEvent R))
    (st : PredictorState R) :
    (PredictorState.run events st).result = lastPayload st.result events := by
  induction events generalizing st with
  | nil => rfl
  | cons e rest ih =>
    have hstep : PredictorState.run (e :: rest) st
        = PredictorState.run rest (PredictorState.step e st) := rfl
    rw [hstep, ih]
    cases e <;> rfl

/-- C6, as stated, fails: with age 17 (outside 18..70) `handleSubmit` still
sends the form to `/predict` and the state is pending, and when the response
arrives the status read off the state is success, not error. Submitted
through the form instead, age 17 is stopped by the `min` of the input, and the
status stays idle: in neither way does the workflow end in the error status. -/
theorem handleSubmit_age17_dispatches :
    withinBounds ⟨17, 5, 2, 8, 1, 2⟩ = false ∧
    (PredictorState.handleSubmit (PredictorState.setFormData ⟨17, 5, 2, 8, 1, 2⟩
      (PredictorState.initial : PredictorState PredictionResult))).requests
        = [⟨17, 5, 2, 8, 1, 2⟩] ∧
    PredictorState.status (PredictorState.handleSubmit
      (PredictorState.setFormData ⟨17, 5, 2, 8, 1, 2⟩
        (PredictorState.initial : PredictorState PredictionResult))) = Status.pending ∧
    PredictorState.status (PredictorState.handleSubmit_fulfilled
      (some ⟨40, ["age"], []⟩)
      (PredictorState.handleSubmit (PredictorState.setFormData ⟨17, 5, 2, 8, 1, 2⟩
        (PredictorState.initial : PredictorState PredictionResult)))) = Status.success ∧
    PredictorState.status (PredictorState.submitForm
      (PredictorState.setFormData ⟨17, 5, 2, 8, 1, 2⟩
        (PredictorState.initial : PredictorState PredictionResult))) = Status.idle := by
  decide

/-- C6, amended: `handleSubmit` checks no bound. For every form data, within
the declared bounds or not, it sends exactly the form data to `/predict`, sets
`loading`, emits no toast and changes no result. The bounds of the number
inputs are enforced by the form only: submitted through the form, form data
with a number input out of range send no request and leave the whole state,
and so the status, as it was. -/
theorem handleSubmit_always_dispatches {R : Type} (st : PredictorState R) (f : FormData) :
    ((PredictorState.handleSubmit (PredictorState.setFormData f st)).requests
        = st.requests ++ [f] ∧
      (PredictorState.handleSubmit (PredictorState.setFormData f st)).loading = true ∧
      PredictorState.status (PredictorState.handleSubmit (PredictorState.setFormData f st))
        = Status.pending ∧
      (PredictorState.handleSubmit (PredictorState.setFormData f st)).toasts = st.toasts ∧
      (PredictorState.handleSubmit (PredictorState.setFormData f st)).result = st.result) ∧
    (numberInputsValid f = false →
      PredictorState.submitForm (PredictorState.setFormData f st)
        = PredictorState.setFormData f st) := by
  refine ⟨⟨rfl, rfl, rfl, rfl, rfl⟩, ?_⟩
  intro h
  simp [PredictorState.submitForm, PredictorState.setFormData, h]

/-- C6, amended, at age 17 typed into the initial form: the handler sends the
form data, the form sends nothing. -/
theorem handleSubmit_always_dispatches_witness :
    (PredictorState.handleSubmit (PredictorState.setFormData ⟨17, 5, 2, 8, 1, 2⟩
      (PredictorState.initial : PredictorState Nat))).requests = [] ++ [⟨17, 5, 2, 8, 1, 2⟩] ∧
    PredictorState.submitForm (PredictorState.setFormData ⟨17, 5, 2, 8, 1, 2⟩
      (PredictorState.initial : PredictorState Nat))
        = PredictorState.setFormData ⟨17, 5, 2, 8, 1, 2⟩ PredictorState.initial :=
  ⟨(handleSubmit_always_dispatches PredictorState.initial ⟨17, 5, 2, 8, 1, 2⟩).1.1,
   (handleSubmit_always_dispatches PredictorState.initial ⟨17, 5, 2, 8, 1, 2⟩).2 (by decide)⟩

/-- Every event of the form keeps the invariant of the form. -/
theorem formInv_step {R : Type} {s : PredictorSession R} (hi : FormInv s) (e : FormEvent R) :
    FormInv (PredictorSession.step e s) := by
  cases e with
  | edit formData => exact hi
  | submit =>
    by_cases hg : s.page.loading = true ∨ numberInputsValid s.page.formData = false
    · have e1 : PredictorState.submitForm s.page = s.page := by
        simp only [PredictorState.submitForm, if_pos hg]
      have e2 : PredictorSession.step FormEvent.submit s = s := by
        simp only [PredictorSession.step, e1, if_true]
      rw [e2]
      exact hi
    · have e1 : PredictorState.submitForm s.page = PredictorState.handleSubmit s.page := by
        simp only [PredictorState.submitForm, if_neg hg]
      have hl : s.page.loading = false := by
        cases hx : s.page.loading
        · rfl
        · exact absurd (Or.inl hx) hg
      rcases hi with ⟨h1, _⟩ | ⟨_, h2, _⟩
      · right
        simp [PredictorSession.step, e1, PredictorState.handleSubmit, h1]
      · rw [hl] at h2
        cases h2
  | settle seq outcome =>
    by_cases hm : seq ∈ s.inflight
    · rcases hi with ⟨h1, _⟩ | ⟨h1, _, _⟩
      · rw [h1] at hm
        cases hm
      · left
        have hs : seq = s.page.requests.length - 1 := by
          rw [h1] at hm
          exact List.mem_singleton.1 hm
        cases outcome <;>
          simp [PredictorSession.step, hm, h1, hs, PredictorState.handleSubmit_fulfilled,
            PredictorState.handleSubmit_rejected]
    · have e2 : PredictorSession.step (FormEvent.settle seq outcome) s = s := by
        simp only [PredictorSession.step, if_neg hm]
      rw [e2]
      exact hi

/-- Every run of the form keeps the invariant of the form. -/
theorem formInv_run {R : Type} {s : PredictorSession R} (hi : FormInv s)
    (events : List (FormEvent R)) : FormInv (PredictorSession.run events s) := by
  induction events generalizing s with
  | nil => exact hi
  | cons e rest ih => exact ih (formInv_step hi e)

/-- The page as mounted satisfies the invariant of the form. -/
theorem formInv_initial {R : Type} : FormInv (PredictorSession.initial : PredictorSession R) :=
  Or.inl ⟨rfl, rfl⟩

/-- C7: a response is applied to the prediction page only if it belongs to the
submission issued last. At every point of every sequence of edits, submissions
through the form and settling calls, from the page as mounted: at most one
call is in flight, and it is the submission issued last; the settling of a
call with any other number changes nothing, no such call being in flight; the
response of the call in flight is applied, its payload becomes the result and
`loading` is reset; and while a call is in flight a submission changes
nothing, so that no later submission is issued before the response of an
earlier one has arrived, and no response arrives after that of a later
submission. The page keeps no sequence number. -/
theorem response_belongs_to_latest_submission {R : Type} (events : List (FormEvent R)) :
    (PredictorSession.run events PredictorSession.initial).inflight.length ≤ 1 ∧
    (∀ seq ∈ (PredictorSession.run events PredictorSession.initial).inflight,
      seq + 1 = (PredictorSession.run events PredictorSession.initial).page.requests.length) ∧
    (∀ seq outcome,
      seq + 1 ≠ (PredictorSession.run events PredictorSession.initial).page.requests.length →
      PredictorSession.step (FormEvent.settle seq outcome)
          (PredictorSession.run events PredictorSession.initial)
        = PredictorSession.run events PredictorSession.initial) ∧
    (∀ seq ∈ (PredictorSession.run events PredictorSession.initial).inflight, ∀ data,
      (PredictorSession.step (FormEvent.settle seq (Except.ok data))
          (PredictorSession.run events PredictorSession.initial)).page.result = data ∧
      (PredictorSession.step (FormEvent.settle seq (Except.ok data))
          (PredictorSession.run events PredictorSession.initial)).page.loading = false ∧
      (PredictorSession.step (FormEvent.settle seq (Except.ok data))
          (PredictorSession.run events PredictorSession.initial)).inflight = []) ∧
    ((PredictorSession.run events PredictorSession.initial).inflight ≠ [] →
      PredictorSession.step FormEvent.submit
          (PredictorSession.run events PredictorSession.initial)
        = PredictorSession.run events PredictorSession.initial) := by
  have hi : FormInv (PredictorSession.run events (PredictorSession.initial : PredictorSession R)) :=
    formInv_run formInv_initial events
  generalize PredictorSession.run events (PredictorSession.initial : PredictorSession R) = s at hi
  have hlatest : ∀ seq ∈ s.inflight, seq + 1 = s.page.requests.length := by
    intro seq hm
    rcases hi with ⟨h1, _⟩ | ⟨h1, _, h3⟩
    · rw [h1] at hm
      cases hm
    · rw [h1] at hm
      have := List.mem_singleton.1 hm
      omega
  refine ⟨?_, hlatest, ?_, ?_, ?_⟩
  · rcases hi with ⟨h1, _⟩ | ⟨h1, _, _⟩ <;> simp [h1]
  · intro seq outcome hne
    have hm : seq ∉ s.inflight := fun hm => hne (hlatest seq hm)
    simp only [PredictorSession.step, if_neg hm]
  · intro seq hm data
    rcases hi with ⟨h1, _⟩ | ⟨h1, _, _⟩
    · rw [h1] at hm
      cases hm
    · have hs : seq = s.page.requests.length - 1 := by
        rw [h1] at hm
        exact List.mem_singleton.1 hm
      simp [PredictorSession.step, hm, h1, hs, PredictorState.handleSubmit_fulfilled]
  · intro hne
    rcases hi with ⟨h1, _⟩ | ⟨_, h2, _⟩
    · exact absurd h1 hne
    · have e1 : PredictorState.submitForm s.page = s.page := by
        simp [PredictorState.submitForm, h2]
      simp only [PredictorSession.step, e1, if_true]

/-- C7 at the run in which A is edited and submitted, then B is edited and
submitted while the call of A is pending: the second submission has sent
nothing, the one call in flight is number 0, a response numbered 1 changes
nothing, a third submission changes nothing, and the response of call 0 is
applied with its payload 72. -/
theorem response_belongs_to_latest_submission_witness :
    (PredictorSession.run
      [FormEvent.edit ⟨28, 5, 2, 8, 1, 2⟩, FormEvent.submit,
       FormEvent.edit ⟨45, 20, 3, 12, 2, 4⟩, FormEvent.submit]
      (PredictorSession.initial : PredictorSession Nat)).page.requests
        = [⟨28, 5, 2, 8, 1, 2⟩] ∧
    (PredictorSession.run
      [FormEvent.edit ⟨28, 5, 2, 8, 1, 2⟩, FormEvent.submit,
       FormEvent.edit ⟨45, 20, 3, 12, 2, 4⟩, FormEvent.submit]
      (PredictorSession.initial : PredictorSession Nat)).inflight = [0] ∧
    PredictorSession.step (FormEvent.settle 1 (Except.ok (some 81)))
        (PredictorSession.run
          [FormEvent.edit ⟨28, 5, 2, 8, 1, 2⟩, FormEvent.submit,
           FormEvent.edit ⟨45, 20, 3, 12, 2, 4⟩, FormEvent.submit]
          (PredictorSession.initial : PredictorSession Nat))
      = PredictorSession.run
          [FormEvent.edit ⟨28, 5, 2, 8, 1, 2⟩, FormEvent.submit,
           FormEvent.edit ⟨45, 20, 3, 12, 2, 4⟩, FormEvent.submit]
          PredictorSession.initial ∧
    PredictorSession.step FormEvent.submit
        (PredictorSession.run
          [FormEvent.edit ⟨28, 5, 2, 8, 1, 2⟩, FormEvent.submit,
           FormEvent.edit ⟨45, 20, 3, 12, 2, 4⟩, FormEvent.submit]
          (PredictorSession.initial : PredictorSession Nat))
      = PredictorSession.run
          [FormEvent.edit ⟨28, 5, 2, 8, 1, 2⟩, FormEvent.submit,
           FormEvent.edit ⟨45, 20, 3, 12, 2, 4⟩, FormEvent.submit]
          PredictorSession.initial ∧
    (PredictorSession.step (FormEvent.settle 0 (Except.ok (some 72)))
        (PredictorSession.run
          [FormEvent.edit ⟨28, 5, 2, 8, 1, 2⟩, FormEvent.submit,
           FormEvent.edit ⟨45, 20, 3, 12, 2, 4⟩, FormEvent.submit]
          (PredictorSession.initial : PredictorSession Nat))).page.result = some 72 :=
  ⟨by decide, by decide,
   (response_belongs_to_latest_submission _).2.2.1 1 (Except.ok (some 81)) (by decide),
   (response_belongs_to_latest_submission _).2.2.2.2 (by decide),
   ((response_belongs_to_latest_submission _).2.2.2.1 0 (by decide) (some 72)).1⟩

/-- C8, as stated, fails: after a successful submission and then a failed
one, the status read off the state is error while the result still holds the
earlier payload; and during the second submission the status is pending with
the result non-null. Both submissions are ones the form lets through. -/
theorem failure_keeps_earlier_result :
    PredictorState.status (PredictorState.run
      [PredictorEvent.submit, PredictorEvent.fulfilled (some ⟨72, [], []⟩),
       PredictorEvent.submit, PredictorEvent.rejected ⟨none⟩]
      (PredictorState.initial : PredictorState PredictionResult)) = Status.error ∧
    (PredictorState.run
      [PredictorEvent.submit, PredictorEvent.fulfilled (some ⟨72, [], []⟩),
       PredictorEvent.submit, PredictorEvent.rejected ⟨none⟩]
      (PredictorState.initial : PredictorState PredictionResult)).result
        = some ⟨72, [], []⟩ ∧
    PredictorState.status (PredictorState.run
      [PredictorEvent.submit, PredictorEvent.fulfilled (some ⟨72, [], []⟩),
       PredictorEvent.submit]
      (PredictorState.initial : PredictorState PredictionResult)) = Status.pending ∧
    (PredictorState.run
      [PredictorEvent.submit, PredictorEvent.fulfilled (some ⟨72, [], []⟩),
       PredictorEvent.submit]
      (PredictorState.initial : PredictorState PredictionResult)).result
        = some ⟨72, [], []⟩ ∧
    PredictorState.submitForm (PredictorState.initial : PredictorState PredictionResult)
      = PredictorState.handleSubmit PredictorState.initial ∧
    PredictorState.submitForm (PredictorState.run
      [PredictorEvent.submit, PredictorEvent.fulfilled (some ⟨72, [], []⟩)]
      (PredictorState.initial : PredictorState PredictionResult))
      = PredictorState.handleSubmit (PredictorState.run
          [PredictorEvent.submit, PredictorEvent.fulfilled (some ⟨72, [], []⟩)]
          PredictorState.initial) := by
  decide

/-- C8, amended: the state holds a loading flag and a result, no status and
no error. At every point of every sequence of edits, submissions and
outcomes from the initial state, the result is the payload of the last
successful response so far, null when there is none; a new submission and a
failure leave it in place, and a failure only emits an error toast. -/
theorem result_is_last_payload {R : Type} (events : List (PredictorEvent R)) :
    (PredictorState.run events (PredictorState.initial : PredictorState R)).result
      = lastPayload none events ∧
    (∀ st : PredictorState R, (PredictorState.handleSubmit st).result = st.result) ∧
    (∀ (st : PredictorState R) (error : AxiosError),
      (PredictorState.handleSubmit_rejected error st).result = st.result ∧
      (PredictorState.handleSubmit_rejected error st).toasts
        = st.toasts ++ [Toast.error (orElse error.detail "Failed to generate prediction")] ∧
      (PredictorState.handleSubmit_rejected error st).loading = false) := by
  refine ⟨PredictorState.run_result events _, fun _ => rfl, fun _ _ => ⟨rfl, rfl, rfl⟩⟩

/-- C9: for every form data within bounds and every payload of a successful
response, after the submission and the response `loading` is false, the
result is exactly the payload, and the request carried the form data. -/
theorem prediction_success_stores_payload {R : Type} (st : PredictorState R) (f : FormData)
    (p : R) (_hf : withinBounds f = true) :
    (PredictorState.handleSubmit_fulfilled (some p)
      (PredictorState.handleSubmit (PredictorState.setFormData f st))).loading = false ∧
    (PredictorState.handleSubmit_fulfilled (some p)
      (PredictorState.handleSubmit (PredictorState.setFormData f st))).result = some p ∧
    PredictorState.status (PredictorState.handleSubmit_fulfilled (some p)
      (PredictorState.handleSubmit (PredictorState.setFormData f st))) = Status.success ∧
    (PredictorState.handleSubmit_fulfilled (some p)
      (PredictorState.handleSubmit (PredictorState.setFormData f st))).requests
        = st.requests ++ [f] := by
  refine ⟨rfl, rfl, ?_, rfl⟩
  simp [PredictorState.status, PredictorState.handleSubmit_fulfilled]

/-- C9, the example of the specification: input 28, 5, 2, 8, 1, 2 and the
payload 72 with factors experience_years, num_skills and one recommendation. -/
theorem prediction_success_stores_payload_witness :
    (PredictorState.handleSubmit_fulfilled
      (some ⟨72, ["experience_years", "num_skills"], ["Add a certification"]⟩)
      (PredictorState.handleSubmit (PredictorState.setFormData ⟨28, 5, 2, 8, 1, 2⟩
        (PredictorState.initial : PredictorState PredictionResult)))).loading = false ∧
    (PredictorState.handleSubmit_fulfilled
      (some ⟨72, ["experience_years", "num_skills"], ["Add a certification"]⟩)
      (PredictorState.handleSubmit (PredictorState.setFormData ⟨28, 5, 2, 8, 1, 2⟩
        (PredictorState.initial : PredictorState PredictionResult)))).result
      = some ⟨72, ["experience_years", "num_skills"], ["Add a certification"]⟩ :=
  ⟨(prediction_success_stores_payload PredictorState.initial ⟨28, 5, 2, 8, 1, 2⟩
      (PredictionResult.mk 72 ["experience_years", "num_skills"] ["Add a certification"])
      (by decide)).1,
   (prediction_success_stores_payload PredictorState.initial ⟨28, 5, 2, 8, 1, 2⟩
      (PredictionResult.mk 72 ["experience_years", "num_skills"] ["Add a certification"])
      (by decide)).2.1⟩

/-! ## Claims on the interceptors of App.js -/

/-- A key is absent from an association list exactly when no entry has it. -/
theorem lookup_eq_none_iff_forall (key : String) (items : List (String × String)) :
    items.lookup key = none ↔ ∀ e ∈ items, e.1 ≠ key := by
  induction items with
  | nil => simp
  | cons e rest ih =>
    rcases e with ⟨k, v⟩
    by_cases hk : key = k
    · subst hk
      simp [List.lookup]
    · have hb : (key == k) = false := by simpa using hk
      have hk2 : ¬ k = key := fun h => hk h.symm
      simp [List.lookup, hb, ih, hk2]

theorem Storage.getItem_removeItem_self (key : String) (s : Storage) :
    (s.removeItem key).getItem key = none := by
  simp only [Storage.getItem, Storage.removeItem]
  rw [lookup_eq_none_iff_forall]
  intro e he
  simpa using (List.mem_filter.1 he).2

theorem Storage.getItem_removeItem_of_none (key other : String) (s : Storage)
    (h : s.getItem key = none) : (s.removeItem other).getItem key = none := by
  simp only [Storage.getItem, Storage.removeItem] at *
  rw [lookup_eq_none_iff_forall] at *
  intro e he
  exact h e (List.mem_filter.1 he).1

theorem Storage.getItem_setItem_of_none (key other value : String) (s : Storage)
    (hne : other ≠ key) (h : s.getItem key = none) :
    (s.setItem other value).getItem key = none := by
  simp only [Storage.getItem, Storage.setItem] at *
  rw [lookup_eq_none_iff_forall] at *
  intro e he
  rcases List.mem_cons.1 he with he | he
  · rw [he]
    exact hne
  · exact h e (List.mem_filter.1 he).1

/-- Writes that store no token keep the token absent. -/
theorem token_stays_absent (ops : List StorageOp) (s : Storage)
    (hops : ∀ op ∈ ops, op.storesToken = false) (h : s.getItem "token" = none) :
    (ops.foldl (fun s op => op.apply s) s).getItem "token" = none := by
  induction ops generalizing s with
  | nil => exact h
  | cons op rest ih =>
    simp only [List.foldl_cons]
    apply ih
    · intro o ho
      exact hops o (List.mem_cons_of_mem _ ho)
    · have hop := hops op (List.mem_cons_self _ _)
      cases op with
      | setItem key value =>
        have hne : key ≠ "token" := by simpa [StorageOp.storesToken] using hop
        exact Storage.getItem_setItem_of_none "token" key value s hne h
      | removeItem key => exact Storage.getItem_removeItem_of_none "token" key s h

/-- With no token stored the request interceptor returns the config as it got it. -/
theorem requestInterceptor_of_no_token {β : Type} (s : Storage) (config : RequestConfig β)
    (h : s.getItem "token" = none) : requestInterceptor s config = config := by
  simp [requestInterceptor, h]

/-- C10: after the response-error handler has processed a response with
status 401, the stored token and the stored user are absent, and after any
further writes to the storage that store no token the request interceptor
returns every config unchanged: no Authorization header is added. -/
theorem unauthorized_clears_session (β ρ : Type) (b : Browser) (error : AxiosError)
    (r : ErrorResponse) (hr : error.response = some r) (h401 : r.status = 401) :
    (responseRejected ρ error b).1.localStorage.getItem "token" = none ∧
    (responseRejected ρ error b).1.localStorage.getItem "user" = none ∧
    ∀ ops : List StorageOp, (∀ op ∈ ops, op.storesToken = false) →
      ∀ config : RequestConfig β,
        requestInterceptor
          (ops.foldl (fun s op => op.apply s) (responseRejected ρ error b).1.localStorage)
          config = config := by
  have hb : (responseRejected ρ error b).1
      = { localStorage := (b.localStorage.removeItem "token").removeItem "user",
          href := "/login" } := by
    simp [responseRejected, hr, h401]
  have ht : (responseRejected ρ error b).1.localStorage.getItem "token" = none := by
    rw [hb]
    exact Storage.getItem_removeItem_of_none "token" "user" _
      (Storage.getItem_removeItem_self "token" _)
  refine ⟨ht, ?_, ?_⟩
  · rw [hb]
    exact Storage.getItem_removeItem_self "user" _
  · intro ops hops config
    exact requestInterceptor_of_no_token _ _ (token_stays_absent ops _ hops ht)

/-- C10 at a browser holding token "abc" and a user: a 401 from `/predict`
clears both, and a later request, after an unrelated write, gets no header. -/
theorem unauthorized_clears_session_witness :
    (responseRejected Unit ⟨some ⟨401, some "Invalid token"⟩⟩
      ⟨⟨[("token", "abc"), ("user", "u1")]⟩, "/career-predictor"⟩).1.localStorage.getItem "token"
        = none ∧
    requestInterceptor
      ([StorageOp.setItem "theme" "dark"].foldl (fun s op => op.apply s)
        (responseRejected Unit ⟨some ⟨401, some "Invalid token"⟩⟩
          ⟨⟨[("token", "abc"), ("user", "u1")]⟩, "/career-predictor"⟩).1.localStorage)
      (RequestConfig.mk "post" "/predict" () []) = RequestConfig.mk "post" "/predict" () [] :=
  ⟨(unauthorized_clears_session Unit Unit
      ⟨⟨[("token", "abc"), ("user", "u1")]⟩, "/career-predictor"⟩
      ⟨some ⟨401, some "Invalid token"⟩⟩ ⟨401, some "Invalid token"⟩ rfl rfl).1,
   (unauthorized_clears_session Unit Unit
      ⟨⟨[("token", "abc"), ("user", "u1")]⟩, "/career-predictor"⟩
      ⟨some ⟨401, some "Invalid token"⟩⟩ ⟨401, some "Invalid token"⟩ rfl rfl).2.2
      [StorageOp.setItem "theme" "dark"] (by decide) (RequestConfig.mk "post" "/predict" () [])⟩

/-! ## Claims on the request gateway and the route guard -/

/-- Filtering out the entries of another key does not change what is found under a key. -/
theorem lookup_filter_ne (key other : String) (items : List (String × String))
    (h : key ≠ other) :
    (items.filter (fun e => e.1 ≠ other)).lookup key = items.lookup key := by
  induction items with
  | nil => rfl
  | cons e rest ih =>
    rcases e with ⟨k, v⟩
    by_cases hk : k = other
    · subst hk
      have hb : (key == k) = false := by simpa using h
      simpa [List.filter, List.lookup, hb] using ih
    · by_cases hkey : key = k
      · subst hkey
        simp [List.filter, List.lookup, hk]
      · have hb : (key == k) = false := by simpa using hkey
        simpa [List.filter, List.lookup, hk, hb] using ih

theorem Storage.getItem_removeItem_ne (key other : String) (s : Storage) (h : key ≠ other) :
    (s.removeItem other).getItem key = s.getItem key := by
  simp only [Storage.getItem, Storage.removeItem]
  exact lookup_filter_ne key other s.items h

theorem Storage.removeItem_of_none (key : String) (s : Storage) (h : s.getItem key = none) :
    s.removeItem key = s := by
  rcases s with ⟨items⟩
  simp only [Storage.getItem] at h
  rw [lookup_eq_none_iff_forall] at h
  simp only [Storage.removeItem, Storage.mk.injEq]
  rw [List.filter_eq_self]
  intro e he
  simpa using h e he

/-- The browser the error handler leaves on a 401. -/
theorem responseRejected_unauthorized (ρ : Type) (error : AxiosError) (b : Browser)
    (r : ErrorResponse) (hr : error.response = some r) (h401 : r.status = 401) :
    responseRejected ρ error b
      = ({ localStorage := (b.localStorage.removeItem "token").removeItem "user",
           href := "/login" }, Except.error error) := by
  simp [responseRejected, hr, h401]

/-- The browser the error handler leaves on anything but a 401. -/
theorem responseRejected_other (ρ : Type) (error : AxiosError) (b : Browser)
    (h : ¬ ∃ r, error.response = some r ∧ r.status = 401) :
    responseRejected ρ error b = (b, Except.error error) := by
  unfold responseRejected
  rw [if_neg]
  intro h1
  apply h
  rcases hr : error.response with _ | r
  · rw [hr] at h1
    simp at h1
  · rw [hr] at h1
    exact ⟨r, rfl, by simpa using h1⟩

/-- C11, as stated, fails: with the empty string stored as token, a token is
stored, yet the request interceptor returns the config as it got it, without
the header "Bearer " followed by the token. -/
theorem requestInterceptor_empty_token :
    Storage.getItem "token" ⟨[("token", "")]⟩ = some "" ∧
    requestInterceptor ⟨[("token", "")]⟩ (RequestConfig.mk "post" "/predict" () [])
      = RequestConfig.mk "post" "/predict" () [] ∧
    (requestInterceptor ⟨[("token", "")]⟩
      (RequestConfig.mk "post" "/predict" () [])).headers.lookup "Authorization"
        ≠ some ("Bearer " ++ "") := by
  decide

/-- C11, amended: when a non-empty token is stored the request interceptor
sets the Authorization header to "Bearer " followed by the token; when no
token is stored, or the stored token is the empty string, it returns the
config unchanged; in every case method, url, body and all other headers are
as before. -/
theorem requestInterceptor_spec {β : Type} (s : Storage) (config : RequestConfig β) :
    (∀ token, s.getItem "token" = some token → token ≠ "" →
      (requestInterceptor s config).headers.lookup "Authorization"
        = some ("Bearer " ++ token)) ∧
    ((s.getItem "token" = none ∨ s.getItem "token" = some "") →
      requestInterceptor s config = config) ∧
    ((requestInterceptor s config).method = config.method ∧
      (requestInterceptor s config).url = config.url ∧
      (requestInterceptor s config).data = config.data ∧
      ∀ name, name ≠ "Authorization" →
        (requestInterceptor s config).headers.lookup name = config.headers.lookup name) := by
  refine ⟨?_, ?_, ?_⟩
  · intro token ht hne
    have htr : truthy token = true := (truthy_iff token).2 hne
    simp [requestInterceptor, ht, htr, setHeader, List.lookup]
  · intro h
    rcases h with h | h
    · simp [requestInterceptor, h]
    · simp [requestInterceptor, h, truthy]
  · unfold requestInterceptor
    split
    · split
      · refine ⟨rfl, rfl, rfl, ?_⟩
        intro name hname
        have hb : (name == "Authorization") = false := by simpa using hname
        simp only [setHeader, List.lookup, hb]
        exact lookup_filter_ne name "Authorization" config.headers hname
      · exact ⟨rfl, rfl, rfl, fun _ _ => rfl⟩
    · exact ⟨rfl, rfl, rfl, fun _ _ => rfl⟩

/-- C11, amended, at a storage with token "abc", at the empty storage, and
at a config that already carries a Content-Type header. -/
theorem requestInterceptor_spec_witness :
    (requestInterceptor ⟨[("token", "abc")]⟩
      (RequestConfig.mk "post" "/predict" () [])).headers.lookup "Authorization"
        = some ("Bearer " ++ "abc") ∧
    requestInterceptor ⟨[]⟩ (RequestConfig.mk "post" "/predict" () [])
      = RequestConfig.mk "post" "/predict" () [] ∧
    (requestInterceptor ⟨[("token", "abc")]⟩
      (RequestConfig.mk "post" "/analyze_resume" ()
        [("Content-Type", "multipart/form-data")])).headers.lookup "Content-Type"
        = some "multipart/form-data" :=
  ⟨(requestInterceptor_spec ⟨[("token", "abc")]⟩ (RequestConfig.mk "post" "/predict" () [])).1
      "abc" rfl (by decide),
   (requestInterceptor_spec ⟨[]⟩ (RequestConfig.mk "post" "/predict" () [])).2.1 (Or.inl rfl),
   ((requestInterceptor_spec ⟨[("token", "abc")]⟩
      (RequestConfig.mk "post" "/analyze_resume" ()
        [("Content-Type", "multipart/form-data")])).2.2.2.2.2 "Content-Type"
          (by decide)).trans (by decide)⟩

/-- C12: the error handler of the response interceptor always fails the call
with the original error. On a response with status 401 it leaves token and
user absent, every other key as it was and the location at the login page; on
any other status, and without a response, it leaves the browser unchanged.
The `catch` of the caller runs with the original error in the browser the
handler left, so with the storage already cleared on a 401, and the caller is
never handed a response. -/
theorem responseRejected_spec (ρ : Type) (error : AxiosError) (b : Browser) :
    (responseRejected ρ error b).2 = Except.error error ∧
    ((∃ r, error.response = some r ∧ r.status = 401) →
      (responseRejected ρ error b).1.localStorage.getItem "token" = none ∧
      (responseRejected ρ error b).1.localStorage.getItem "user" = none ∧
      (∀ key, key ≠ "token" → key ≠ "user" →
        (responseRejected ρ error b).1.localStorage.getItem key = b.localStorage.getItem key) ∧
      (responseRejected ρ error b).1.href = "/login") ∧
    ((¬ ∃ r, error.response = some r ∧ r.status = 401) →
      (responseRejected ρ error b).1 = b) ∧
    (∀ (α : Type) (onThen : ρ → Browser → α) (onCatch : AxiosError → Browser → α),
      failedCall error b onThen onCatch = onCatch error (responseRejected ρ error b).1) := by
  refine ⟨?_, ?_, ?_, ?_⟩
  · unfold responseRejected
    split <;> rfl
  · rintro ⟨r, hr, h401⟩
    rw [responseRejected_unauthorized ρ error b r hr h401]
    refine ⟨?_, ?_, ?_, rfl⟩
    · exact Storage.getItem_removeItem_of_none "token" "user" _
        (Storage.getItem_removeItem_self "token" _)
    · exact Storage.getItem_removeItem_self "user" _
    · intro key h1 h2
      show ((b.localStorage.removeItem "token").removeItem "user").getItem key = _
      rw [Storage.getItem_removeItem_ne key "user" _ h2,
        Storage.getItem_removeItem_ne key "token" _ h1]
  · intro h
    rw [responseRejected_other ρ error b h]
  · intro α onThen onCatch
    unfold failedCall
    by_cases h : ∃ r, error.response = some r ∧ r.status = 401
    · obtain ⟨r, hr, h401⟩ := h
      rw [responseRejected_unauthorized ρ error b r hr h401]
    · rw [responseRejected_other ρ error b h]

/-- C12 at a browser holding a token, a user and a theme: a 401 clears the
first two and keeps the theme; a 500 changes nothing. -/
theorem responseRejected_spec_witness :
    (responseRejected Unit ⟨some ⟨401, none⟩⟩
      ⟨⟨[("token", "abc"), ("user", "u1"), ("theme", "dark")]⟩, "/chatbot"⟩).1.localStorage.getItem
        "token" = none ∧
    (responseRejected Unit ⟨some ⟨401, none⟩⟩
      ⟨⟨[("token", "abc"), ("user", "u1"), ("theme", "dark")]⟩, "/chatbot"⟩).1.localStorage.getItem
        "theme" = some "dark" ∧
    (responseRejected Unit ⟨some ⟨500, none⟩⟩
      ⟨⟨[("token", "abc"), ("user", "u1"), ("theme", "dark")]⟩, "/chatbot"⟩).1
        = ⟨⟨[("token", "abc"), ("user", "u1"), ("theme", "dark")]⟩, "/chatbot"⟩ :=
  ⟨((responseRejected_spec Unit ⟨some ⟨401, none⟩⟩
      ⟨⟨[("token", "abc"), ("user", "u1"), ("theme", "dark")]⟩, "/chatbot"⟩).2.1
        ⟨⟨401, none⟩, rfl, rfl⟩).1,
   (((responseRejected_spec Unit ⟨some ⟨401, none⟩⟩
      ⟨⟨[("token", "abc"), ("user", "u1"), ("theme", "dark")]⟩, "/chatbot"⟩).2.1
        ⟨⟨401, none⟩, rfl, rfl⟩).2.2.1 "theme" (by decide) (by decide)).trans (by decide),
   (responseRejected_spec Unit ⟨some ⟨500, none⟩⟩
      ⟨⟨[("token", "abc"), ("user", "u1"), ("theme", "dark")]⟩, "/chatbot"⟩).2.2.1
        (by decide)⟩

/-- The value of `detail || fallback` by cases on the detail. -/
theorem orElse_cases (a : Option String) (fallback : String) :
    (∀ d, a = some d → d ≠ "" → orElse a fallback = d) ∧
    ((a = none ∨ a = some "") → orElse a fallback = fallback) := by
  refine ⟨?_, ?_⟩
  · intro d hd hne
    have ht : truthy d = true := (truthy_iff d).2 hne
    simp [orElse, hd, ht]
  · intro h
    rcases h with h | h
    · simp [orElse, h]
    · simp [orElse, h, truthy]

/-- C13, as stated, fails: the error response of a failed prediction supplies
the detail "", and the message surfaced is the fallback of the workflow, not
the detail. -/
theorem empty_detail_falls_back :
    AxiosError.detail ⟨some ⟨400, some ""⟩⟩ = some "" ∧
    (PredictorState.handleSubmit_rejected ⟨some ⟨400, some ""⟩⟩
      (PredictorState.handleSubmit (PredictorState.initial : PredictorState Nat))).toasts
        = [Toast.error "Failed to generate prediction"] ∧
    (PredictorState.handleSubmit_rejected ⟨some ⟨400, some ""⟩⟩
      (PredictorState.handleSubmit (PredictorState.initial : PredictorState Nat))).toasts
        ≠ [Toast.error ""] := by
  decide

/-- C13, amended: in the prediction, resume-analysis, job-recommendation and
learning-path workflows a failed call emits one error toast. Its message is
the detail of the error response, verbatim, when the response supplies a
non-empty one; it is the fixed fallback of the workflow when the detail is
missing or the empty string, and so when there is no response at all. -/
theorem error_message_surfaced {R R2 J L : Type} (error : AxiosError)
    (pst : PredictorState R) (rst : ResumeState R2) (jst : JobRecState J L) :
    (∀ d, error.detail = some d → d ≠ "" →
      (PredictorState.handleSubmit_rejected error pst).toasts = pst.toasts ++ [Toast.error d] ∧
      (ResumeState.handleAnalyze_rejected error rst).toasts = rst.toasts ++ [Toast.error d] ∧
      (JobRecState.handleGetJobs_rejected error jst).toasts = jst.toasts ++ [Toast.error d] ∧
      (JobRecState.handleGetLearningPath_rejected error jst).toasts
        = jst.toasts ++ [Toast.error d]) ∧
    ((error.detail = none ∨ error.detail = some "") →
      (PredictorState.handleSubmit_rejected error pst).toasts
        = pst.toasts ++ [Toast.error "Failed to generate prediction"] ∧
      (ResumeState.handleAnalyze_rejected error rst).toasts
        = rst.toasts ++ [Toast.error "Failed to analyze resume"] ∧
      (JobRecState.handleGetJobs_rejected error jst).toasts
        = jst.toasts ++ [Toast.error "Failed to load jobs"] ∧
      (JobRecState.handleGetLearningPath_rejected error jst).toasts
        = jst.toasts ++ [Toast.error "Failed to generate learning path"]) ∧
    (error.response = none → error.detail = none) := by
  refine ⟨?_, ?_, ?_⟩
  · intro d hd hne
    have h : ∀ fallback, orElse error.detail fallback = d :=
      fun fallback => (orElse_cases error.detail fallback).1 d hd hne
    simp [PredictorState.handleSubmit_rejected, ResumeState.handleAnalyze_rejected,
      JobRecState.handleGetJobs_rejected, JobRecState.handleGetLearningPath_rejected, h]
  · intro hd
    have h : ∀ fallback, orElse error.detail fallback = fallback :=
      fun fallback => (orElse_cases error.detail fallback).2 hd
    simp [PredictorState.handleSubmit_rejected, ResumeState.handleAnalyze_rejected,
      JobRecState.handleGetJobs_rejected, JobRecState.handleGetLearningPath_rejected, h]
  · intro h
    simp [AxiosError.detail, h]

/-- C13, amended, at a 422 with detail "Age out of range" in the learning-path
workflow, and at a transport failure in the job workflow. -/
theorem error_message_surfaced_witness :
    (JobRecState.handleGetLearningPath_rejected ⟨some ⟨422, some "Age out of range"⟩⟩
      (JobRecState.initial : JobRecState Unit Unit)).toasts
        = [] ++ [Toast.error "Age out of range"] ∧
    (JobRecState.handleGetJobs_rejected ⟨none⟩
      (JobRecState.initial : JobRecState Unit Unit)).toasts
        = [] ++ [Toast.error "Failed to load jobs"] :=
  ⟨((error_message_surfaced ⟨some ⟨422, some "Age out of range"⟩⟩
      (PredictorState.initial : PredictorState Unit)
      (ResumeState.mk false "" none "text" (none : Option Unit) [] [])
      (JobRecState.initial : JobRecState Unit Unit)).1
        "Age out of range" rfl (by decide)).2.2.2,
   ((error_message_surfaced ⟨none⟩
      (PredictorState.initial : PredictorState Unit)
      (ResumeState.mk false "" none "text" (none : Option Unit) [] [])
      (JobRecState.initial : JobRecState Unit Unit)).2.1 (Or.inl rfl)).2.2.1⟩

/-- C14, as stated, fails: with the empty string stored as token, a token is
stored, yet `ProtectedRoute` renders the redirect and not the wrapped view. -/
theorem protectedRoute_empty_token :
    Storage.getItem "token" ⟨[("token", ""), ("user", "u1")]⟩ = some "" ∧
    ProtectedRoute ⟨[("token", ""), ("user", "u1")]⟩ (Page.Dashboard : Page Unit)
      = Rendered.navigate "/login" true ∧
    ProtectedRoute ⟨[("token", ""), ("user", "u1")]⟩ (Page.Dashboard : Page Unit)
      ≠ Rendered.view Page.Dashboard := by
  decide

/-- C14, amended: `ProtectedRoute` renders exactly the wrapped view when a
non-empty token is stored; when no token is stored, or the stored token is the
empty string, it renders the redirect to the login view, replacing the
history entry, and not the wrapped view. Two storages with the same token
entry give the same output for the same wrapped view. -/
theorem protectedRoute_spec {V : Type} (s : Storage) (children : V) :
    (∀ token, s.getItem "token" = some token → token ≠ "" →
      ProtectedRoute s children = Rendered.view children) ∧
    ((s.getItem "token" = none ∨ s.getItem "token" = some "") →
      ProtectedRoute s children = Rendered.navigate "/login" true) ∧
    (∀ s2 : Storage, s2.getItem "token" = s.getItem "token" →
      ProtectedRoute s2 children = ProtectedRoute s children) := by
  refine ⟨?_, ?_, ?_⟩
  · intro token ht hne
    have htr : truthy token = true := (truthy_iff token).2 hne
    simp [ProtectedRoute, ht, htr]
  · intro h
    rcases h with h | h
    · simp [ProtectedRoute, h]
    · simp [ProtectedRoute, h, truthy]
  · intro s2 h
    simp [ProtectedRoute, h]

/-- C14, amended, at a storage with token "abc" and at the empty storage, for
the chat view; an unrelated entry does not change the output. -/
theorem protectedRoute_spec_witness :
    ProtectedRoute ⟨[("token", "abc")]⟩ (Page.Chatbot : Page Unit)
      = Rendered.view Page.Chatbot ∧
    ProtectedRoute ⟨[]⟩ (Page.Chatbot : Page Unit) = Rendered.navigate "/login" true ∧
    ProtectedRoute ⟨[("theme", "dark"), ("token", "abc")]⟩ (Page.Chatbot : Page Unit)
      = ProtectedRoute ⟨[("token", "abc")]⟩ (Page.Chatbot : Page Unit) :=
  ⟨(protectedRoute_spec ⟨[("token", "abc")]⟩ (Page.Chatbot : Page Unit)).1 "abc" rfl (by decide),
   (protectedRoute_spec ⟨[]⟩ (Page.Chatbot : Page Unit)).2.1 (Or.inl rfl),
   (protectedRoute_spec ⟨[("token", "abc")]⟩ (Page.Chatbot : Page Unit)).2.2
      ⟨[("theme", "dark"), ("token", "abc")]⟩ (by decide)⟩

/-! ## Claims on the session: restore, logout and the 401 handling -/

/-- What a successful mount returns. -/
theorem AppState.mount_ok {U : Type} (parse : String → Except String (Option U)) (b : Browser)
    (st : AppState U) (h : AppState.mount parse b = Except.ok st) :
    st.browser = b ∧ AppState.restore parse b.localStorage = Except.ok st.user := by
  unfold AppState.mount at h
  split at h
  · rename_i user hu
    injection h with h
    subst h
    exact ⟨rfl, hu⟩
  · cases h

/-- Both entries are absent once both keys are removed. -/
theorem Storage.cleared (s : Storage) :
    ((s.removeItem "token").removeItem "user").getItem "token" = none ∧
    ((s.removeItem "token").removeItem "user").getItem "user" = none :=
  ⟨Storage.getItem_removeItem_of_none "token" "user" _ (Storage.getItem_removeItem_self "token" _),
   Storage.getItem_removeItem_self "user" _⟩

/-- The result of the initialiser on a storage the application left. -/
theorem AppState.restore_of_sessionStored {U : Type}
    (parse : String → Except String (Option U)) (s : Storage) (h : SessionStored parse s) :
    ∃ user, AppState.restore parse s = Except.ok user ∧
      (user ≠ none ↔ s.getItem "token" ≠ none) := by
  rcases h with ⟨h1, h2⟩ | ⟨token, storedUser, record, h1, _, h3, h4, h5⟩
  · exact ⟨none, by simp [AppState.restore, h2], by simp [h1]⟩
  · refine ⟨some record, ?_, by simp [h1]⟩
    have ht : truthy storedUser = true := (truthy_iff storedUser).2 h4
    simp [AppState.restore, h3, ht, h5]

/-- The invariant of the reachable states of the application. -/
theorem AppReachable.invariant {U : Type} {parse : String → Except String (Option U)}
    {st : AppState U} (h : AppReachable parse st) :
    SessionStored parse st.browser.localStorage ∧
    (st.browser.localStorage.getItem "token" ≠ none → st.user ≠ none) := by
  induction h with
  | start b st hs hm =>
    obtain ⟨hb, hr⟩ := AppState.mount_ok parse b st hm
    obtain ⟨user, hu, hiff⟩ := AppState.restore_of_sessionStored parse b.localStorage hs
    rw [hu] at hr
    injection hr with hr
    subst hr
    rw [hb]
    exact ⟨hs, hiff.2⟩
  | @logout st _ _ =>
    have hc := Storage.cleared st.browser.localStorage
    refine ⟨Or.inl hc, ?_⟩
    intro ht
    exact absurd hc.1 ht
  | @responseError error st _ ih =>
    by_cases h401 : ∃ r, error.response = some r ∧ r.status = 401
    · obtain ⟨r, hr, h4⟩ := h401
      have hb : (AppState.responseError error st).browser
          = { localStorage := (st.browser.localStorage.removeItem "token").removeItem "user",
              href := "/login" } := by
        simp [AppState.responseError, responseRejected_unauthorized Unit error st.browser r hr h4]
      rw [hb]
      have hc := Storage.cleared st.browser.localStorage
      refine ⟨Or.inl hc, ?_⟩
      intro ht
      exact absurd hc.1 ht
    · have hb : AppState.responseError error st = st := by
        simp [AppState.responseError, responseRejected_other Unit error st.browser h401]
      rw [hb]
      exact ih
  | @reload st st2 _ hm ih =>
    obtain ⟨hb, hr⟩ := AppState.mount_ok parse st.browser st2 hm
    obtain ⟨user, hu, hiff⟩ := AppState.restore_of_sessionStored parse _ ih.1
    rw [hu] at hr
    injection hr with hr
    subst hr
    rw [hb]
    exact ⟨ih.1, hiff.2⟩

/-- C15, as stated, fails: the application is loaded on a storage with a token
and a user record and restores the user; a 401 is then handled; the token is
absent and the guard inactive, while the current user is still present. -/
theorem unauthorized_keeps_current_user :
    AppReachable parseExample
      (AppState.responseError ⟨some ⟨401, none⟩⟩
        ⟨⟨⟨[("token", "abc"), ("user", annJson)]⟩, "/dashboard"⟩, some ⟨"Ann"⟩, []⟩) ∧
    (AppState.responseError ⟨some ⟨401, none⟩⟩
      (⟨⟨⟨[("token", "abc"), ("user", annJson)]⟩, "/dashboard"⟩, some ⟨"Ann"⟩, []⟩ :
        AppState User)).browser.localStorage.getItem "token" = none ∧
    (AppState.responseError ⟨some ⟨401, none⟩⟩
      (⟨⟨⟨[("token", "abc"), ("user", annJson)]⟩, "/dashboard"⟩, some ⟨"Ann"⟩, []⟩ :
        AppState User)).user = some ⟨"Ann"⟩ := by
  refine ⟨?_, by decide, by decide⟩
  apply AppReachable.responseError
  apply AppReachable.start ⟨⟨[("token", "abc"), ("user", annJson)]⟩, "/dashboard"⟩
  · exact Or.inr ⟨"abc", annJson, ⟨"Ann"⟩, rfl, by decide, rfl, by decide, rfl⟩
  · rfl

/-- C15, amended: start from a page load on a storage that holds neither
entry or a non-empty token with a well-formed user record. In every state
reachable by logout, the 401 handling and page loads, the token is stored if
and only if the user is stored, if and only if the route guard is active, and
a stored token comes with a current user. After a page load (restore) and
after logout the current user is present exactly when the token is. The 401
handling removes the token but leaves the current user as it was: the current
user is dropped only by the page load that follows. -/
theorem session_invariant {U : Type} (parse : String → Except String (Option U))
    (st : AppState U) (h : AppReachable parse st) :
    (st.browser.localStorage.getItem "token" ≠ none
      ↔ st.browser.localStorage.getItem "user" ≠ none) ∧
    (st.browser.localStorage.getItem "token" ≠ none
      ↔ ProtectedRoute st.browser.localStorage () = Rendered.view ()) ∧
    (st.browser.localStorage.getItem "token" ≠ none → st.user ≠ none) ∧
    (∃ st2, AppState.mount parse st.browser = Except.ok st2 ∧
      (st2.user ≠ none ↔ st2.browser.localStorage.getItem "token" ≠ none)) ∧
    ((AppState.handleLogout st).user = none ∧
      (AppState.handleLogout st).browser.localStorage.getItem "token" = none) ∧
    (∀ error r, error.response = some r → r.status = 401 →
      (AppState.responseError error st).browser.localStorage.getItem "token" = none ∧
      (AppState.responseError error st).user = st.user) := by
  obtain ⟨hs, hu⟩ := AppReachable.invariant h
  refine ⟨?_, ?_, hu, ?_, ?_, ?_⟩
  · rcases hs with ⟨h1, h2⟩ | ⟨token, storedUser, record, h1, _, h3, _, _⟩
    · simp [h1, h2]
    · simp [h1, h3]
  · rcases hs with ⟨h1, _⟩ | ⟨token, storedUser, record, h1, h2, _, _, _⟩
    · simp [h1, ProtectedRoute]
    · have ht : truthy token = true := (truthy_iff token).2 h2
      simp [h1, ProtectedRoute, ht]
  · obtain ⟨user, hr, hiff⟩ := AppState.restore_of_sessionStored parse _ hs
    refine ⟨{ browser := st.browser, user := user, toasts := [] }, ?_, hiff⟩
    simp [AppState.mount, hr]
  · exact ⟨rfl, (Storage.cleared st.browser.localStorage).1⟩
  · intro error r hr h401
    refine ⟨?_, rfl⟩
    have hb : (AppState.responseError error st).browser
        = { localStorage := (st.browser.localStorage.removeItem "token").removeItem "user",
            href := "/login" } := by
      simp [AppState.responseError, responseRejected_unauthorized Unit error st.browser r hr h401]
    rw [hb]
    exact (Storage.cleared st.browser.localStorage).1

/-- C15, amended, at the application loaded on a storage with token "abc" and
the example user record: the guard is active and the current user present. -/
theorem session_invariant_witness :
    ((Storage.getItem "token" ⟨[("token", "abc"), ("user", annJson)]⟩ ≠ none
      ↔ ProtectedRoute ⟨[("token", "abc"), ("user", annJson)]⟩ () = Rendered.view ()) ∧
    (Storage.getItem "token" ⟨[("token", "abc"), ("user", annJson)]⟩ ≠ none →
      (some ⟨"Ann"⟩ : Option User) ≠ none)) :=
  ⟨(session_invariant parseExample
      ⟨⟨⟨[("token", "abc"), ("user", annJson)]⟩, "/dashboard"⟩, some ⟨"Ann"⟩, []⟩
      (AppReachable.start ⟨⟨[("token", "abc"), ("user", annJson)]⟩, "/dashboard"⟩ _
        (Or.inr ⟨"abc", annJson, ⟨"Ann"⟩, rfl, by decide, rfl, by decide, rfl⟩) rfl)).2.1,
   (session_invariant parseExample
      ⟨⟨⟨[("token", "abc"), ("user", annJson)]⟩, "/dashboard"⟩, some ⟨"Ann"⟩, []⟩
      (AppReachable.start ⟨⟨[("token", "abc"), ("user", annJson)]⟩, "/dashboard"⟩ _
        (Or.inr ⟨"abc", annJson, ⟨"Ann"⟩, rfl, by decide, rfl, by decide, rfl⟩) rfl)).2.2.1⟩

/-- C16: after `handleLogout`, from any state, the stored token and the stored
user are absent and the current user is null. Logout is idempotent on the
session: twice gives the browser and the current user of once, and on a
session that is already inactive it changes neither. -/
theorem handleLogout_idempotent {U : Type} (st : AppState U) :
    ((AppState.handleLogout st).browser.localStorage.getItem "token" = none ∧
      (AppState.handleLogout st).browser.localStorage.getItem "user" = none ∧
      (AppState.handleLogout st).user = none) ∧
    ((AppState.handleLogout (AppState.handleLogout st)).browser
        = (AppState.handleLogout st).browser ∧
      (AppState.handleLogout (AppState.handleLogout st)).user
        = (AppState.handleLogout st).user) ∧
    ((st.browser.localStorage.getItem "token" = none ∧
        st.browser.localStorage.getItem "user" = none ∧ st.user = none) →
      (AppState.handleLogout st).browser = st.browser ∧
      (AppState.handleLogout st).user = st.user) := by
  have hc := Storage.cleared st.browser.localStorage
  have hself : ∀ s : Storage, s.getItem "token" = none → s.getItem "user" = none →
      (s.removeItem "token").removeItem "user" = s := by
    intro s h1 h2
    rw [Storage.removeItem_of_none "token" s h1, Storage.removeItem_of_none "user" s h2]
  refine ⟨⟨hc.1, hc.2, rfl⟩, ⟨?_, rfl⟩, ?_⟩
  · simp only [AppState.handleLogout]
    rw [hself _ hc.1 hc.2]
  · rintro ⟨h1, h2, h3⟩
    refine ⟨?_, ?_⟩
    · show ({ st.browser with
          localStorage := (st.browser.localStorage.removeItem "token").removeItem "user" } :
          Browser) = st.browser
      rw [hself _ h1 h2]
    · show (none : Option U) = st.user
      rw [h3]

/-- C16 at a logged-in session and at the session that never logged in. -/
theorem handleLogout_idempotent_witness :
    (AppState.handleLogout
      (⟨⟨⟨[("token", "abc"), ("user", annJson)]⟩, "/dashboard"⟩, some ⟨"Ann"⟩, []⟩ :
        AppState User)).browser.localStorage.getItem "token" = none ∧
    (AppState.handleLogout (⟨⟨⟨[]⟩, "/login"⟩, none, []⟩ : AppState User)).browser
      = ⟨⟨[]⟩, "/login"⟩ :=
  ⟨(handleLogout_idempotent
      (⟨⟨⟨[("token", "abc"), ("user", annJson)]⟩, "/dashboard"⟩, some ⟨"Ann"⟩, []⟩ :
        AppState User)).1.1,
   ((handleLogout_idempotent (⟨⟨⟨[]⟩, "/login"⟩, none, []⟩ : AppState User)).2.2
      ⟨rfl, rfl, rfl⟩).1⟩

/-- C17: after `handleLogout`, from any state, every route wrapped in
`ProtectedRoute` renders the redirect to the login entry point, not its view;
and the login route renders the login view. -/
theorem logout_redirects_protected_routes {U : Type} (st : AppState U) (path : String)
    (hp : path ∈ protectedPaths) :
    AppState.route path (AppState.handleLogout st) = some (Rendered.navigate "/login" true) ∧
    AppState.route "/login" (AppState.handleLogout st) = some (Rendered.view Page.Login) := by
  have ht : (AppState.handleLogout st).browser.localStorage.getItem "token" = none :=
    (Storage.cleared st.browser.localStorage).1
  have hg : ∀ page : Page U,
      ProtectedRoute (AppState.handleLogout st).browser.localStorage page
        = Rendered.navigate "/login" true := by
    intro page
    simp [ProtectedRoute, ht]
  refine ⟨?_, rfl⟩
  simp only [protectedPaths, List.mem_cons, List.mem_singleton, List.not_mem_nil, or_false] at hp
  rcases hp with h | h | h | h | h | h <;> subst h <;> simp [AppState.route, hg]

/-- C17 at the dashboard of a logged-in session: before logout the route
renders the dashboard, after logout the redirect. -/
theorem logout_redirects_protected_routes_witness :
    AppState.route "/dashboard"
      (⟨⟨⟨[("token", "abc"), ("user", annJson)]⟩, "/dashboard"⟩, some ⟨"Ann"⟩, []⟩ :
        AppState User) = some (Rendered.view Page.Dashboard) ∧
    AppState.route "/dashboard" (AppState.handleLogout
      (⟨⟨⟨[("token", "abc"), ("user", annJson)]⟩, "/dashboard"⟩, some ⟨"Ann"⟩, []⟩ :
        AppState User)) = some (Rendered.navigate "/login" true) :=
  ⟨by decide,
   (logout_redirects_protected_routes
      (⟨⟨⟨[("token", "abc"), ("user", annJson)]⟩, "/dashboard"⟩, some ⟨"Ann"⟩, []⟩ :
        AppState User) "/dashboard" (by decide)).1⟩

/-- C18, the code at its cases: the initialiser of the `user` cell yields the
parsed record when the user entry is non-empty and parses; it yields null
when the entry is absent or the empty string; and when `JSON.parse` throws on
the entry, the initialiser throws the same error and the application does not
mount: this last case is where the code departs from the claim. -/
theorem restore_cases {U : Type} (parse : String → Except String (Option U)) (b : Browser) :
    (∀ storedUser record, b.localStorage.getItem "user" = some storedUser → storedUser ≠ "" →
      parse storedUser = Except.ok (some record) →
      AppState.mount parse b = Except.ok { browser := b, user := some record, toasts := [] }) ∧
    ((b.localStorage.getItem "user" = none ∨ b.localStorage.getItem "user" = some "") →
      AppState.mount parse b = Except.ok { browser := b, user := none, toasts := [] }) ∧
    (∀ storedUser message, b.localStorage.getItem "user" = some storedUser → storedUser ≠ "" →
      parse storedUser = Except.error message →
      AppState.restore parse b.localStorage = Except.error message ∧
      AppState.mount parse b = Except.error message) := by
  refine ⟨?_, ?_, ?_⟩
  · intro storedUser record h1 h2 h3
    have ht : truthy storedUser = true := (truthy_iff storedUser).2 h2
    simp [AppState.mount, AppState.restore, h1, ht, h3]
  · intro h
    rcases h with h | h
    · simp [AppState.mount, AppState.restore, h]
    · simp [AppState.mount, AppState.restore, h, truthy]
  · intro storedUser message h1 h2 h3
    have ht : truthy storedUser = true := (truthy_iff storedUser).2 h2
    simp [AppState.mount, AppState.restore, h1, ht, h3]

/-- C18 at a storage whose user entry is the text `undefined`, on which
`JSON.parse` throws, and at a storage with the example record. -/
theorem restore_cases_witness :
    AppState.mount parseExample ⟨⟨[("token", "abc"), ("user", "undefined")]⟩, "/"⟩
      = Except.error "SyntaxError" ∧
    AppState.mount parseExample ⟨⟨[("token", "abc"), ("user", annJson)]⟩, "/"⟩
      = Except.ok ⟨⟨⟨[("token", "abc"), ("user", annJson)]⟩, "/"⟩, some ⟨"Ann"⟩, []⟩ :=
  ⟨((restore_cases parseExample ⟨⟨[("token", "abc"), ("user", "undefined")]⟩, "/"⟩).2.2
      "undefined" "SyntaxError" rfl (by decide) rfl).2,
   (restore_cases parseExample ⟨⟨[("token", "abc"), ("user", annJson)]⟩, "/"⟩).1
      annJson ⟨"Ann"⟩ rfl (by decide) rfl⟩

/-! ## Claims on the chat composer -/

/-- C19: a send invoked while a prior send is pending is a no-op. While
`loading` is true the input and the send button are disabled: a click on the
send button and a key pressed in the input return the state they got, also
after text was typed, so the log, the pending flag and the requests are
unchanged; and when a quick prompt, which stays enabled, has put text into the
composer, the send button and Enter still append no turn, send no request and
leave the flag and the pending calls as they are. -/
theorem composer_disabled_while_pending (st : ChatState) (h : st.loading = true) :
    ChatState.clickSend st = st ∧
    (∀ key shiftKey, ChatState.keyPressInput key shiftKey st = st) ∧
    (∀ text, ChatState.clickSend (ChatState.typeInput text st) = st ∧
      ChatState.keyPressInput "Enter" false (ChatState.typeInput text st) = st) ∧
    (∀ prompt,
      ChatState.clickSend (ChatState.setInput prompt st) = ChatState.setInput prompt st ∧
      ChatState.keyPressInput "Enter" false (ChatState.setInput prompt st)
        = ChatState.setInput prompt st ∧
      (ChatState.clickSend (ChatState.setInput prompt st)).messages = st.messages ∧
      (ChatState.clickSend (ChatState.setInput prompt st)).loading = st.loading ∧
      (ChatState.clickSend (ChatState.setInput prompt st)).requests = st.requests ∧
      (ChatState.clickSend (ChatState.setInput prompt st)).pending = st.pending) := by
  refine ⟨?_, ?_, ?_, ?_⟩
  · simp [ChatState.clickSend, h]
  · intro key shiftKey
    simp [ChatState.keyPressInput, h]
  · intro text
    simp [ChatState.clickSend, ChatState.keyPressInput, ChatState.typeInput, h]
  · intro prompt
    have e1 : ChatState.clickSend (ChatState.setInput prompt st)
        = ChatState.setInput prompt st := by
      simp [ChatState.clickSend, ChatState.setInput, h]
    have e2 : ChatState.keyPressInput "Enter" false (ChatState.setInput prompt st)
        = ChatState.setInput prompt st := by
      simp [ChatState.keyPressInput, ChatState.setInput, h]
    rw [e1]
    exact ⟨rfl, e2, rfl, rfl, rfl, rfl⟩

/-- C19 at the state with "hello" pending, reached through the composer: the
send button does nothing; "hi" cannot be typed and sent; and with a quick
prompt in the composer the send button sends nothing, the requests being
"hello" alone. -/
theorem composer_disabled_while_pending_witness :
    (ChatState.clickSend (ChatState.typeInput "hello" ChatState.initial)).loading = true ∧
    ChatState.clickSend (ChatState.clickSend (ChatState.typeInput "hello" ChatState.initial))
      = ChatState.clickSend (ChatState.typeInput "hello" ChatState.initial) ∧
    ChatState.keyPressInput "Enter" false (ChatState.typeInput "hi"
        (ChatState.clickSend (ChatState.typeInput "hello" ChatState.initial)))
      = ChatState.clickSend (ChatState.typeInput "hello" ChatState.initial) ∧
    (ChatState.clickSend (ChatState.setInput "How do I improve my resume?"
        (ChatState.clickSend (ChatState.typeInput "hello" ChatState.initial)))).requests
      = ["hello"] :=
  ⟨by decide,
   (composer_disabled_while_pending _ (by decide)).1,
   ((composer_disabled_while_pending _ (by decide)).2.2.1 "hi").2,
   ((composer_disabled_while_pending _ (by decide)).2.2.2
      "How do I improve my resume?").2.2.2.2.1.trans (by decide)⟩

/-- C20: when the composer text is empty or only white space, `handleSend`
returns the state it got: the log, the composer text and the pending flag are
unchanged and no request is sent; the same holds for the send button and for
Enter in the input. -/
theorem blank_send_is_noop (st : ChatState) (h : trim st.input = "") :
    ChatState.handleSend st = st ∧
    ChatState.clickSend st = st ∧
    ChatState.keyPressInput "Enter" false st = st := by
  have ht : truthy (trim st.input) = false := by
    simp [truthy, h]
  have hs : ChatState.handleSend st = st := by
    simp [ChatState.handleSend, ht]
  refine ⟨hs, ?_, ?_⟩
  · simp [ChatState.clickSend, ht]
  · simp [ChatState.keyPressInput, ChatState.handleKeyPress, hs]

/-- C20 at the initial state with three spaces and a tab typed into the input. -/
theorem blank_send_is_noop_witness :
    ChatState.handleSend (ChatState.setInput "   \t" ChatState.initial)
      = ChatState.setInput "   \t" ChatState.initial :=
  (blank_send_is_noop (ChatState.setInput "   \t" ChatState.initial) (by decide)).1

/-! ## Claims on the chat log -/

/-- The state after an accepted `handleSend`. -/
theorem ChatState.handleSend_of_nonblank (st : ChatState) (h : trim st.input ≠ "") :
    ChatState.handleSend st =
      { st with
        input := "",
        messages := st.messages ++ [{ role := Role.user, content := trim st.input }],
        loading := true,
        requests := st.requests ++ [trim st.input],
        pending := st.pending ++
          [st.messages ++ [{ role := Role.user, content := trim st.input }]] } := by
  have ht : truthy (trim st.input) = true := (truthy_iff _).2 h
  simp [ChatState.handleSend, ht]

/-- The state after a blank `handleSend`. -/
theorem ChatState.handleSend_of_blank (st : ChatState) (h : trim st.input = "") :
    ChatState.handleSend st = st := by
  have ht : truthy (trim st.input) = false := by simp [truthy, h]
  simp [ChatState.handleSend, ht]

/-- The log after a call settles is the list the call captured and one
assistant turn. -/
theorem ChatState.settle_messages (i : Nat) (outcome : Except AxiosError String)
    (st : ChatState) (newMessages : List ChatTurn) (h : st.pending.get? i = some newMessages) :
    (ChatState.settle i outcome st).messages =
        newMessages ++ [ChatState.assistantTurn outcome] ∧
    (ChatState.settle i outcome st).loading = false ∧
    (ChatState.settle i outcome st).pending = st.pending.eraseIdx i := by
  unfold ChatState.settle
  rw [h]
  cases outcome <;> exact ⟨rfl, rfl, rfl⟩

/-- C21: for every accepted send, from a log L with non-blank composer text,
the log after the completion of its call is L followed by the user turn with
the trimmed text and exactly one assistant turn: the reply on success, the
fixed apology on failure; and `loading` is false afterwards. This holds when
the call settles at once and, since the continuation uses the list it
captured, in whatever state it settles later. -/
theorem accepted_send_completes (st : ChatState) (h : trim st.input ≠ "") :
    (∀ reply,
      (ChatState.settle st.pending.length (Except.ok reply) (ChatState.handleSend st)).messages
        = st.messages ++ [{ role := Role.user, content := trim st.input },
            { role := Role.assistant, content := reply }] ∧
      (ChatState.settle st.pending.length (Except.ok reply) (ChatState.handleSend st)).loading
        = false) ∧
    (∀ error,
      (ChatState.settle st.pending.length (Except.error error)
        (ChatState.handleSend st)).messages
        = st.messages ++ [{ role := Role.user, content := trim st.input }, ChatState.apology] ∧
      (ChatState.settle st.pending.length (Except.error error)
        (ChatState.handleSend st)).loading = false) ∧
    (∀ (later : ChatState) (i : Nat) (outcome : Except AxiosError String),
      later.pending.get? i = (ChatState.handleSend st).pending.get? st.pending.length →
      (ChatState.settle i outcome later).messages
        = st.messages ++ [{ role := Role.user, content := trim st.input },
            ChatState.assistantTurn outcome] ∧
      (ChatState.settle i outcome later).loading = false) := by
  have hp : (ChatState.handleSend st).pending.get? st.pending.length
      = some (st.messages ++ [{ role := Role.user, content := trim st.input }]) := by
    rw [ChatState.handleSend_of_nonblank st h]
    simp
  have key : ∀ (later : ChatState) (i : Nat) (outcome : Except AxiosError String),
      later.pending.get? i = (ChatState.handleSend st).pending.get? st.pending.length →
      (ChatState.settle i outcome later).messages
        = st.messages ++ [{ role := Role.user, content := trim st.input },
            ChatState.assistantTurn outcome] ∧
      (ChatState.settle i outcome later).loading = false := by
    intro later i outcome hl
    rw [hp] at hl
    obtain ⟨h1, h2, _⟩ := ChatState.settle_messages i outcome later _ hl
    refine ⟨?_, h2⟩
    rw [h1]
    simp
  refine ⟨?_, ?_, key⟩
  · intro reply
    exact key (ChatState.handleSend st) st.pending.length (Except.ok reply) rfl
  · intro error
    exact key (ChatState.handleSend st) st.pending.length (Except.error error) rfl

/-- C21 at the initial log with " hi " typed: after the reply "hello" the log
is the greeting, the user turn "hi" and the assistant turn "hello". -/
theorem accepted_send_completes_witness :
    (ChatState.settle 0 (Except.ok "hello")
      (ChatState.handleSend (ChatState.setInput " hi " ChatState.initial))).messages
      = [ChatState.greeting] ++ [{ role := Role.user, content := trim " hi " },
          { role := Role.assistant, content := "hello" }] ∧
    (ChatState.settle 0 (Except.error ⟨none⟩)
      (ChatState.handleSend (ChatState.setInput " hi " ChatState.initial))).messages
      = [ChatState.greeting] ++ [{ role := Role.user, content := trim " hi " },
          ChatState.apology] :=
  ⟨((accepted_send_completes (ChatState.setInput " hi " ChatState.initial)
      (by decide)).1 "hello").1,
   ((accepted_send_completes (ChatState.setInput " hi " ChatState.initial)
      (by decide)).2.1 ⟨none⟩).1⟩

/-- An assistant turn may follow any alternating log. -/
theorem NoTwoUserTurns.append_assistant {log : List ChatTurn} (h : NoTwoUserTurns log)
    (t : ChatTurn) (ht : t.role = Role.assistant) : NoTwoUserTurns (log ++ [t]) := by
  unfold NoTwoUserTurns at *
  rw [List.chain'_append]
  refine ⟨h, List.chain'_singleton t, ?_⟩
  intro x _ y hy
  simp only [List.head?_cons, Option.mem_def, Option.some.injEq] at hy
  subst hy
  rintro ⟨_, h2⟩
  rw [ht] at h2
  cases h2

/-- A user turn may follow an alternating log that ends with an assistant turn. -/
theorem NoTwoUserTurns.append_user {log : List ChatTurn} (h : NoTwoUserTurns log)
    (hl : ∀ t ∈ log.getLast?, t.role = Role.assistant) (t : ChatTurn) :
    NoTwoUserTurns (log ++ [t]) := by
  unfold NoTwoUserTurns at *
  rw [List.chain'_append]
  refine ⟨h, List.chain'_singleton t, ?_⟩
  intro x hx y _
  rintro ⟨h1, _⟩
  rw [hl x hx] at h1
  cases h1

/-- An accepted send from an idle state of the composer keeps the invariant and
extends the log. -/
theorem ComposerInv.handleSend {st : ChatState} (hi : ComposerInv st)
    (hl : st.loading = false) :
    ComposerInv (ChatState.handleSend st) ∧
    st.messages <+: (ChatState.handleSend st).messages := by
  by_cases hb : trim st.input = ""
  · rw [ChatState.handleSend_of_blank st hb]
    exact ⟨hi, List.prefix_refl _⟩
  · rw [ChatState.handleSend_of_nonblank st hb]
    obtain ⟨hc, hcase⟩ := hi
    rcases hcase with ⟨hp, _, hlast⟩ | ⟨_, hload⟩
    · refine ⟨⟨NoTwoUserTurns.append_user hc hlast _, Or.inr ⟨?_, rfl⟩⟩,
        List.prefix_append _ _⟩
      simp [hp]
    · rw [hl] at hload
      cases hload

/-- A settling call keeps the invariant of the composer and extends the log. -/
theorem ComposerInv.settle {st : ChatState} (hi : ComposerInv st) (i : Nat)
    (outcome : Except AxiosError String) :
    ComposerInv (ChatState.settle i outcome st) ∧
    st.messages <+: (ChatState.settle i outcome st).messages := by
  obtain ⟨hc, hcase⟩ := hi
  rcases hcase with ⟨hp, hload, hlast⟩ | ⟨hp, hload⟩
  · have hs : ChatState.settle i outcome st = st := by
      simp [ChatState.settle, hp]
    rw [hs]
    exact ⟨⟨hc, Or.inl ⟨hp, hload, hlast⟩⟩, List.prefix_refl _⟩
  · cases i with
    | zero =>
      have hg : st.pending.get? 0 = some st.messages := by simp [hp]
      obtain ⟨h1, h2, h3⟩ := ChatState.settle_messages 0 outcome st st.messages hg
      have hrole : (ChatState.assistantTurn outcome).role = Role.assistant := by
        cases outcome <;> rfl
      refine ⟨⟨?_, Or.inl ⟨?_, h2, ?_⟩⟩, ?_⟩
      · rw [h1]
        exact NoTwoUserTurns.append_assistant hc _ hrole
      · rw [h3, hp]
        rfl
      · rw [h1]
        intro t ht
        simp only [List.getLast?_append, List.getLast?_singleton, Option.mem_def] at ht
        have ht2 : some (ChatState.assistantTurn outcome) = some t := ht
        injection ht2 with ht2
        rw [← ht2]
        exact hrole
      · rw [h1]
        exact List.prefix_append _ _
    | succ n =>
      have hs : ChatState.settle (n + 1) outcome st = st := by
        simp [ChatState.settle, hp]
      rw [hs]
      exact ⟨⟨hc, Or.inr ⟨hp, hload⟩⟩, List.prefix_refl _⟩

/-- Every event of the composer keeps the invariant and extends the log. -/
theorem ComposerInv.step {st : ChatState} (hi : ComposerInv st) (e : ComposerEvent) :
    ComposerInv (composerStep e st) ∧ st.messages <+: (composerStep e st).messages := by
  cases e with
  | typeInput value =>
    show ComposerInv (ChatState.typeInput value st) ∧ _ <+: (ChatState.typeInput value st).messages
    unfold ChatState.typeInput
    split
    · exact ⟨hi, List.prefix_refl _⟩
    · exact ⟨hi, List.prefix_refl _⟩
  | quickPrompt value => exact ⟨hi, List.prefix_refl _⟩
  | clickSend =>
    show ComposerInv (ChatState.clickSend st) ∧ _ <+: (ChatState.clickSend st).messages
    unfold ChatState.clickSend
    split
    · exact ⟨hi, List.prefix_refl _⟩
    · rename_i hc
      have hl : st.loading = false := by
        cases hx : st.loading
        · rfl
        · exact absurd (Or.inl hx) hc
      exact ComposerInv.handleSend hi hl
  | keyPress key shiftKey =>
    show ComposerInv (ChatState.keyPressInput key shiftKey st) ∧
      _ <+: (ChatState.keyPressInput key shiftKey st).messages
    unfold ChatState.keyPressInput
    split
    · exact ⟨hi, List.prefix_refl _⟩
    · rename_i hc
      have hl : st.loading = false := by
        cases hx : st.loading
        · rfl
        · exact absurd hx hc
      unfold ChatState.handleKeyPress
      split
      · exact ComposerInv.handleSend hi hl
      · exact ⟨hi, List.prefix_refl _⟩
  | settle i outcome => exact ComposerInv.settle hi i outcome

/-- The initial state of the chat page satisfies the invariant of the composer. -/
theorem ComposerInv.initial : ComposerInv ChatState.initial := by
  refine ⟨?_, Or.inl ⟨rfl, rfl, ?_⟩⟩
  · exact List.chain'_singleton _
  · intro t ht
    simp only [ChatState.initial, List.getLast?_singleton, Option.mem_def,
      Option.some.injEq] at ht
    rw [← ht]
    rfl

/-- Every run of the composer keeps the invariant and extends the log. -/
theorem ComposerInv.run {st : ChatState} (hi : ComposerInv st) (events : List ComposerEvent) :
    ComposerInv (composerRun events st) ∧ st.messages <+: (composerRun events st).messages := by
  induction events generalizing st with
  | nil => exact ⟨hi, List.prefix_refl _⟩
  | cons e rest ih =>
    obtain ⟨h1, h2⟩ := ComposerInv.step hi e
    obtain ⟨h3, h4⟩ := ih h1
    exact ⟨h3, h2.trans h4⟩

/-- A run of two parts is the run of the second part after the first. -/
theorem composerRun_append (xs ys : List ComposerEvent) (st : ChatState) :
    composerRun (xs ++ ys) st = composerRun ys (composerRun xs st) := by
  simp [composerRun, List.foldl_append]

/-- At most one call of the chat page is pending when the invariant of the
composer holds. -/
theorem ComposerInv.pending_length {st : ChatState} (hi : ComposerInv st) :
    st.pending.length ≤ 1 := by
  rcases hi.2 with ⟨hp, _, _⟩ | ⟨hp, _⟩ <;> simp [hp]

/-- C22: the chat log is append-only. For every sequence of events of the
composer (typing, quick prompts, the send button, keys in the input) and of
settling calls, from the page as mounted, the log at an earlier point is an
initial part of the log at every later point, so no turn is edited, removed or
overwritten. At most one call is pending at any point, so that the calls
settle in the order in which they were sent; the continuation of a call sets
the log to the list it captured at send time followed by the assistant turn,
and that list is the log of the moment at which the call settles. -/
theorem composer_log_append_only (xs ys : List ComposerEvent) :
    (composerRun xs ChatState.initial).messages
      <+: (composerRun (xs ++ ys) ChatState.initial).messages ∧
    (composerRun xs ChatState.initial).pending.length ≤ 1 ∧
    (∀ newMessages ∈ (composerRun xs ChatState.initial).pending,
      newMessages = (composerRun xs ChatState.initial).messages) ∧
    (∀ (newMessages : List ChatTurn) (reply : String) (st : ChatState),
      (ChatState.handleSend_fulfilled newMessages reply st).messages
        = newMessages ++ [{ role := Role.assistant, content := reply }]) ∧
    (∀ (newMessages : List ChatTurn) (error : AxiosError) (st : ChatState),
      (ChatState.handleSend_rejected newMessages error st).messages
        = newMessages ++ [ChatState.apology]) := by
  have hi := (ComposerInv.run ComposerInv.initial xs).1
  refine ⟨?_, hi.pending_length, ?_, fun _ _ _ => rfl, fun _ _ _ => rfl⟩
  · rw [composerRun_append]
    exact (hi.run ys).2
  · intro newMessages hm
    rcases hi.2 with ⟨hp, _, _⟩ | ⟨hp, _⟩
    · rw [hp] at hm
      cases hm
    · rw [hp] at hm
      exact List.mem_singleton.1 hm

/-- C22 at the run in which "a" is sent, a quick prompt is clicked and the
send button is clicked while the call is pending, the call settles with a
reply, and "b" is sent and its call fails: the log after the first three
events is an initial part of the final log, which is the greeting, "a", its
reply, "b" and the apology. -/
theorem composer_log_append_only_witness :
    (composerRun
      [ComposerEvent.typeInput "a", ComposerEvent.clickSend,
       ComposerEvent.quickPrompt "b"]
      ChatState.initial).messages
      <+: (composerRun
        ([ComposerEvent.typeInput "a", ComposerEvent.clickSend,
          ComposerEvent.quickPrompt "b"] ++
         [ComposerEvent.clickSend, ComposerEvent.settle 0 (Except.ok "reply a"),
          ComposerEvent.keyPress "Enter" false, ComposerEvent.settle 0 (Except.error ⟨none⟩)])
        ChatState.initial).messages ∧
    (composerRun
      [ComposerEvent.typeInput "a", ComposerEvent.clickSend,
       ComposerEvent.quickPrompt "b", ComposerEvent.clickSend,
       ComposerEvent.settle 0 (Except.ok "reply a"),
       ComposerEvent.keyPress "Enter" false, ComposerEvent.settle 0 (Except.error ⟨none⟩)]
      ChatState.initial).messages
      = [ChatState.greeting, ⟨Role.user, "a"⟩, ⟨Role.assistant, "reply a"⟩,
         ⟨Role.user, "b"⟩, ChatState.apology] :=
  ⟨(composer_log_append_only _ _).1, rfl⟩

/-- C23: the log starts as exactly one turn, the greeting of the assistant,
and in every log reachable from it by sends through the composer (typing,
quick prompts, the send button, keys in the input) and the completions of
their calls, no two consecutive turns both have the role user. -/
theorem composer_log_alternates (events : List ComposerEvent) :
    ChatState.initial.messages = [ChatState.greeting] ∧
    ChatState.greeting.role = Role.assistant ∧
    NoTwoUserTurns (composerRun events ChatState.initial).messages := by
  exact ⟨rfl, rfl, (ComposerInv.run ComposerInv.initial events).1.1⟩

/-- C24, as stated, fails: when the call of "hi" fails without a response, an
error toast is emitted in addition to the apology appended to the log. -/
theorem failed_chat_call_emits_toast :
    (ChatState.settle 0 (Except.error ⟨none⟩)
      (ChatState.handleSend (ChatState.setInput "hi" ChatState.initial))).toasts
      = [Toast.error "Failed to get response"] ∧
    (ChatState.settle 0 (Except.error ⟨none⟩)
      (ChatState.handleSend (ChatState.setInput "hi" ChatState.initial))).messages
      = [ChatState.greeting, ⟨Role.user, "hi"⟩, ChatState.apology] := by
  exact ⟨rfl, rfl⟩

/-- C24, amended: a failed chat call surfaces twice: as one error toast, with
the detail of the response when it is non-empty and "Failed to get response"
otherwise, and as the apology of the assistant appended to the captured log;
`loading` is reset. -/
theorem failed_chat_call_surfaces_twice (newMessages : List ChatTurn) (error : AxiosError)
    (st : ChatState) :
    (ChatState.handleSend_rejected newMessages error st).toasts
      = st.toasts ++ [Toast.error (orElse error.detail "Failed to get response")] ∧
    (ChatState.handleSend_rejected newMessages error st).messages
      = newMessages ++ [ChatState.apology] ∧
    (ChatState.handleSend_rejected newMessages error st).loading = false ∧
    ((error.detail = none ∨ error.detail = some "") →
      orElse error.detail "Failed to get response" = "Failed to get response") ∧
    (∀ d, error.detail = some d → d ≠ "" →
      orElse error.detail "Failed to get response" = d) := by
  exact ⟨rfl, rfl, rfl, (orElse_cases _ _).2, (orElse_cases _ _).1⟩

/-- C24, amended, at a failure with the detail "Rate limited" and at a failure
without a response. -/
theorem failed_chat_call_surfaces_twice_witness :
    orElse (AxiosError.detail ⟨some ⟨429, some "Rate limited"⟩⟩) "Failed to get response"
      = "Rate limited" ∧
    orElse (AxiosError.detail ⟨none⟩) "Failed to get response" = "Failed to get response" :=
  ⟨(failed_chat_call_surfaces_twice [] ⟨some ⟨429, some "Rate limited"⟩⟩
      ChatState.initial).2.2.2.2 "Rate limited" rfl (by decide),
   (failed_chat_call_surfaces_twice [] ⟨none⟩ ChatState.initial).2.2.2.1 (Or.inl rfl)⟩

/-! ## Claims on the resume page -/

/-- The selected file after `handleFileSelect`, by cases on the constraints. -/
theorem ResumeState.handleFileSelect_cases {R : Type} (st : ResumeState R) (file : File) :
    (AcceptableFile file →
      ResumeState.handleFileSelect (some file) st =
        { st with
          selectedFile := some file,
          toasts := st.toasts ++ [Toast.success ("Selected: " ++ file.name)] }) ∧
    (¬ AcceptableFile file →
      ∃ message, ResumeState.handleFileSelect (some file) st =
        { st with toasts := st.toasts ++ [Toast.error message] }) := by
  unfold AcceptableFile
  refine ⟨?_, ?_⟩
  · rintro ⟨h1, h2⟩
    have h3 : ¬ file.size > 5 * 1024 * 1024 := by omega
    simp [ResumeState.handleFileSelect, h1, h3]
  · intro h
    by_cases h1 : endsWith file.name ".pdf" = true
    · have h2 : file.size > 5 * 1024 * 1024 := by
        by_contra hc
        exact h ⟨h1, by omega⟩
      exact ⟨"File size must be less than 5MB", by simp [ResumeState.handleFileSelect, h1, h2]⟩
    · have h1f : endsWith file.name ".pdf" = false := by simpa using h1
      exact ⟨"Please select a PDF file", by simp [ResumeState.handleFileSelect, h1f]⟩

/-- The invariant of the resume page: the selected file and every file sent
are within the constraints. -/
theorem ResumeReachable.files_acceptable {R : Type} {st : ResumeState R} (h : ResumeReachable st) :
    (∀ file, st.selectedFile = some file → AcceptableFile file) ∧
    (∀ form ∈ st.requests, ∀ name file, (name, FormValue.file file) ∈ form →
      AcceptableFile file) := by
  induction h with
  | init => exact ⟨by simp [ResumeState.initial], by simp [ResumeState.initial]⟩
  | setResumeText value _ ih => exact ih
  | setInputMode value _ ih => exact ih
  | @handleFileSelect file st _ ih =>
    cases file with
    | none => exact ih
    | some file =>
      by_cases ha : AcceptableFile file
      · rw [(ResumeState.handleFileSelect_cases st file).1 ha]
        refine ⟨?_, ih.2⟩
        intro f hf
        have hfe : file = f := by simpa using hf
        rw [← hfe]
        exact ha
      · obtain ⟨message, hm⟩ := (ResumeState.handleFileSelect_cases st file).2 ha
        rw [hm]
        exact ih
  | @handleAnalyze st _ ih =>
    unfold ResumeState.handleAnalyze
    split
    · exact ih
    · split
      · exact ih
      · refine ⟨ih.1, ?_⟩
        intro form hform name file hmem
        rcases List.mem_append.1 hform with hform | hform
        · exact ih.2 form hform name file hmem
        · rw [List.mem_singleton] at hform
          rw [hform] at hmem
          split at hmem
          · simp at hmem
          · rcases hs : st.selectedFile with _ | f
            · rw [hs] at hmem
              simp [fileValue] at hmem
            · rw [hs] at hmem
              have hfe : file = f := by
                have h2 : name = "file" ∧ file = f := by simpa [fileValue] using hmem
                exact h2.2
              rw [hfe]
              exact ih.1 f hs
  | fulfilled data _ ih => exact ih
  | rejected error _ ih => exact ih

/-- C25: `handleFileSelect` makes a file the selected one when its name ends
in ".pdf" and its size is at most 5·1024·1024 bytes, and otherwise leaves the
selected file as it was; in both cases it sends nothing. In every reachable
state of the page, every file in a form sent to the resume-analysis endpoint
has a name ending in ".pdf" and a size of at most 5·1024·1024 bytes. -/
theorem only_acceptable_files_dispatched {R : Type} (st : ResumeState R) (file : File) :
    ((endsWith file.name ".pdf" = true ∧ file.size ≤ 5 * 1024 * 1024) →
      (ResumeState.handleFileSelect (some file) st).selectedFile = some file) ∧
    (¬ (endsWith file.name ".pdf" = true ∧ file.size ≤ 5 * 1024 * 1024) →
      (ResumeState.handleFileSelect (some file) st).selectedFile = st.selectedFile) ∧
    ((ResumeState.handleFileSelect (some file) st).requests = st.requests ∧
      (ResumeState.handleFileSelect (some file) st).loading = st.loading) ∧
    (ResumeReachable st →
      ∀ form ∈ st.requests, ∀ name sent, (name, FormValue.file sent) ∈ form →
        endsWith sent.name ".pdf" = true ∧ sent.size ≤ 5 * 1024 * 1024) := by
  have hc := ResumeState.handleFileSelect_cases st file
  refine ⟨?_, ?_, ?_, ?_⟩
  · intro h
    rw [hc.1 h]
  · intro h
    obtain ⟨message, hm⟩ := hc.2 h
    rw [hm]
  · by_cases ha : AcceptableFile file
    · rw [hc.1 ha]
      exact ⟨rfl, rfl⟩
    · obtain ⟨message, hm⟩ := hc.2 ha
      rw [hm]
      exact ⟨rfl, rfl⟩
  · intro hr
    exact (ResumeReachable.files_acceptable hr).2

/-- C25, the examples of the specification: a ".pdf" of exactly 5·1024·1024
bytes is accepted; a file of 6·1024·1024 bytes and a ".docx" are not; and the
one form sent after selecting "cv.pdf" in file mode carries an acceptable
file. -/
theorem only_acceptable_files_dispatched_witness :
    (ResumeState.handleFileSelect (some ⟨"cv.pdf", 5 * 1024 * 1024⟩)
      (ResumeState.initial : ResumeState Unit)).selectedFile
        = some ⟨"cv.pdf", 5 * 1024 * 1024⟩ ∧
    (ResumeState.handleFileSelect (some ⟨"cv.pdf", 6 * 1024 * 1024⟩)
      (ResumeState.initial : ResumeState Unit)).selectedFile = none ∧
    (ResumeState.handleFileSelect (some ⟨"cv.docx", 1024⟩)
      (ResumeState.initial : ResumeState Unit)).selectedFile = none ∧
    (∀ form ∈ [[("file", FormValue.file ⟨"cv.pdf", 2048⟩)]],
      ∀ name sent, (name, FormValue.file sent) ∈ form →
        endsWith sent.name ".pdf" = true ∧ sent.size ≤ 5 * 1024 * 1024) :=
  ⟨(only_acceptable_files_dispatched ResumeState.initial ⟨"cv.pdf", 5 * 1024 * 1024⟩).1
      ⟨by decide, by decide⟩,
   (only_acceptable_files_dispatched ResumeState.initial ⟨"cv.pdf", 6 * 1024 * 1024⟩).2.1
      (by decide),
   (only_acceptable_files_dispatched ResumeState.initial ⟨"cv.docx", 1024⟩).2.1 (by decide),
   (only_acceptable_files_dispatched
      (ResumeState.handleAnalyze (ResumeState.handleFileSelect (some ⟨"cv.pdf", 2048⟩)
        (ResumeState.setInputMode "file" (ResumeState.initial : ResumeState Unit))))
      ⟨"cv.pdf", 2048⟩).2.2.2
      (ResumeReachable.handleAnalyze (ResumeReachable.handleFileSelect _
        (ResumeReachable.setInputMode "file" ResumeReachable.init)))⟩

/-- C26: in text mode `handleAnalyze` sends a request exactly when the resume
text is non-empty after trimming, and in file mode exactly when a file is
selected; when the condition of the mode is violated nothing is sent and
`loading` and `result` are as they were. -/
theorem handleAnalyze_guards {R : Type} (st : ResumeState R) :
    (st.inputMode = "text" →
      (trim st.resumeText ≠ "" →
        (∃ form, (ResumeState.handleAnalyze st).requests = st.requests ++ [form]) ∧
        (ResumeState.handleAnalyze st).loading = true) ∧
      (trim st.resumeText = "" →
        (ResumeState.handleAnalyze st).requests = st.requests ∧
        (ResumeState.handleAnalyze st).loading = st.loading ∧
        (ResumeState.handleAnalyze st).result = st.result)) ∧
    (st.inputMode = "file" →
      (st.selectedFile ≠ none →
        (∃ form, (ResumeState.handleAnalyze st).requests = st.requests ++ [form]) ∧
        (ResumeState.handleAnalyze st).loading = true) ∧
      (st.selectedFile = none →
        (ResumeState.handleAnalyze st).requests = st.requests ∧
        (ResumeState.handleAnalyze st).loading = st.loading ∧
        (ResumeState.handleAnalyze st).result = st.result)) := by
  refine ⟨?_, ?_⟩
  · intro hm
    refine ⟨?_, ?_⟩
    · intro ht
      have htr : truthy (trim st.resumeText) = true := (truthy_iff _).2 ht
      exact ⟨⟨[("resume_text", FormValue.text st.resumeText)],
          by simp [ResumeState.handleAnalyze, hm, htr]⟩,
        by simp [ResumeState.handleAnalyze, hm, htr]⟩
    · intro ht
      have htr : truthy (trim st.resumeText) = false := by simp [truthy, ht]
      simp [ResumeState.handleAnalyze, hm, htr]
  · intro hm
    refine ⟨?_, ?_⟩
    · intro hf
      exact ⟨⟨[("file", fileValue st.selectedFile)],
          by simp [ResumeState.handleAnalyze, hm, hf]⟩,
        by simp [ResumeState.handleAnalyze, hm, hf]⟩
    · intro hf
      simp [ResumeState.handleAnalyze, hm, hf]

/-- C26 at blank text in text mode, at typed text in text mode, and at file
mode without a file. -/
theorem handleAnalyze_guards_witness :
    (ResumeState.handleAnalyze (ResumeState.setResumeText "  \n "
      (ResumeState.initial : ResumeState Unit))).requests = [] ∧
    (ResumeState.handleAnalyze (ResumeState.setResumeText "John Doe"
      (ResumeState.initial : ResumeState Unit))).loading = true ∧
    (ResumeState.handleAnalyze (ResumeState.setInputMode "file"
      (ResumeState.initial : ResumeState Unit))).requests = [] :=
  ⟨(((handleAnalyze_guards (ResumeState.setResumeText "  \n "
      (ResumeState.initial : ResumeState Unit))).1 rfl).2 (by decide)).1,
   (((handleAnalyze_guards (ResumeState.setResumeText "John Doe"
      (ResumeState.initial : ResumeState Unit))).1 rfl).1 (by decide)).2,
   (((handleAnalyze_guards (ResumeState.setInputMode "file"
      (ResumeState.initial : ResumeState Unit))).2 rfl).2 rfl).1⟩

/-- C27: every dispatch of `handleAnalyze` appends one form to the requests,
and the form has one entry: in text mode the field `resume_text` with the
text as typed, and no file even when a file is selected; in file mode the
field `file` with the selected file, and no text even when text was typed. -/
theorem handleAnalyze_single_input {R : Type} (st : ResumeState R) :
    (st.inputMode = "text" → trim st.resumeText ≠ "" →
      (ResumeState.handleAnalyze st).requests
        = st.requests ++ [[("resume_text", FormValue.text st.resumeText)]]) ∧
    (∀ file, st.inputMode = "file" → st.selectedFile = some file →
      (ResumeState.handleAnalyze st).requests
        = st.requests ++ [[("file", FormValue.file file)]]) := by
  refine ⟨?_, ?_⟩
  · intro hm ht
    have htr : truthy (trim st.resumeText) = true := (truthy_iff _).2 ht
    simp [ResumeState.handleAnalyze, hm, htr]
  · intro file hm hf
    simp [ResumeState.handleAnalyze, hm, hf, fileValue]

/-- C27 at a page with both a typed text and a selected file: text mode sends
the text only, file mode the file only. -/
theorem handleAnalyze_single_input_witness :
    (ResumeState.handleAnalyze
      (ResumeState.mk false "John Doe" (some ⟨"cv.pdf", 2048⟩) "text" (none : Option Unit)
        [] [])).requests
      = [] ++ [[("resume_text", FormValue.text "John Doe")]] ∧
    (ResumeState.handleAnalyze
      (ResumeState.mk false "John Doe" (some ⟨"cv.pdf", 2048⟩) "file" (none : Option Unit)
        [] [])).requests
      = [] ++ [[("file", FormValue.file ⟨"cv.pdf", 2048⟩)]] :=
  ⟨(handleAnalyze_single_input
      (ResumeState.mk false "John Doe" (some ⟨"cv.pdf", 2048⟩) "text" (none : Option Unit)
        [] [])).1 rfl (by decide),
   (handleAnalyze_single_input
      (ResumeState.mk false "John Doe" (some ⟨"cv.pdf", 2048⟩) "file" (none : Option Unit)
        [] [])).2 ⟨"cv.pdf", 2048⟩ rfl rfl⟩

/-- C28, the code at its cases: `getSentimentBadge` returns the green style for
"positive", the red style for "negative", and the blue style for "neutral" and
for every other string that names no member of `Object.prototype`. For a
string that names such a member, as "constructor" does, it returns the
inherited member and not the neutral style: this is where the code departs
from the claim. The stored result is the response as received. -/
theorem getSentimentBadge_cases (sentiment : String) :
    getSentimentBadge "positive" = BadgeValue.className "bg-green-100 text-green-800" ∧
    getSentimentBadge "negative" = BadgeValue.className "bg-red-100 text-red-800" ∧
    getSentimentBadge "neutral" = BadgeValue.className "bg-blue-100 text-blue-800" ∧
    (sentiment ≠ "positive" → sentiment ≠ "negative" → sentiment ∉ objectPrototypeMembers →
      getSentimentBadge sentiment = BadgeValue.className "bg-blue-100 text-blue-800") ∧
    (sentiment ∈ objectPrototypeMembers →
      getSentimentBadge sentiment = BadgeValue.inherited sentiment) ∧
    (∀ (data : Option ResumeAnalysis) (st : ResumeState ResumeAnalysis),
      (ResumeState.handleAnalyze_fulfilled data st).result = data) := by
  refine ⟨by decide, by decide, by decide, ?_, ?_, fun _ _ => rfl⟩
  · intro h1 h2 h3
    by_cases h4 : sentiment = "neutral"
    · rw [h4]
      decide
    · simp [getSentimentBadge, variantsGet, h1, h2, h3, h4]
  · intro h
    have h1 : sentiment ≠ "positive" := by
      intro he
      rw [he] at h
      revert h
      decide
    have h2 : sentiment ≠ "negative" := by
      intro he
      rw [he] at h
      revert h
      decide
    have h3 : sentiment ≠ "neutral" := by
      intro he
      rw [he] at h
      revert h
      decide
    simp [getSentimentBadge, variantsGet, h1, h2, h3, h]

/-- C28 at the sentiment "constructor", which yields the inherited member, and
at the sentiment "mixed", which yields the neutral style. -/
theorem getSentimentBadge_cases_witness :
    getSentimentBadge "constructor" = BadgeValue.inherited "constructor" ∧
    getSentimentBadge "mixed" = BadgeValue.className "bg-blue-100 text-blue-800" :=
  ⟨(getSentimentBadge_cases "constructor").2.2.2.2.1 (by decide),
   (getSentimentBadge_cases "mixed").2.2.2.1 (by decide) (by decide) (by decide)⟩

/-! ## Claims on the two workflows of the job page and on guard and gateway -/

/-- C29, as stated, fails: with the skill "python", starting the job workflow
turns the learning-path workflow from not pending to pending; and when both
calls have been started and the job call completes, the learning-path
workflow is no longer pending although its call has not settled. -/
theorem shared_loading_flag :
    JobRecState.learningPathPending
      (JobRecState.mk ["python"] "" "software_engineer" false ([] : List Unit)
        (none : Option Unit) [] []) = false ∧
    JobRecState.learningPathPending (JobRecState.handleGetJobs
      (JobRecState.mk ["python"] "" "software_engineer" false ([] : List Unit)
        (none : Option Unit) [] [])) = true ∧
    (JobRecState.handleGetLearningPath (JobRecState.handleGetJobs
      (JobRecState.mk ["python"] "" "software_engineer" false ([] : List Unit)
        (none : Option Unit) [] []))).requests
      = [JobRequest.recommend_jobs ["python"],
         JobRequest.learning_path ["python"] "software_engineer"] ∧
    JobRecState.learningPathPending (JobRecState.handleGetJobs_fulfilled (some [])
      (JobRecState.handleGetLearningPath (JobRecState.handleGetJobs
        (JobRecState.mk ["python"] "" "software_engineer" false ([] : List Unit)
          (none : Option Unit) [] [])))) = false := by
  decide

/-- C29, amended: the two workflows keep separate results and share one
`loading` flag. Starting either, and the success or failure of either, leaves
the result of the other unchanged. Starting either with a non-empty skill
list shows both as pending, and the completion of either, success or
failure, shows both as not pending. -/
theorem separate_results_shared_flag {J L : Type} (st : JobRecState J L)
    (jobs : Option (List J)) (data : Option L) (error : AxiosError) :
    ((JobRecState.handleGetJobs st).learningPath = st.learningPath ∧
      (JobRecState.handleGetJobs_fulfilled jobs st).learningPath = st.learningPath ∧
      (JobRecState.handleGetJobs_rejected error st).learningPath = st.learningPath ∧
      (JobRecState.handleGetJobs_rejected error st).jobs = st.jobs) ∧
    ((JobRecState.handleGetLearningPath st).jobs = st.jobs ∧
      (JobRecState.handleGetLearningPath_fulfilled data st).jobs = st.jobs ∧
      (JobRecState.handleGetLearningPath_rejected error st).jobs = st.jobs ∧
      (JobRecState.handleGetLearningPath_rejected error st).learningPath = st.learningPath) ∧
    (st.skills ≠ [] →
      JobRecState.learningPathPending (JobRecState.handleGetJobs st) = true ∧
      JobRecState.jobsPending (JobRecState.handleGetLearningPath st) = true) ∧
    (JobRecState.learningPathPending (JobRecState.handleGetJobs_fulfilled jobs st) = false ∧
      JobRecState.learningPathPending (JobRecState.handleGetJobs_rejected error st) = false ∧
      JobRecState.jobsPending (JobRecState.handleGetLearningPath_fulfilled data st) = false ∧
      JobRecState.jobsPending (JobRecState.handleGetLearningPath_rejected error st)
        = false) := by
  refine ⟨⟨?_, rfl, rfl, rfl⟩, ⟨?_, rfl, rfl, rfl⟩, ?_, ⟨rfl, rfl, rfl, rfl⟩⟩
  · unfold JobRecState.handleGetJobs
    split <;> rfl
  · unfold JobRecState.handleGetLearningPath
    split <;> rfl
  · intro h
    have hl : ¬ st.skills.length = 0 := fun h0 => h (List.length_eq_zero.1 h0)
    simp [JobRecState.learningPathPending, JobRecState.jobsPending, JobRecState.handleGetJobs,
      JobRecState.handleGetLearningPath, hl]

/-- C29, amended, at the skill list ["python"]: starting the learning path
shows the job workflow as pending. -/
theorem separate_results_shared_flag_witness :
    JobRecState.jobsPending (JobRecState.handleGetLearningPath
      (JobRecState.mk ["python"] "" "software_engineer" false ([] : List Unit)
        (none : Option Unit) [] [])) = true :=
  ((separate_results_shared_flag
      (JobRecState.mk ["python"] "" "software_engineer" false ([] : List Unit)
        (none : Option Unit) [] []) none none ⟨none⟩).2.2.1 (by decide)).2

/-- C30: for every storage state and every request that carries no
Authorization header of its own, `ProtectedRoute` renders the wrapped view if
and only if the request interceptor attaches an Authorization header; when the
guard redirects, the interceptor returns any request unchanged; and with the
empty string stored as token the guard redirects and no header is attached. -/
theorem guard_and_gateway_agree {V β : Type} (s : Storage) (children : V)
    (config : RequestConfig β) (hc : config.headers.lookup "Authorization" = none) :
    (ProtectedRoute s children = Rendered.view children
      ↔ (requestInterceptor s config).headers.lookup "Authorization" ≠ none) ∧
    (ProtectedRoute s children = Rendered.navigate "/login" true →
      ∀ other : RequestConfig β, requestInterceptor s other = other) ∧
    (s.getItem "token" = some "" →
      ProtectedRoute s children = Rendered.navigate "/login" true ∧
      requestInterceptor s config = config) := by
  rcases ht : s.getItem "token" with _ | token
  · refine ⟨?_, ?_, ?_⟩
    · simp [ProtectedRoute, requestInterceptor, ht, hc]
    · intro _ other
      simp [requestInterceptor, ht]
    · intro h
      cases h
  · by_cases he : token = ""
    · subst he
      refine ⟨?_, ?_, ?_⟩
      · simp [ProtectedRoute, requestInterceptor, ht, hc, truthy]
      · intro _ other
        simp [requestInterceptor, ht, truthy]
      · intro _
        simp [ProtectedRoute, requestInterceptor, ht, truthy]
    · have htr : truthy token = true := (truthy_iff token).2 he
      refine ⟨?_, ?_, ?_⟩
      · simp [ProtectedRoute, requestInterceptor, ht, htr, setHeader, List.lookup]
      · intro h
        simp [ProtectedRoute, ht, htr] at h
      · intro h
        injection h with h
        exact absurd h he

/-- C30 at a storage with token "abc", where the guard renders the view and
the header is attached, and at a storage with the empty token, where neither
happens. -/
theorem guard_and_gateway_agree_witness :
    (ProtectedRoute ⟨[("token", "abc")]⟩ (Page.Dashboard : Page Unit)
        = Rendered.view Page.Dashboard
      ↔ (requestInterceptor ⟨[("token", "abc")]⟩
          (RequestConfig.mk "get" "/dashboard" () [])).headers.lookup "Authorization"
            ≠ none) ∧
    (ProtectedRoute ⟨[("token", "")]⟩ (Page.Dashboard : Page Unit)
        = Rendered.navigate "/login" true ∧
      requestInterceptor ⟨[("token", "")]⟩ (RequestConfig.mk "get" "/dashboard" () [])
        = RequestConfig.mk "get" "/dashboard" () []) :=
  ⟨(guard_and_gateway_agree ⟨[("token", "abc")]⟩ (Page.Dashboard : Page Unit)
      (RequestConfig.mk "get" "/dashboard" () []) rfl).1,
   (guard_and_gateway_agree ⟨[("token", "")]⟩ (Page.Dashboard : Page Unit)
      (RequestConfig.mk "get" "/dashboard" () []) rfl).2.2 rfl⟩

end CareercraftAI
